import Mathlib

/-!
Verification development for the java-8-visualizer execution engine
(src/src/jvm/runtime/JVMSimulator.ts and src/src/jvm/types/*).

The TypeScript engine is embedded shallowly:

* JavaScript numbers are modelled by `JNum`, an exact fraction
  (numerator/denominator pair, denominator kept positive by the smart
  constructors).  Every arithmetic step the verified claims depend on is
  integer-valued, so the exact-fraction model coincides with the host
  semantics there; genuinely transcendental or non-deterministic host
  primitives (Math.sqrt, Math.random, regular expressions, locale casing,
  number formatting, Date.now) are abstracted into a `Host` record of
  total functions and all theorems quantify over the host.
* Mutation is replaced by explicit state passing: the simulator fields
  that live outside the `JVMState` snapshot (nextObjectId and the cursors
  consumed from the host streams) travel in `Core`; the snapshot history
  lives in `Sim`.
* JavaScript arrays used as stacks (operand stacks, call stacks, history)
  are Lean lists with the top at the head; arrays used in insertion order
  (heap, threads, output, fields) are Lean lists in the same order as the
  source, appended at the tail.  JavaScript objects used as string-keyed
  records (monitors, static fields, loaded classes) are association lists
  with first-match lookup and replace-or-append update, which matches
  object-key semantics (unique keys, insertion order).
* JSON-round-trip deep cloning (`cloneState`) is the identity on the
  snapshot value: the embedded state contains only JSON-stable data.
* JavaScript strings are modelled by Lean strings; indexing-based string
  helpers operate on the scalar-value sequence, while `hashCode`,
  `length` and ordering use the UTF-16 code-unit sequence exactly as the
  host does.
-/

namespace JVM8

/-- Exact JavaScript-number model: an unnormalised fraction.  The smart
constructors keep `den` positive; no gcd normalisation is performed so all
operations reduce inside the kernel. -/
structure JNum where
  num : Int
  den : Int
deriving DecidableEq

/-- Build a fraction, normalising the sign so `den > 0` (given a nonzero
denominator). -/
def JNum.mk' (n d : Int) : JNum :=
  if d < 0 then ⟨-n, -d⟩ else ⟨n, d⟩

def JNum.ofInt (n : Int) : JNum := ⟨n, 1⟩

def JNum.add (a b : JNum) : JNum := ⟨a.num * b.den + b.num * a.den, a.den * b.den⟩

def JNum.sub (a b : JNum) : JNum := ⟨a.num * b.den - b.num * a.den, a.den * b.den⟩

def JNum.mul (a b : JNum) : JNum := ⟨a.num * b.num, a.den * b.den⟩

def JNum.div (a b : JNum) : JNum := JNum.mk' (a.num * b.den) (a.den * b.num)

def JNum.neg (a : JNum) : JNum := ⟨-a.num, a.den⟩

/-- Numeric equality (JavaScript `===` on numbers); valid because the
denominators are kept positive. -/
def JNum.beq (a b : JNum) : Bool := a.num * b.den == b.num * a.den

def JNum.lt (a b : JNum) : Bool := a.num * b.den < b.num * a.den

def JNum.le (a b : JNum) : Bool := a.num * b.den ≤ b.num * a.den

def JNum.isZero (a : JNum) : Bool := a.num == 0

/-- Math.trunc: truncation toward zero, as an integer.  `Int.tdiv` is
truncated division. -/
def JNum.truncInt (a : JNum) : Int := a.num.tdiv a.den

/-- Math.floor, as an integer (`Int.fdiv` is floor division). -/
def JNum.floorInt (a : JNum) : Int := a.num.fdiv a.den

/-- Math.ceil, as an integer. -/
def JNum.ceilInt (a : JNum) : Int := -((-a.num).fdiv a.den)

/-- Math.round: floor (x + 1/2) (JavaScript rounds half toward +infinity). -/
def JNum.roundInt (a : JNum) : Int := (2 * a.num + a.den).fdiv (2 * a.den)

/-- Math.abs. -/
def JNum.abs (a : JNum) : JNum := ⟨a.num.natAbs, a.den⟩

def JNum.maxJ (a b : JNum) : JNum := if a.lt b then b else a

def JNum.minJ (a b : JNum) : JNum := if b.lt a then b else a

/-- The integer a `JNum` denotes when it is integral; used where the engine
stores a number that is an integer by construction. -/
def JNum.toInt (a : JNum) : Int := a.num.tdiv a.den

-- ── UTF-16 view of strings (JavaScript string semantics) ─────────────────

/-- UTF-16 code units of one scalar value. -/
def charUtf16 (c : Char) : List Nat :=
  let n := c.toNat
  if n < 65536 then [n]
  else
    let m := n - 65536
    [55296 + m / 1024, 56320 + m % 1024]

/-- UTF-16 code-unit sequence of a string (JavaScript charCodeAt view). -/
def utf16Units (s : String) : List Nat :=
  (s.toList.map charUtf16).flatten

/-- JavaScript String.prototype.length (UTF-16 units). -/
def jsLength (s : String) : Nat := (utf16Units s).length

/-- Lexicographic comparison of code-unit lists. -/
def unitsLt : List Nat → List Nat → Bool
  | [], [] => false
  | [], _ :: _ => true
  | _ :: _, [] => false
  | a :: as, b :: bs => if a < b then true else if b < a then false else unitsLt as bs

/-- JavaScript string `<` (UTF-16 lexicographic). -/
def jsStrLt (a b : String) : Bool := unitsLt (utf16Units a) (utf16Units b)

/-- Substring test (`String.prototype.includes`). -/
def strContains (s pat : String) : Bool :=
  (s.toList.tails).any (fun t => pat.toList.isPrefixOf t)

-- ── 32-bit signed arithmetic (JavaScript `|0` and Math.imul) ─────────────

/-- Wrap an integer to signed 32-bit (the JavaScript `| 0` coercion for
integral inputs). -/
def toInt32 (n : Int) : Int := (n + 2 ^ 31) % 2 ^ 32 - 2 ^ 31

/-- JavaScript Math.imul: 32-bit signed multiplication. -/
def jsImul (a b : Int) : Int := toInt32 (toInt32 a * toInt32 b)

/-- JavaScript payload of a primitive value: number | boolean | string | null. -/
inductive JSVal where
  | num (q : JNum)
  | str (s : String)
  | bool (b : Bool)
  | null
deriving DecidableEq

-- ── Host abstraction for JavaScript built-ins ────────────────────────────

/-- Total functions standing for host (JavaScript engine) primitives whose
exact behaviour the claims do not depend on: number formatting, locale
casing, regular expressions, transcendental math, random and clock
streams.  Every theorem quantifies over the host. -/
structure Host where
  /-- String(n) for a number. -/
  numToString : JNum → String
  /-- Number.prototype.toFixed(2), used by String.format. -/
  toFixed2 : JNum → String
  /-- parseInt / parseFloat: none models NaN. -/
  parseNum : String → Option JNum
  /-- ToNumber coercion of a string (used by arithmetic on char payloads). -/
  coerceNum : String → JNum
  /-- Unicode-aware toLowerCase. -/
  lowerCase : String → String
  /-- Unicode-aware toUpperCase. -/
  upperCase : String → String
  /-- String.prototype.trim. -/
  trimStr : String → String
  /-- new RegExp(pat) + replace all / first; none models a RegExp
  constructor throw. -/
  regexReplaceAll : String → String → String → Option String
  regexReplaceFirst : String → String → String → Option String
  /-- Anchored regex test (String.prototype.matches emulation). -/
  regexTest : String → String → Option Bool
  /-- String.prototype.split with a regex; none models a throw. -/
  regexSplit : String → String → Option (List String)
  /-- Math.sqrt, Math.pow, Math.log, Math.sin, Math.cos, Math.PI. -/
  sqrt : JNum → JNum
  pow : JNum → JNum → JNum
  log : JNum → JNum
  sin : JNum → JNum
  cos : JNum → JNum
  pi : JNum
  /-- String.format: the sequential printf-style regex replacement over
  the argument payloads. -/
  format : String → List (Option JSVal) → String
  /-- Math.random() stream, consumed by a cursor. -/
  random : Nat → JNum
  /-- generateFrameId results (Date.now + Math.random suffix), consumed by
  a cursor. -/
  frameId : Nat → String

/-- A host whose abstracted primitives are constant; used to instantiate
witnesses (the theorems hold for every host). -/
def trivialHost : Host where
  numToString _ := ""
  toFixed2 _ := ""
  parseNum _ := none
  coerceNum _ := JNum.ofInt 0
  lowerCase s := s
  upperCase s := s
  trimStr s := s
  regexReplaceAll _ _ _ := none
  regexReplaceFirst _ _ _ := none
  regexTest _ _ := none
  regexSplit _ _ := none
  format s _ := s
  sqrt _ := JNum.ofInt 0
  pow _ _ := JNum.ofInt 0
  log _ := JNum.ofInt 0
  sin _ := JNum.ofInt 0
  cos _ := JNum.ofInt 0
  pi := JNum.ofInt 3
  random _ := JNum.ofInt 0
  frameId n := "frame_" ++ toString n

-- ── Data model (src/src/jvm/types/JVMState.ts) ──────────────────────────

/-- PrimitiveType. -/
inductive PrimType where
  | int | long | float | double | boolean | char | byte | short | string | void
deriving DecidableEq

/-- Value = PrimitiveValue | ReferenceValue | ArrayValue | LambdaValue.
The engine only ever constructs the first two variants (heap handles are
always ReferenceValue); LambdaValue.capturedVars, unreachable at runtime,
is omitted. -/
inductive Value where
  | primitive (ptype : PrimType) (value : JSVal)
  | reference (objectId : Option String)
  | array (objectId : String) (elementType : String)
  | lambda (objectId : String) (targetMethod : String)
deriving DecidableEq

structure HeapField where
  name : String
  type : String
  value : Value
  isStatic : Bool
deriving DecidableEq

/-- HeapObject.type. -/
inductive HKind where
  | object | array | lambda | string
deriving DecidableEq

structure HeapObject where
  id : String
  kind : HKind
  className : String
  fields : List HeapField
  arrayElements : Option (List Value)
  arrayLength : Option Int
  stringValue : Option String
  isReachable : Bool
  gcRoot : Bool
  createdAtStep : Int
  references : List String
deriving DecidableEq

structure LocalVariable where
  name : String
  type : String
  value : Value
  slot : Int
deriving DecidableEq

/-- StackFrame; operandStack has its top at the head (JavaScript push/pop
at the array end).  capturedVariables is never written by the engine and
is omitted. -/
structure StackFrame where
  id : String
  className : String
  methodName : String
  methodSignature : String
  localVariables : List LocalVariable
  operandStack : List Value
  pc : Nat
  lineNumber : Int
  isNative : Bool
deriving DecidableEq

inductive ThreadStatus where
  | NEW | RUNNABLE | RUNNING | BLOCKED | WAITING | TIMED_WAITING | TERMINATED
deriving DecidableEq

/-- ThreadState; stack has its top frame at the head. -/
structure ThreadState where
  id : String
  name : String
  stack : List StackFrame
  status : ThreadStatus
  sleepUntilStep : Option Int
  waitingOnMonitor : Option String
  holdingMonitors : List String
  objectId : Option String
  priority : Int
  isDaemon : Bool
  stepCount : Int
  interrupted : Bool
deriving DecidableEq

inductive ExecutionStatus where
  | idle | running | paused | completed | error
deriving DecidableEq

structure ProgramCounter where
  currentInstruction : Nat
  currentLine : Int
  currentMethod : String
  currentClass : String
deriving DecidableEq

structure FieldInfo where
  name : String
  type : String
  accessModifiers : List String
  isStatic : Bool
  initialValue : Option Value
deriving DecidableEq

structure ParameterInfo where
  name : String
  type : String
deriving DecidableEq

/-- MethodInfo; lineNumberTable is created empty and never written, so it
is omitted (a JSON clone also degrades a Map to an empty object). -/
structure MethodInfo where
  name : String
  returnType : String
  parameters : List ParameterInfo
  accessModifiers : List String
  isStatic : Bool
  isAbstract : Bool
  isDefault : Bool
  isNative : Bool
  bytecodeStartIndex : Nat
  bytecodeEndIndex : Nat
deriving DecidableEq

structure ClassInfo where
  name : String
  superClass : Option String
  interfaces : List String
  fields : List FieldInfo
  methods : List MethodInfo
  isInterface : Bool
  isAbstract : Bool
  accessModifiers : List String
  loadedAtStep : Int
deriving DecidableEq

structure ConstantPoolEntry where
  index : Int
  entryType : String
  value : String
deriving DecidableEq

/-- MethodArea; the string-keyed records are association lists with
object-key semantics (unique keys, insertion order). -/
structure MethodArea where
  loadedClasses : List (String × ClassInfo)
  staticFields : List (String × List (String × Value))
  constantPool : List ConstantPoolEntry
deriving DecidableEq

/-- JVMState.  The `stack` field of the source is a mutable alias of
`threads[activeThread].stack`, kept in sync at every observation point; it
is represented as the derived view `stackAlias` rather than duplicated
state.  `nativeStack` stays empty for the whole session. -/
structure VMState where
  heap : List HeapObject
  methodArea : MethodArea
  pc : ProgramCounter
  nativeStack : List StackFrame
  status : ExecutionStatus
  stepNumber : Int
  output : List String
  error : Option String
  threads : List ThreadState
  activeThread : Nat
  monitors : List (String × Option String)
deriving DecidableEq

/-- The `state.stack` alias. -/
def VMState.stackAlias (s : VMState) : List StackFrame :=
  match s.threads.get? s.activeThread with
  | some t => t.stack
  | none => []

-- ── Record (JavaScript object) helpers ──────────────────────────────────

/-- Replace-or-append update of a string-keyed record. -/
def recordSet {α : Type} : List (String × α) → String → α → List (String × α)
  | [], k, v => [(k, v)]
  | (k', v') :: rest, k, v =>
      if k' == k then (k, v) :: rest else (k', v') :: recordSet rest k v

-- ── Value helpers (JVMState.ts) ─────────────────────────────────────────

def createPrimitiveValue (t : PrimType) (v : JSVal) : Value := Value.primitive t v

def createReferenceValue (objectId : Option String) : Value := Value.reference objectId

def createNullValue : Value := Value.reference none

def isNullValue : Value → Bool
  | Value.reference none => true
  | _ => false

/-- JavaScript truthiness of a payload (NaN is outside the model). -/
def jsTruthy : JSVal → Bool
  | JSVal.num q => !q.isZero
  | JSVal.str s => s ≠ ""
  | JSVal.bool b => b
  | JSVal.null => false

/-- JavaScript String(payload) conversion. -/
def jsValToString (h : Host) : JSVal → String
  | JSVal.num q => h.numToString q
  | JSVal.str s => s
  | JSVal.bool b => if b then "true" else "false"
  | JSVal.null => "null"

/-- The single-quote character, written without an apostrophe literal. -/
def squote : String := (Char.ofNat 39).toString

/-- valueToString (JVMState.ts); the host renders numeric payloads. -/
def valueToString (h : Host) : Value → String
  | Value.primitive t v =>
      if v = JSVal.null then "null"
      else if t = PrimType.string then "\"" ++ jsValToString h v ++ "\""
      else if t = PrimType.char then squote ++ jsValToString h v ++ squote
      else if t = PrimType.boolean then (if jsTruthy v then "true" else "false")
      else jsValToString h v
  | Value.reference objectId =>
      match objectId with
      | some oid => "@" ++ oid
      | none => "null"
  | Value.array objectId elementType => elementType ++ "[]@" ++ objectId
  | Value.lambda objectId _ => "Lambda@" ++ objectId

def createInitialJVMState : VMState where
  heap := []
  methodArea := { loadedClasses := [], staticFields := [], constantPool := [] }
  pc := { currentInstruction := 0, currentLine := 0, currentMethod := "", currentClass := "" }
  nativeStack := []
  status := ExecutionStatus.idle
  stepNumber := 0
  output := []
  error := none
  threads := []
  activeThread := 0
  monitors := []

-- ── JavaScript operator semantics on payloads ───────────────────────────

/-- ToNumber coercion of a payload. -/
def toNumber (h : Host) : JSVal → JNum
  | JSVal.num q => q
  | JSVal.bool b => JNum.ofInt (if b then 1 else 0)
  | JSVal.null => JNum.ofInt 0
  | JSVal.str s => h.coerceNum s

/-- JavaScript `+`: string concatenation when either side is a string,
numeric addition otherwise. -/
def jsAddVal (h : Host) (a b : JSVal) : JSVal :=
  match a, b with
  | JSVal.str _, _ => JSVal.str (jsValToString h a ++ jsValToString h b)
  | _, JSVal.str _ => JSVal.str (jsValToString h a ++ jsValToString h b)
  | _, _ => JSVal.num ((toNumber h a).add (toNumber h b))

def jsSubVal (h : Host) (a b : JSVal) : JSVal :=
  JSVal.num ((toNumber h a).sub (toNumber h b))

def jsMulVal (h : Host) (a b : JSVal) : JSVal :=
  JSVal.num ((toNumber h a).mul (toNumber h b))

def jsDivVal (h : Host) (a b : JSVal) : JSVal :=
  JSVal.num ((toNumber h a).div (toNumber h b))

/-- JavaScript `%`: x - y * trunc(x / y). -/
def JNum.jsRem (x y : JNum) : JNum :=
  x.sub (y.mul (JNum.ofInt ((x.div y).truncInt)))

def jsModVal (h : Host) (a b : JSVal) : JSVal :=
  JSVal.num ((toNumber h a).jsRem (toNumber h b))

/-- JavaScript strict equality on payloads. -/
def jsStrictEq (a b : JSVal) : Bool :=
  match a, b with
  | JSVal.num x, JSVal.num y => x.beq y
  | JSVal.str x, JSVal.str y => x == y
  | JSVal.bool x, JSVal.bool y => x == y
  | JSVal.null, JSVal.null => true
  | _, _ => false

/-- `payload !== 0` (strict, so only numeric payloads can equal 0). -/
def jsIsZeroNum : JSVal → Bool
  | JSVal.num q => q.isZero
  | _ => false

/-- JavaScript `<`: string comparison when both are strings, numeric
otherwise. -/
def jsLtVal (h : Host) (a b : JSVal) : Bool :=
  match a, b with
  | JSVal.str x, JSVal.str y => jsStrLt x y
  | _, _ => (toNumber h a).lt (toNumber h b)

def jsLeVal (h : Host) (a b : JSVal) : Bool :=
  match a, b with
  | JSVal.str x, JSVal.str y => jsStrLt x y || x == y
  | _, _ => (toNumber h a).le (toNumber h b)

-- ── Bytecode types (src/src/jvm/types/Bytecode.ts) ──────────────────────

inductive OpCode where
  | NOP
  | LOAD_CONST | PUSH_NULL
  | LOAD_LOCAL | STORE_LOCAL
  | NEW | NEWARRAY | ARRAYLENGTH | ARRAYLOAD | ARRAYSTORE
  | GETFIELD | PUTFIELD | GETSTATIC | PUTSTATIC
  | INVOKE_VIRTUAL | INVOKE_STATIC | INVOKE_SPECIAL | INVOKE_INTERFACE
  | RETURN | RETURN_VALUE
  | POP | DUP | SWAP
  | ADD | SUB | MUL | DIV | MOD | NEG
  | CMP_EQ | CMP_NE | CMP_LT | CMP_LE | CMP_GT | CMP_GE
  | AND | OR | NOT
  | GOTO | IF_TRUE | IF_FALSE
  | CHECKCAST | INSTANCEOF
  | LAMBDA_CREATE | LAMBDA_INVOKE
  | STREAM_SOURCE | STREAM_MAP | STREAM_FILTER | STREAM_FLATMAP
  | STREAM_REDUCE | STREAM_COLLECT | STREAM_FOREACH | STREAM_COUNT
  | PRINT | LINE | BREAKPOINT | THROW
  | LOAD_CLASS
  | MONITORENTER | MONITOREXIT | DUP_X1
deriving DecidableEq

/-- InstructionOperand; the `class`, `method`, `field` and `type`
discriminants carry a Ref suffix because `class` is reserved in Lean. -/
inductive InstructionOperand where
  | int (value : Int)
  | float (value : JNum)
  | string (value : String)
  | boolean (value : Bool)
  | classRef (value : String)
  | methodRef (value : String) (descriptor : String)
  | fieldRef (value : String) (owner : String)
  | local (index : Int) (name : String)
  | label (target : Nat)
  | typeRef (value : String)
deriving DecidableEq

structure Instruction where
  opcode : OpCode
  operands : List InstructionOperand
  sourceLine : Int
  comment : Option String
deriving DecidableEq

structure LocalVariableEntry where
  index : Int
  name : String
  type : String
  startPc : Int
  endPc : Int
deriving DecidableEq

structure CompiledMethod where
  className : String
  methodName : String
  signature : String
  instructions : List Instruction
  localVariableTable : List LocalVariableEntry
  maxStack : Int
  maxLocals : Int
deriving DecidableEq

structure CompiledField where
  name : String
  type : String
  isStatic : Bool
  initialValue : Option InstructionOperand
deriving DecidableEq

structure CompiledClass where
  name : String
  superClass : String
  interfaces : List String
  fields : List CompiledField
  methods : List CompiledMethod
  isInterface : Bool
  sourceFile : String
deriving DecidableEq

structure CompiledProgram where
  classes : List CompiledClass
  mainClass : String
  mainMethod : String
  allInstructions : List Instruction
  methodOffsets : List (String × Nat)
deriving DecidableEq

-- ── Simulator state outside the snapshot ────────────────────────────────

/-- The simulator fields that live outside the cloned `JVMState`:
`nextObjectId` plus the cursors that consume the host random/clock
streams (`Math.random()` and `Date.now()` calls). -/
structure Core where
  state : VMState
  nextObjectId : Nat
  randClock : Nat
  frameClock : Nat
deriving DecidableEq

def generateObjectId (c : Core) : String × Core :=
  ("obj_" ++ toString c.nextObjectId, { c with nextObjectId := c.nextObjectId + 1 })

def generateFrameId (h : Host) (c : Core) : String × Core :=
  (h.frameId c.frameClock, { c with frameClock := c.frameClock + 1 })

def nextRandom (h : Host) (c : Core) : JNum × Core :=
  (h.random c.randClock, { c with randClock := c.randClock + 1 })

-- ── List-as-mutable-array helpers ───────────────────────────────────────

/-- Mutate the first element satisfying `p` (JavaScript
`find(...)` followed by in-place mutation). -/
def updateFirst {α : Type} (p : α → Bool) (f : α → α) : List α → List α
  | [] => []
  | x :: xs => if p x then f x :: xs else x :: updateFirst p f xs

def getThread (c : Core) (i : Nat) : Option ThreadState := c.state.threads.get? i

def activeThreadState (c : Core) : Option ThreadState :=
  c.state.threads.get? c.state.activeThread

def setThread (c : Core) (i : Nat) (t : ThreadState) : Core :=
  { c with state := { c.state with threads := c.state.threads.set i t } }

def modifyThread (c : Core) (i : Nat) (f : ThreadState → ThreadState) : Core :=
  match c.state.threads.get? i with
  | some t => setThread c i (f t)
  | none => c

/-- Mutate the top frame of thread `i` (the source mutates the `frame`
reference handed to `executeInstruction`). -/
def modifyTopFrame (c : Core) (i : Nat) (f : StackFrame → StackFrame) : Core :=
  modifyThread c i fun t =>
    { t with stack := match t.stack with
        | fr :: rest => f fr :: rest
        | [] => [] }

def topFrame (c : Core) (i : Nat) : Option StackFrame :=
  match getThread c i with
  | some t => t.stack.head?
  | none => none

def getHeapObjById (c : Core) (oid : String) : Option HeapObject :=
  c.state.heap.find? (fun o => o.id == oid)

/-- getHeapObj (JVMSimulator.ts): resolve a reference value. -/
def getHeapObj (c : Core) : Value → Option HeapObject
  | Value.reference (some oid) => getHeapObjById c oid
  | _ => none

def modifyHeapObj (c : Core) (oid : String) (f : HeapObject → HeapObject) : Core :=
  { c with state := { c.state with heap := updateFirst (fun o => o.id == oid) f c.state.heap } }

def pushHeapObj (c : Core) (o : HeapObject) : Core :=
  { c with state := { c.state with heap := c.state.heap ++ [o] } }

/-- invokeStdlib helper getRefId. -/
def getRefId : Value → Option String
  | Value.reference oid => oid
  | Value.array oid _ => some oid
  | Value.lambda oid _ => some oid
  | _ => none

/-- invokeStdlib helper heapOf. -/
def heapOf (c : Core) (v : Value) : Option HeapObject :=
  match getRefId v with
  | some oid => getHeapObjById c oid
  | none => none

-- ── Simulator helpers (JVMSimulator.ts) ─────────────────────────────────

def operandToValue : InstructionOperand → Value
  | InstructionOperand.int n => createPrimitiveValue PrimType.int (JSVal.num (JNum.ofInt n))
  | InstructionOperand.float q => createPrimitiveValue PrimType.double (JSVal.num q)
  | InstructionOperand.string s => createPrimitiveValue PrimType.string (JSVal.str s)
  | InstructionOperand.boolean b => createPrimitiveValue PrimType.boolean (JSVal.bool b)
  | _ => createNullValue

def getDefaultValue (t : String) : Value :=
  if t == "int" || t == "long" || t == "short" || t == "byte" then
    createPrimitiveValue PrimType.int (JSVal.num (JNum.ofInt 0))
  else if t == "float" || t == "double" then
    createPrimitiveValue PrimType.double (JSVal.num (JNum.ofInt 0))
  else if t == "boolean" then
    createPrimitiveValue PrimType.boolean (JSVal.bool false)
  else if t == "char" then
    createPrimitiveValue PrimType.char (JSVal.str "\x00")
  else createNullValue

/-- Regex \)(.+)$ : the text after the first `)` that has a nonempty
suffix, defaulting to void. -/
def extractReturnTypeAux : List Char → String
  | [] => "void"
  | c :: rest =>
      if c == ')' && rest ≠ [] then String.mk rest else extractReturnTypeAux rest

def extractReturnType (signature : String) : String :=
  extractReturnTypeAux signature.toList

def allocateObject (c : Core) (className : String) : String × Core :=
  let (id, c) := generateObjectId c
  let classInfo := c.state.methodArea.loadedClasses.lookup className
  let fields : List HeapField :=
    match classInfo with
    | some ci =>
        (ci.fields.filter (fun f => !f.isStatic)).map fun f =>
          { name := f.name, type := f.type,
            value := match f.initialValue with
              | some v => v
              | none => getDefaultValue f.type,
            isStatic := false }
    | none => []
  let obj : HeapObject :=
    { id := id, kind := HKind.object, className := className, fields := fields,
      arrayElements := none, arrayLength := none, stringValue := none,
      isReachable := true, gcRoot := false,
      createdAtStep := c.state.stepNumber, references := [] }
  (id, pushHeapObj c obj)

def allocateArray (c : Core) (elementType : String) (elements : List Value) :
    String × Core :=
  let (id, c) := generateObjectId c
  let obj : HeapObject :=
    { id := id, kind := HKind.array, className := elementType ++ "[]", fields := [],
      arrayElements := some elements, arrayLength := some elements.length,
      stringValue := none, isReachable := true, gcRoot := false,
      createdAtStep := c.state.stepNumber, references := [] }
  (id, pushHeapObj c obj)

def allocateLambda (c : Core) (lambdaInfo : String) : String × Core :=
  let (id, c) := generateObjectId c
  let obj : HeapObject :=
    { id := id, kind := HKind.lambda, className := "Lambda",
      fields := [{ name := "info", type := "String",
                   value := createPrimitiveValue PrimType.string (JSVal.str lambdaInfo),
                   isStatic := false }],
      arrayElements := none, arrayLength := none, stringValue := none,
      isReachable := true, gcRoot := false,
      createdAtStep := c.state.stepNumber, references := [] }
  (id, pushHeapObj c obj)

def createIterator (c : Core) (sourceObj : HeapObject) : String × Core :=
  let arrId := sourceObj.id
  let (itId, c) := generateObjectId c
  let itObj : HeapObject :=
    { id := itId, kind := HKind.object, className := "$Iterator",
      fields :=
        [{ name := "$array", type := "Object",
           value := createReferenceValue (some arrId), isStatic := false },
         { name := "$index", type := "int",
           value := createPrimitiveValue PrimType.int (JSVal.num (JNum.ofInt 0)),
           isStatic := false }],
      arrayElements := none, arrayLength := none, stringValue := none,
      isReachable := true, gcRoot := false,
      createdAtStep := c.state.stepNumber, references := [arrId] }
  (itId, pushHeapObj c itObj)

/-- isSubclassOf: walk the superclass chain.  The source while-loop
terminates on every acyclic chain; fuel bounded by the class count makes
the walk total (a cyclic chain would not terminate in the source either). -/
def isSubclassOfAux (prog : CompiledProgram) (parentClass : String) :
    Nat → String → Bool
  | 0, _ => false
  | fuel + 1, current =>
      if current == "" || current == "Object" then false
      else
        match prog.classes.find? (fun cls => cls.name == current) with
        | none => false
        | some cls =>
            if cls.superClass == parentClass then true
            else isSubclassOfAux prog parentClass fuel cls.superClass

def isSubclassOf (prog : CompiledProgram) (childClass parentClass : String) : Bool :=
  if childClass == "" || childClass == parentClass then true
  else isSubclassOfAux prog parentClass prog.classes.length childClass

/-- valToString (invokeStdlib stringification, used for map keys and
descriptions). -/
def valToString (h : Host) : Value → String
  | Value.primitive _ v =>
      if v = JSVal.null then "null" else jsValToString h v
  | Value.reference oid =>
      match oid with
      | some i => "@" ++ i
      | none => "null"
  | v => valueToString h v

-- ── Monitors ────────────────────────────────────────────────────────────

/-- acquireMonitor: true when acquired (free or reentrant), false when a
different thread holds it. -/
def acquireMonitor (c : Core) (objectId threadId : String) : Bool × Core :=
  let holder := c.state.monitors.lookup objectId
  if holder == none || holder == some none || holder == some (some threadId) then
    let monitors := recordSet c.state.monitors objectId (some threadId)
    let threads := updateFirst (fun t => t.id == threadId)
      (fun t =>
        if t.holdingMonitors.contains objectId then t
        else { t with holdingMonitors := t.holdingMonitors ++ [objectId] })
      c.state.threads
    (true, { c with state := { c.state with monitors := monitors, threads := threads } })
  else (false, c)

/-- releaseMonitor: release when held by `threadId`, then wake one BLOCKED
thread waiting for this monitor. -/
def releaseMonitor (c : Core) (objectId threadId : String) : Core :=
  if c.state.monitors.lookup objectId == some (some threadId) then
    let monitors := recordSet c.state.monitors objectId none
    let threads := updateFirst (fun t => t.id == threadId)
      (fun t => { t with holdingMonitors := t.holdingMonitors.filter (fun m => !(m == objectId)) })
      c.state.threads
    let threads := updateFirst
      (fun t => t.status == ThreadStatus.BLOCKED && t.waitingOnMonitor == some objectId)
      (fun t => { t with status := ThreadStatus.RUNNABLE, waitingOnMonitor := none })
      threads
    { c with state := { c.state with monitors := monitors, threads := threads } }
  else c

-- ── Scheduler ───────────────────────────────────────────────────────────

/-- tickThreads: wake timed sleepers whose deadline passed and joiners
whose target terminated or vanished.  The source iterates the thread
array in place; the fold mirrors that order. -/
def tickIter (c : Core) (i : Nat) : Core :=
  match c.state.threads.get? i with
  | none => c
  | some t =>
      let t :=
        if t.status == ThreadStatus.TIMED_WAITING &&
            (match t.sleepUntilStep with
             | some u => decide (u ≤ c.state.stepNumber)
             | none => false) then
          { t with status := ThreadStatus.RUNNABLE, sleepUntilStep := none }
        else t
      let c := setThread c i t
      if t.status == ThreadStatus.WAITING &&
          (match t.waitingOnMonitor with
           | some w => w ≠ ""
           | none => false) then
        match t.waitingOnMonitor with
        | some w =>
            match c.state.threads.find? (fun th => th.id == w) with
            | none =>
                setThread c i
                  { t with status := ThreadStatus.RUNNABLE, waitingOnMonitor := none }
            | some target =>
                if target.status == ThreadStatus.TERMINATED then
                  setThread c i
                    { t with status := ThreadStatus.RUNNABLE, waitingOnMonitor := none }
                else c
        | none => c
      else c

def tickThreads (c : Core) : Core :=
  (List.range c.state.threads.length).foldl tickIter c

/-- rotateThread: round-robin to the next RUNNABLE/RUNNING thread. -/
def rotateThread (c : Core) : Core :=
  let n := c.state.threads.length
  if n ≤ 1 then c
  else
    let start := c.state.activeThread
    match (List.range' 1 (n - 1)).find?
        (fun i =>
          match c.state.threads.get? ((start + i) % n) with
          | some t => t.status == ThreadStatus.RUNNABLE || t.status == ThreadStatus.RUNNING
          | none => false) with
    | some i => { c with state := { c.state with activeThread := (start + i) % n } }
    | none => c

-- ── JavaScript string helpers ───────────────────────────────────────────
-- Index-based string helpers operate on the scalar-value sequence
-- (s.toList); JavaScript indexes UTF-16 units instead, which differs only
-- on strings with characters outside the basic multilingual plane.

/-- ToIntegerOrInfinity of an index argument. -/
def idxOf (q : JNum) : Int := q.truncInt

/-- Clamp an index to [0, len]. -/
def clampIdx (len : Nat) (q : JNum) : Nat :=
  let i := idxOf q
  if i < 0 then 0 else min i.toNat len

/-- String.prototype.charAt. -/
def jsCharAt (s : String) (q : JNum) : String :=
  let i := idxOf q
  if i < 0 then ""
  else
    match s.toList.get? i.toNat with
    | some ch => ch.toString
    | none => ""

/-- String.prototype.codePointAt, with the source fallback `?? 0`. -/
def jsCodePointAt (s : String) (q : JNum) : Int :=
  let i := idxOf q
  if i < 0 then 0
  else
    match s.toList.get? i.toNat with
    | some ch => ch.toNat
    | none => 0

/-- String.prototype.substring: clamp both ends and swap when reversed. -/
def jsSubstring (s : String) (a b : JNum) : String :=
  let len := s.toList.length
  let x := clampIdx len a
  let y := clampIdx len b
  let lo := min x y
  let hi := max x y
  String.mk ((s.toList.drop lo).take (hi - lo))

/-- Array.prototype.slice-style clamping (negative counts from the end). -/
def sliceIdx (len : Nat) (q : JNum) : Nat :=
  let i := idxOf q
  if i < 0 then len - (-i).toNat else min i.toNat len

def jsSliceList {α : Type} (l : List α) (a b : JNum) : List α :=
  let lo := sliceIdx l.length a
  let hi := sliceIdx l.length b
  (l.drop lo).take (hi - lo)

/-- First match position of `pat` in `s` at or after `from`. -/
def indexOfFrom (s pat : List Char) (from_ : Nat) : Int :=
  match ((s.drop from_).tails.takeWhile (fun _ => true)).findIdx?
      (fun t => pat.isPrefixOf t) with
  | some i => Int.ofNat (from_ + i)
  | none => -1

/-- String.prototype.indexOf. -/
def jsIndexOf (s pat : String) (from_ : Nat) : Int :=
  indexOfFrom s.toList pat.toList from_

/-- String.prototype.lastIndexOf, optionally bounded by `from`. -/
def jsLastIndexOf (s pat : String) (from_ : Option JNum) : Int :=
  let sl := s.toList
  let bound :=
    match from_ with
    | some q => clampIdx sl.length q
    | none => sl.length
  match (((List.range (bound + 1)).filter
      (fun i => pat.toList.isPrefixOf (sl.drop i))).reverse).head? with
  | some i => Int.ofNat i
  | none => -1

/-- String.prototype.startsWith with a position. -/
def jsStartsWith (s pat : String) (q : JNum) : Bool :=
  pat.toList.isPrefixOf (s.toList.drop (clampIdx s.toList.length q))

def jsEndsWith (s pat : String) : Bool :=
  pat.toList.isSuffixOf s.toList

/-- Repeat a string n times (the call site guards n > 0). -/
def jsRepeat (s : String) (n : Nat) : String :=
  String.join (List.replicate n s)

/-- Literal (non-regex) String.prototype.split. -/
def jsSplitLitAux (pat : List Char) : Nat → List Char → List Char → List String
  | 0, acc, rest => [String.mk (acc ++ rest)]
  | _ + 1, acc, [] => [String.mk acc]
  | fuel + 1, acc, c :: rest =>
      if pat ≠ [] && pat.isPrefixOf (c :: rest) then
        String.mk acc :: jsSplitLitAux pat fuel [] ((c :: rest).drop pat.length)
      else
        jsSplitLitAux pat fuel (acc ++ [c]) rest

/-- String.prototype.split with a string separator; an empty separator
splits into single characters. -/
def jsSplitLit (s pat : String) : List String :=
  if pat == "" then s.toList.map Char.toString
  else jsSplitLitAux pat.toList (s.toList.length + 1) [] s.toList

/-- replace(from, to) is implemented in the source as split(from).join(to). -/
def jsReplaceLit (s from_ to_ : String) : String :=
  String.intercalate to_ (jsSplitLit s from_)

/-- Leading-whitespace strip (regex ^\s+; \s approximated by
Char.isWhitespace). -/
def jsStripLeading (s : String) : String :=
  String.mk (s.toList.dropWhile Char.isWhitespace)

def jsStripTrailing (s : String) : String :=
  String.mk ((s.toList.reverse.dropWhile Char.isWhitespace).reverse)

/-- Stable sort with a boolean keep-in-order relation (JavaScript
Array.prototype.sort with a comparator is stable). -/
def insertStable {α : Type} (keeps : α → α → Bool) (x : α) : List α → List α
  | [] => [x]
  | y :: ys => if keeps y x then y :: insertStable keeps x ys else x :: y :: ys

def stableSort {α : Type} (keeps : α → α → Bool) : List α → List α
  | [] => []
  | x :: xs => insertStable keeps x (stableSort keeps xs)

/-- Swap two positions of a list (Collections.swap). -/
def listSwap {α : Type} (l : List α) (i j : Nat) : List α :=
  match l.get? i, l.get? j with
  | some a, some b => (l.set i b).set j a
  | _, _ => l

/-- Insert at a (clamped) position: Array.prototype.splice(i, 0, x). -/
def spliceInsert {α : Type} (l : List α) (q : JNum) (x : α) : List α :=
  let i := let k := idxOf q; if k < 0 then l.length - (-k).toNat else min k.toNat l.length
  l.take i ++ x :: l.drop i

/-- Remove one element at a position: splice(i, 1); returns the removed
element if any. -/
def spliceRemove {α : Type} (l : List α) (q : JNum) : Option α × List α :=
  let i := let k := idxOf q; if k < 0 then l.length - (-k).toNat else k.toNat
  match l.get? i with
  | some x => (some x, l.take i ++ l.drop (i + 1))
  | none => (none, l)

-- ── invokeStdlib argument accessors and push helpers ────────────────────

def pushVal (c : Core) (ti : Nat) (v : Value) : Core :=
  modifyTopFrame c ti fun fr => { fr with operandStack := v :: fr.operandStack }

def pushPrim (c : Core) (ti : Nat) (t : PrimType) (j : JSVal) : Core :=
  pushVal c ti (createPrimitiveValue t j)

def pushStr (c : Core) (ti : Nat) (s : String) : Core :=
  pushPrim c ti PrimType.string (JSVal.str s)

def pushInt (c : Core) (ti : Nat) (n : Int) : Core :=
  pushPrim c ti PrimType.int (JSVal.num (JNum.ofInt n))

def pushNum (c : Core) (ti : Nat) (t : PrimType) (q : JNum) : Core :=
  pushPrim c ti t (JSVal.num q)

def pushBool (c : Core) (ti : Nat) (b : Bool) : Core :=
  pushPrim c ti PrimType.boolean (JSVal.bool b)

def pushChar (c : Core) (ti : Nat) (s : String) : Core :=
  pushPrim c ti PrimType.char (JSVal.str s)

/-- args[i] when it is a primitive (the `prim` accessor). -/
def argPrim (args : List Value) (i : Nat) : Option JSVal :=
  match args.get? i with
  | some (Value.primitive _ p) => some p
  | _ => none

/-- `prim(i)!.value as number` used in a numeric position (ToNumber on
non-number payloads), defaulting to 0. -/
def argNum (h : Host) (args : List Value) (i : Nat) : JNum :=
  match argPrim args i with
  | some p => toNumber h p
  | none => JNum.ofInt 0

/-- `String(prim(i)!.value)`, defaulting to the empty string. -/
def argStr (h : Host) (args : List Value) (i : Nat) : String :=
  match argPrim args i with
  | some p => jsValToString h p
  | none => ""

def argOrNull (args : List Value) (i : Nat) : Value :=
  (args.get? i).getD createNullValue

-- ── Standard-library emulation (invokeStdlib), family by family ─────────

/-- Early Arrays.toString block (before the String family). -/
def stdArraysEarly (h : Host) (c : Core) (ti : Nat) (methodName : String)
    (args : List Value) (className : String) : Option (Core × String) :=
  if (className == "java/util/Arrays" || className == "Arrays") &&
      methodName == "toString" && args.length == 1 then
    match args.get? 0 with
    | some (Value.reference oid) =>
        let arrObj := getHeapObj c (Value.reference oid)
        let str :=
          match arrObj with
          | some o =>
              if o.className.toList.head? == some '[' then
                "[" ++ String.intercalate ", "
                  ((o.arrayElements.getD []).map (valToString h)) ++ "]"
              else "null"
          | none => "null"
        some (pushStr c ti str, "Arrays.toString(...)")
    | _ => none
  else none

/-- The receiver string of the String family: the primitive payload, the
heap string value, or a $value field. -/
def stringReceiverValue (h : Host) (strVal : Option String)
    (obj : Option HeapObject) : String :=
  match strVal with
  | some s => s
  | none =>
      match obj with
      | some o =>
          match o.stringValue with
          | some sv => sv
          | none =>
              match o.fields.find? (fun f => f.name == "$value") with
              | some f =>
                  match f.value with
                  | Value.primitive _ p => jsValToString h p
                  | _ => ""
              | none => ""
      | none => ""

/-- The canonical 32-bit signed Java string-hash fold of the stdlib:
h = (Math.imul(31, h) + charCode) | 0. -/
def stringHashCode (units : List Nat) : Int :=
  units.foldl (fun acc u => toInt32 (jsImul 31 acc + (u : Int))) 0

/-- String family of invokeStdlib (primitive-string receivers and heap
objects of class String). -/
def stdString (h : Host) (c : Core) (ti : Nat) (methodName : String)
    (args : List Value) (className : String) (strVal : Option String)
    (obj : Option HeapObject) : Option (Core × String) :=
  if className == "String" || strVal ≠ none then
    let s := stringReceiverValue h strVal obj
    match methodName with
    | "length" => some (pushInt c ti (jsLength s), "String.length = " ++ toString (jsLength s))
    | "charAt" =>
        some (pushChar c ti (jsCharAt s (argNum h args 0)),
          "String.charAt(" ++ h.numToString (argNum h args 0) ++ ")")
    | "codePointAt" => some (pushInt c ti (jsCodePointAt s (argNum h args 0)), "String.codePointAt")
    | "substring" =>
        let a := argNum h args 0
        let b := match argPrim args 1 with
          | some p => toNumber h p
          | none => JNum.ofInt (jsLength s)
        some (pushStr c ti (jsSubstring s a b),
          "String.substring(" ++ h.numToString a ++ "," ++ h.numToString b ++ ")")
    | "indexOf" =>
        let q := argStr h args 0
        let from_ := match argPrim args 1 with
          | some p => toNumber h p
          | none => JNum.ofInt 0
        some (pushInt c ti (jsIndexOf s q (clampIdx s.toList.length from_)), "String.indexOf")
    | "lastIndexOf" =>
        let q := argStr h args 0
        let from_ := (argPrim args 1).map (toNumber h)
        some (pushInt c ti (jsLastIndexOf s q from_), "String.lastIndexOf")
    | "contains" => some (pushBool c ti (strContains s (argStr h args 0)), "String.contains")
    | "startsWith" =>
        let off := match argPrim args 1 with
          | some p => toNumber h p
          | none => JNum.ofInt 0
        some (pushBool c ti (jsStartsWith s (argStr h args 0) off), "String.startsWith")
    | "endsWith" => some (pushBool c ti (jsEndsWith s (argStr h args 0)), "String.endsWith")
    | "toLowerCase" => some (pushStr c ti (h.lowerCase s), "String.toLowerCase")
    | "toUpperCase" => some (pushStr c ti (h.upperCase s), "String.toUpperCase")
    | "trim" => some (pushStr c ti (h.trimStr s), "String.trim")
    | "strip" => some (pushStr c ti (h.trimStr s), "String.strip")
    | "stripLeading" => some (pushStr c ti (jsStripLeading s), "String.stripLeading")
    | "stripTrailing" => some (pushStr c ti (jsStripTrailing s), "String.stripTrailing")
    | "isBlank" => some (pushBool c ti (jsLength (h.trimStr s) == 0), "String.isBlank")
    | "isEmpty" => some (pushBool c ti (jsLength s == 0), "String.isEmpty")
    | "repeat" =>
        let n := argNum h args 0
        some (pushStr c ti (if (JNum.ofInt 0).lt n then jsRepeat s n.truncInt.toNat else ""),
          "String.repeat(" ++ h.numToString n ++ ")")
    | "concat" => some (pushStr c ti (s ++ argStr h args 0), "String.concat")
    | "replace" =>
        some (pushStr c ti (jsReplaceLit s (argStr h args 0) (argStr h args 1)), "String.replace")
    | "replaceAll" =>
        some (pushStr c ti ((h.regexReplaceAll (argStr h args 0) (argStr h args 1) s).getD s),
          "String.replaceAll")
    | "replaceFirst" =>
        some (pushStr c ti ((h.regexReplaceFirst (argStr h args 0) (argStr h args 1) s).getD s),
          "String.replaceFirst")
    | "matches" =>
        some (pushBool c ti ((h.regexTest ("^" ++ argStr h args 0 ++ "$") s).getD false),
          "String.matches")
    | "equals" => some (pushBool c ti (s == argStr h args 0), "String.equals")
    | "equalsIgnoreCase" =>
        some (pushBool c ti (h.lowerCase s == h.lowerCase (argStr h args 0)),
          "String.equalsIgnoreCase")
    | "compareTo" =>
        let b := argStr h args 0
        some (pushInt c ti (if jsStrLt s b then -1 else if jsStrLt b s then 1 else 0),
          "String.compareTo")
    | "compareToIgnoreCase" =>
        let a2 := h.lowerCase s
        let b2 := h.lowerCase (argStr h args 0)
        some (pushInt c ti (if jsStrLt a2 b2 then -1 else if jsStrLt b2 a2 then 1 else 0),
          "String.compareToIgnoreCase")
    | "hashCode" => some (pushInt c ti (stringHashCode (utf16Units s)), "String.hashCode")
    | "toString" => some (pushStr c ti s, "String." ++ methodName)
    | "intern" => some (pushStr c ti s, "String." ++ methodName)
    | "toCharArray" =>
        let chars := s.toList.map fun ch =>
          createPrimitiveValue PrimType.char (JSVal.str ch.toString)
        let (arrId, c) := allocateArray c "char" chars
        some (pushVal c ti (createReferenceValue (some arrId)),
          "String.toCharArray [len=" ++ toString (jsLength s) ++ "]")
    | "split" =>
        let delim := argStr h args 0
        let parts :=
          match h.regexSplit delim s with
          | some ps => ps
          | none => jsSplitLit s delim
        let partVals := parts.map fun p => createPrimitiveValue PrimType.string (JSVal.str p)
        let partVals :=
          match argPrim args 1 with
          | some p => jsSliceList partVals (JNum.ofInt 0) (toNumber h p)
          | none => partVals
        let (arrId, c) := allocateArray c "String" partVals
        some (pushVal c ti (createReferenceValue (some arrId)), "String.split")
    | "valueOf" =>
        let v :=
          match argPrim args 0 with
          | some p => jsValToString h p
          | none => "null"
        some (pushStr c ti v, "String.valueOf")
    | "format" =>
        let fmt := argStr h args 0
        let payloads := args.map fun v =>
          match v with
          | Value.primitive _ p => some p
          | _ => none
        some (pushStr c ti (h.format fmt payloads), "String.format")
    | "join" =>
        let delim := argStr h args 0
        let arrObj := heapOf c (argOrNull args 1)
        let parts2 :=
          match arrObj with
          | some o => (o.arrayElements.getD []).map fun e =>
              match e with
              | Value.primitive _ p => jsValToString h p
              | _ => ""
          | none => []
        some (pushStr c ti (String.intercalate delim parts2), "String.join")
    | "copyValueOf" =>
        let arrObj := heapOf c (argOrNull args 0)
        let chars2 :=
          match arrObj with
          | some o => String.join ((o.arrayElements.getD []).map fun e =>
              match e with
              | Value.primitive _ p => jsValToString h p
              | _ => "")
          | none => ""
        some (pushStr c ti chars2, "String.copyValueOf")
    | "getBytes" =>
        let units := (utf16Units s).map fun u =>
          createPrimitiveValue PrimType.int (JSVal.num (JNum.ofInt u))
        let (arrId, c) := allocateArray c "byte" units
        some (pushVal c ti (createReferenceValue (some arrId)), "String.getBytes")
    | _ => none
  else none

/-- Character family. -/
def stdCharacter (h : Host) (c : Core) (ti : Nat) (methodName : String)
    (args : List Value) (className : String) : Option (Core × String) :=
  if className == "Character" then
    let ch := match argPrim args 0 with
      | some p => jsValToString h p
      | none => ""
    match methodName with
    | "isLetter" => some (pushBool c ti (ch.toList.any Char.isAlpha), "Character.isLetter")
    | "isDigit" => some (pushBool c ti (ch.toList.any Char.isDigit), "Character.isDigit")
    | "isWhitespace" =>
        some (pushBool c ti (ch.toList.any Char.isWhitespace), "Character.isWhitespace")
    | "isSpaceChar" =>
        some (pushBool c ti (ch.toList.any Char.isWhitespace), "Character.isWhitespace")
    | "isUpperCase" =>
        some (pushBool c ti (ch == h.upperCase ch && ch ≠ h.lowerCase ch), "Character.isUpperCase")
    | "isLowerCase" =>
        some (pushBool c ti (ch == h.lowerCase ch && ch ≠ h.upperCase ch), "Character.isLowerCase")
    | "isLetterOrDigit" =>
        some (pushBool c ti (ch.toList.any Char.isAlphanum), "Character.isLetterOrDigit")
    | "isAlphabetic" =>
        some (pushBool c ti (ch.toList.any Char.isAlphanum), "Character.isLetterOrDigit")
    | "toLowerCase" => some (pushChar c ti (h.lowerCase ch), "Character.toLowerCase")
    | "toUpperCase" => some (pushChar c ti (h.upperCase ch), "Character.toUpperCase")
    | "toString" => some (pushStr c ti ch, "Character.toString")
    | "getNumericValue" =>
        let v := match h.parseNum ch with
          | some q => if q.isZero then JNum.ofInt (-1) else q
          | none => JNum.ofInt (-1)
        some (pushNum c ti PrimType.int v, "Character.getNumericValue")
    | _ => none
  else none

/-- Integer / Long / Double / Float / Number family. -/
def stdIntegerFamily (h : Host) (c : Core) (ti : Nat) (methodName : String)
    (args : List Value) (className : String) (obj : Option HeapObject) :
    Option (Core × String) :=
  if className == "Integer" || className == "Long" || className == "Double" ||
      className == "Float" || className == "Number" then
    match methodName with
    | "parseInt" =>
        let s := match argPrim args 0 with
          | some p => jsValToString h p
          | none => "0"
        some (pushNum c ti PrimType.int ((h.parseNum s).getD (JNum.ofInt 0)),
          className ++ "." ++ methodName)
    | "parseLong" =>
        let s := match argPrim args 0 with
          | some p => jsValToString h p
          | none => "0"
        some (pushNum c ti PrimType.int ((h.parseNum s).getD (JNum.ofInt 0)),
          className ++ "." ++ methodName)
    | "parseDouble" =>
        let s := match argPrim args 0 with
          | some p => jsValToString h p
          | none => "0"
        some (pushNum c ti PrimType.double ((h.parseNum s).getD (JNum.ofInt 0)),
          className ++ "." ++ methodName)
    | "parseFloat" =>
        let s := match argPrim args 0 with
          | some p => jsValToString h p
          | none => "0"
        some (pushNum c ti PrimType.double ((h.parseNum s).getD (JNum.ofInt 0)),
          className ++ "." ++ methodName)
    | "valueOf" => some (pushVal c ti (argOrNull args 0), className ++ ".valueOf")
    | "toString" =>
        let v := match argPrim args 0 with
          | some p => jsValToString h p
          | none => "0"
        some (pushStr c ti v, className ++ ".toString")
    | "intValue" =>
        let v :=
          match obj with
          | some o =>
              match o.fields.find? (fun f => f.name == "$value") with
              | some f => f.value
              | none => argOrNull args 0
          | none =>
              match args.get? 0 with
              | some a => a
              | none => createPrimitiveValue PrimType.int (JSVal.num (JNum.ofInt 0))
        some (pushVal c ti v, className ++ ".intValue")
    | "longValue" =>
        let v :=
          match obj with
          | some o =>
              match o.fields.find? (fun f => f.name == "$value") with
              | some f => f.value
              | none => argOrNull args 0
          | none =>
              match args.get? 0 with
              | some a => a
              | none => createPrimitiveValue PrimType.int (JSVal.num (JNum.ofInt 0))
        some (pushVal c ti v, className ++ ".intValue")
    | "compareTo" =>
        let a := argNum h args 0
        let b := argNum h args 1
        some (pushInt c ti (if a.lt b then -1 else if b.lt a then 1 else 0),
          className ++ ".compareTo")
    | "max" =>
        some (pushNum c ti PrimType.int ((argNum h args 0).maxJ (argNum h args 1)), "Integer.max")
    | "min" =>
        some (pushNum c ti PrimType.int ((argNum h args 0).minJ (argNum h args 1)), "Integer.min")
    | _ => none
  else none

/-- Math family. -/
def stdMath (h : Host) (c : Core) (ti : Nat) (methodName : String)
    (args : List Value) (className : String) : Option (Core × String) :=
  if className == "Math" then
    let v := argNum h args 0
    let b := argNum h args 1
    match methodName with
    | "abs" => some (pushNum c ti PrimType.double v.abs, "Math.abs")
    | "max" => some (pushNum c ti PrimType.double (v.maxJ b), "Math.max")
    | "min" => some (pushNum c ti PrimType.double (v.minJ b), "Math.min")
    | "sqrt" => some (pushNum c ti PrimType.double (h.sqrt v), "Math.sqrt")
    | "pow" => some (pushNum c ti PrimType.double (h.pow v b), "Math.pow")
    | "floor" => some (pushNum c ti PrimType.double (JNum.ofInt v.floorInt), "Math.floor")
    | "ceil" => some (pushNum c ti PrimType.double (JNum.ofInt v.ceilInt), "Math.ceil")
    | "round" => some (pushNum c ti PrimType.long (JNum.ofInt v.roundInt), "Math.round")
    | "random" =>
        let (r, c) := nextRandom h c
        some (pushNum c ti PrimType.double r, "Math.random")
    | "log" => some (pushNum c ti PrimType.double (h.log v), "Math.log")
    | "sin" => some (pushNum c ti PrimType.double (h.sin v), "Math.sin")
    | "cos" => some (pushNum c ti PrimType.double (h.cos v), "Math.cos")
    | "PI" => some (pushNum c ti PrimType.double h.pi, "Math.PI")
    | _ => none
  else none

/-- Write back a collection backing list together with its length
(sync()). -/
def setListElems (c : Core) (oid : String) (newL : List Value) : Core :=
  modifyHeapObj c oid fun ob =>
    { ob with arrayElements := some newL, arrayLength := some newL.length }

/-- Map family guard (uses the heap object class, substring match
included). -/
def isMapClass (n : String) : Bool :=
  n == "HashMap" || n == "LinkedHashMap" || n == "TreeMap" || n == "Hashtable" ||
    n == "Map" || strContains n "Map"

/-- Map family. -/
def stdMap (h : Host) (c : Core) (ti : Nat) (methodName : String)
    (args : List Value) (obj : Option HeapObject) : Option (Core × String) :=
  match obj with
  | none => none
  | some o =>
    if isMapClass o.className then
      match methodName with
      | "<init>" =>
          let c := modifyHeapObj c o.id fun ob =>
            if ob.kind == HKind.array then { ob with arrayElements := some [] } else ob
          some (c, o.className ++ ".<init>")
      | "put" =>
          let key := valToString h (argOrNull args 0)
          let val := argOrNull args 1
          let existing := o.fields.find? (fun f => f.name == key)
          let oldVal := existing.map (fun f => f.value)
          let c := modifyHeapObj c o.id fun ob =>
            match ob.fields.find? (fun f => f.name == key) with
            | some _ =>
                { ob with fields :=
                    (updateFirst (fun f => f.name == key)
                      (fun f => { f with value := val }) ob.fields) }
            | none =>
                { ob with fields := ob.fields ++
                    [{ name := key, type := "Object", value := val, isStatic := false }] }
          some (pushVal c ti (oldVal.getD createNullValue), "HashMap.put(" ++ key ++ ")")
      | "get" =>
          let key := valToString h (argOrNull args 0)
          let field := o.fields.find? (fun f => f.name == key)
          let shown := match field with
            | some f => valToString h f.value
            | none => "null"
          some (pushVal c ti ((field.map (fun f => f.value)).getD createNullValue),
            "HashMap.get(" ++ key ++ ") = " ++ shown)
      | "containsKey" =>
          let key := valToString h (argOrNull args 0)
          some (pushBool c ti (o.fields.any (fun f => f.name == key)), "HashMap.containsKey")
      | "containsValue" =>
          let val := valToString h (argOrNull args 0)
          some (pushBool c ti (o.fields.any (fun f => valToString h f.value == val)),
            "HashMap.containsValue")
      | "size" =>
          some (pushInt c ti o.fields.length, "HashMap.size = " ++ toString o.fields.length)
      | "isEmpty" => some (pushBool c ti (o.fields.length == 0), "HashMap.isEmpty")
      | "remove" =>
          let key := valToString h (argOrNull args 0)
          match o.fields.findIdx? (fun f => f.name == key) with
          | some idx =>
              let removed := o.fields.get? idx
              let c := modifyHeapObj c o.id fun ob =>
                { ob with fields := ob.fields.take idx ++ ob.fields.drop (idx + 1) }
              some (pushVal c ti ((removed.map (fun f => f.value)).getD createNullValue),
                "HashMap.remove(" ++ key ++ ")")
          | none => some (pushVal c ti createNullValue, "HashMap.remove(" ++ key ++ ")")
      | "clear" =>
          let c := modifyHeapObj c o.id fun ob => { ob with fields := [] }
          some (pushVal c ti createNullValue, "HashMap.clear")
      | "getOrDefault" =>
          let key := valToString h (argOrNull args 0)
          let field := o.fields.find? (fun f => f.name == key)
          some (pushVal c ti (match field with
            | some f => f.value
            | none => argOrNull args 1), "HashMap.getOrDefault")
      | "putIfAbsent" =>
          let key := valToString h (argOrNull args 0)
          let c :=
            if o.fields.any (fun f => f.name == key) then c
            else modifyHeapObj c o.id fun ob =>
              { ob with fields := ob.fields ++
                  [{ name := key, type := "Object", value := argOrNull args 1,
                     isStatic := false }] }
          some (pushVal c ti createNullValue, "HashMap.putIfAbsent")
      | "entrySet" =>
          let (entries, c) := o.fields.foldl
            (fun (acc : List Value × Core) f =>
              let (entryId, c) := generateObjectId acc.2
              let keyVal := createPrimitiveValue PrimType.string (JSVal.str f.name)
              let entryObj : HeapObject :=
                { id := entryId, kind := HKind.object, className := "$MapEntry",
                  fields :=
                    [{ name := "key", type := "Object", value := keyVal, isStatic := false },
                     { name := "value", type := "Object", value := f.value, isStatic := false }],
                  arrayElements := none, arrayLength := none, stringValue := none,
                  isReachable := true, gcRoot := false,
                  createdAtStep := c.state.stepNumber, references := [] }
              (acc.1 ++ [createReferenceValue (some entryId)], pushHeapObj c entryObj))
            ([], c)
          let (arrId, c) := allocateArray c "$MapEntry" entries
          some (pushVal c ti (createReferenceValue (some arrId)),
            "HashMap.entrySet (" ++ toString entries.length ++ " entries)")
      | "keySet" =>
          let keys := o.fields.map fun f =>
            createPrimitiveValue PrimType.string (JSVal.str f.name)
          let (arrId, c) := allocateArray c "String" keys
          some (pushVal c ti (createReferenceValue (some arrId)), "HashMap.keySet")
      | "values" =>
          let vals := o.fields.map fun f => f.value
          let (arrId, c) := allocateArray c "Object" vals
          some (pushVal c ti (createReferenceValue (some arrId)), "HashMap.values")
      | "forEach" => some (pushVal c ti createNullValue, "HashMap.forEach [simplified]")
      | _ => none
    else none

/-- $MapEntry synthetic objects. -/
def stdMapEntry (c : Core) (ti : Nat) (methodName : String) (args : List Value)
    (obj : Option HeapObject) : Option (Core × String) :=
  match obj with
  | none => none
  | some o =>
    if o.className == "$MapEntry" then
      match methodName with
      | "getKey" =>
          let kf := o.fields.find? (fun f => f.name == "key")
          some (pushVal c ti ((kf.map (fun f => f.value)).getD createNullValue),
            "MapEntry.getKey")
      | "getValue" =>
          let vf := o.fields.find? (fun f => f.name == "value")
          some (pushVal c ti ((vf.map (fun f => f.value)).getD createNullValue),
            "MapEntry.getValue")
      | "setValue" =>
          let c := modifyHeapObj c o.id fun ob =>
            { ob with fields :=
                (updateFirst (fun f => f.name == "value")
                  (fun f => { f with value := argOrNull args 0 }) ob.fields) }
          some (pushVal c ti createNullValue, "MapEntry.setValue")
      | _ => none
    else none

def isSetClass (n : String) : Bool :=
  n == "HashSet" || n == "LinkedHashSet" || n == "TreeSet" || n == "Set"

/-- Set family.  When `arrayElements` is missing, the source binds a
fresh array that is not stored back, so mutations update only
`arrayLength`; the option match mirrors that aliasing. -/
def stdSet (h : Host) (c : Core) (ti : Nat) (methodName : String)
    (args : List Value) (obj : Option HeapObject) : Option (Core × String) :=
  match obj with
  | none => none
  | some o =>
    if isSetClass o.className then
      let elems := o.arrayElements.getD []
      match methodName with
      | "<init>" =>
          let c := modifyHeapObj c o.id fun ob =>
            { ob with arrayElements := some (ob.arrayElements.getD []),
                      arrayLength := some 0 }
          some (c, o.className ++ ".<init>")
      | "add" =>
          let vs := valToString h (argOrNull args 0)
          let dup := elems.any (fun e => valToString h e == vs)
          let c :=
            if dup then c
            else modifyHeapObj c o.id fun ob =>
              match ob.arrayElements with
              | some l => { ob with arrayElements := some (l ++ [argOrNull args 0]),
                                    arrayLength := some (l.length + 1) }
              | none => { ob with arrayLength := some 1 }
          some (pushBool c ti (!dup), "Set.add(" ++ vs ++ ")")
      | "contains" =>
          let vs := valToString h (argOrNull args 0)
          some (pushBool c ti (elems.any (fun e => valToString h e == vs)), "Set.contains")
      | "remove" =>
          let vs := valToString h (argOrNull args 0)
          match elems.findIdx? (fun e => valToString h e == vs) with
          | some idx =>
              let c := modifyHeapObj c o.id fun ob =>
                match ob.arrayElements with
                | some l => { ob with arrayElements := some (l.take idx ++ l.drop (idx + 1)),
                                      arrayLength := some (l.length - 1) }
                | none => { ob with arrayLength := some 0 }
              some (pushBool c ti true, "Set.remove")
          | none => some (pushBool c ti false, "Set.remove")
      | "size" => some (pushInt c ti elems.length, "Set.size = " ++ toString elems.length)
      | "isEmpty" => some (pushBool c ti (elems.length == 0), "Set.isEmpty")
      | "clear" =>
          let c := modifyHeapObj c o.id fun ob =>
            match ob.arrayElements with
            | some _ => { ob with arrayElements := some [], arrayLength := some 0 }
            | none => { ob with arrayLength := some 0 }
          some (pushVal c ti createNullValue, "Set.clear")
      | "iterator" =>
          let (itId, c) := createIterator c o
          some (pushVal c ti (createReferenceValue (some itId)), "Set.iterator")
      | "toArray" =>
          let (arrId, c) := allocateArray c "Object" elems
          some (pushVal c ti (createReferenceValue (some arrId)), "Set.toArray")
      | "forEach" => some (pushVal c ti createNullValue, "Set.forEach [simplified]")
      | _ => none
    else none

def isListClass (n : String) : Bool :=
  n == "ArrayList" || n == "LinkedList" || n == "Stack" || n == "Vector" ||
    n == "List" || n == "ArrayDeque" || n == "Deque" || n == "PriorityQueue"

/-- Payload key used by List.sort (String(value) for primitives). -/
def sortKey (h : Host) : Value → String
  | Value.primitive _ p => jsValToString h p
  | _ => ""

/-- List / Deque / Queue / Stack family.  The binding
`elems = arrayElements || (arrayElements = [])` initialises the backing
array even when no method matches, so this family always returns the
(possibly normalised) core. -/
def stdList (h : Host) (c : Core) (ti : Nat) (methodName : String)
    (args : List Value) (obj : Option HeapObject) : Core × Option String :=
  match obj with
  | none => (c, none)
  | some o =>
    if isListClass o.className then
      let o := if o.arrayElements == none then { o with arrayElements := some [] } else o
      let c := modifyHeapObj c o.id fun ob =>
        if ob.arrayElements == none then { ob with arrayElements := some [] } else ob
      let l := o.arrayElements.getD []
      match methodName with
      | "<init>" =>
          (setListElems c o.id [], some (o.className ++ ".<init>"))
      | "add" =>
          let newL :=
            match args.length == 2, argPrim args 0 with
            | true, some (JSVal.num q) => spliceInsert l q (argOrNull args 1)
            | _, _ => l ++ [argOrNull args 0]
          (pushBool (setListElems c o.id newL) ti true, some "List.add")
      | "addAll" =>
          let other :=
            match heapOf c (argOrNull args 0) with
            | some x => some x
            | none => heapOf c (argOrNull args 1)
          let c :=
            match other with
            | some x =>
                match x.arrayElements with
                | some xs => setListElems c o.id (l ++ xs)
                | none => c
            | none => c
          (pushBool c ti true, some "List.addAll")
      | "get" =>
          let i := idxOf (argNum h args 0)
          let v := if 0 ≤ i && i < (l.length : Int) then l.get? i.toNat else none
          (pushVal c ti (v.getD createNullValue),
            some ("List.get(" ++ h.numToString (argNum h args 0) ++ ")"))
      | "set" =>
          let i := idxOf (argNum h args 0)
          let old := if 0 ≤ i && i < (l.length : Int) then l.get? i.toNat else none
          let c :=
            if 0 ≤ i && i < (l.length : Int) then
              setListElems c o.id (l.set i.toNat (argOrNull args 1))
            else setListElems c o.id l
          (pushVal c ti (old.getD createNullValue), some "List.set")
      | "remove" =>
          match argPrim args 0 with
          | some (JSVal.num q) =>
              let (removed, newL) := spliceRemove l q
              (pushVal (setListElems c o.id newL) ti (removed.getD createNullValue),
                some "List.remove")
          | _ =>
              let vs := valToString h (argOrNull args 0)
              match l.findIdx? (fun e => valToString h e == vs) with
              | some i =>
                  (pushBool (setListElems c o.id (l.take i ++ l.drop (i + 1))) ti true,
                    some "List.remove")
              | none => (pushBool (setListElems c o.id l) ti false, some "List.remove")
      | "removeAll" =>
          let other := heapOf c (argOrNull args 0)
          let toRemove := match other with
            | some x => (x.arrayElements.getD []).map (valToString h)
            | none => []
          let newL := l.filter (fun e => !(toRemove.contains (valToString h e)))
          (pushBool (setListElems c o.id newL) ti (newL.length ≠ l.length),
            some "List.removeAll")
      | "retainAll" =>
          let other := heapOf c (argOrNull args 0)
          let toKeep := match other with
            | some x => (x.arrayElements.getD []).map (valToString h)
            | none => []
          let newL := l.filter (fun e => toKeep.contains (valToString h e))
          (pushBool (setListElems c o.id newL) ti (newL.length ≠ l.length),
            some "List.retainAll")
      | "size" => (pushInt c ti l.length, some ("List.size = " ++ toString l.length))
      | "isEmpty" => (pushBool c ti (l.length == 0), some "List.isEmpty")
      | "contains" =>
          let vs := valToString h (argOrNull args 0)
          (pushBool c ti (l.any (fun e => valToString h e == vs)), some "List.contains")
      | "containsAll" =>
          let other := heapOf c (argOrNull args 0)
          let allIn := match other with
            | some x =>
                match x.arrayElements with
                | some xs => xs.all (fun e => l.any (fun e2 => valToString h e2 == valToString h e))
                | none => true
            | none => true
          (pushBool c ti allIn, some "List.containsAll")
      | "indexOf" =>
          let vs := valToString h (argOrNull args 0)
          let idx : Int := match l.findIdx? (fun e => valToString h e == vs) with
            | some i => i
            | none => -1
          (pushInt c ti idx, some "List.indexOf")
      | "lastIndexOf" =>
          let vs := valToString h (argOrNull args 0)
          let idx : Int := match l.reverse.findIdx? (fun e => valToString h e == vs) with
            | some k => (l.length : Int) - 1 - k
            | none => -1
          (pushInt c ti idx, some "List.lastIndexOf")
      | "clear" => (pushVal (setListElems c o.id []) ti createNullValue, some "List.clear")
      | "subList" =>
          let sub := jsSliceList l (argNum h args 0) (argNum h args 1)
          let (subId, c) := allocateArray c "Object" sub
          (pushVal c ti (createReferenceValue (some subId)),
            some ("List.subList(" ++ h.numToString (argNum h args 0) ++ "," ++
              h.numToString (argNum h args 1) ++ ")"))
      | "iterator" =>
          let (itId, c) := createIterator c o
          (pushVal c ti (createReferenceValue (some itId)), some "List.iterator")
      | "listIterator" =>
          let (itId, c) := createIterator c o
          (pushVal c ti (createReferenceValue (some itId)), some "List.iterator")
      | "descendingIterator" =>
          let (itId, c) := createIterator c o
          (pushVal c ti (createReferenceValue (some itId)), some "List.iterator")
      | "toArray" =>
          let (arrId, c) := allocateArray c "Object" l
          (pushVal c ti (createReferenceValue (some arrId)), some "List.toArray")
      | "sort" =>
          let newL := stableSort (fun a b => !(jsStrLt (sortKey h b) (sortKey h a))) l
          (pushVal (setListElems c o.id newL) ti createNullValue, some "List.sort")
      | "reverse" =>
          (pushVal (setListElems c o.id l.reverse) ti createNullValue, some "List.reverse")
      | "forEach" => (pushVal c ti createNullValue, some "List.forEach [simplified]")
      | "stream" =>
          let (arrId, c) := allocateArray c "Object" l
          (pushVal c ti (createReferenceValue (some arrId)), some "List.stream")
      | "toString" =>
          let str := "[" ++ String.intercalate ", "
            (l.map fun e =>
              match e with
              | Value.primitive _ p => jsValToString h p
              | _ => "null") ++ "]"
          (pushStr c ti str, some "List.toString")
      | "hashCode" => (pushInt c ti l.length, some "List.hashCode")
      | "equals" =>
          let other := heapOf c (argOrNull args 0)
          let eq := match other with
            | some x =>
                match x.arrayElements with
                | some xs =>
                    xs.length == l.length &&
                      (l.zip xs).all (fun p => valToString h p.1 == valToString h p.2)
                | none => false
            | none => false
          (pushBool c ti eq, some "List.equals")
      | "addFirst" =>
          (pushBool (setListElems c o.id (argOrNull args 0 :: l)) ti true, some "Deque.addFirst")
      | "offerFirst" =>
          (pushBool (setListElems c o.id (argOrNull args 0 :: l)) ti true, some "Deque.addFirst")
      | "push" =>
          (pushBool (setListElems c o.id (argOrNull args 0 :: l)) ti true, some "Deque.addFirst")
      | "addLast" =>
          (pushBool (setListElems c o.id (l ++ [argOrNull args 0])) ti true, some "Deque.addLast")
      | "offerLast" =>
          (pushBool (setListElems c o.id (l ++ [argOrNull args 0])) ti true, some "Deque.addLast")
      | "offer" =>
          (pushBool (setListElems c o.id (l ++ [argOrNull args 0])) ti true, some "Deque.addLast")
      | "enqueue" =>
          (pushBool (setListElems c o.id (l ++ [argOrNull args 0])) ti true, some "Deque.addLast")
      | "removeFirst" =>
          (pushVal (setListElems c o.id l.tail) ti ((l.head?).getD createNullValue),
            some "Deque.removeFirst")
      | "poll" =>
          (pushVal (setListElems c o.id l.tail) ti ((l.head?).getD createNullValue),
            some "Deque.removeFirst")
      | "pop" =>
          (pushVal (setListElems c o.id l.tail) ti ((l.head?).getD createNullValue),
            some "Deque.removeFirst")
      | "dequeue" =>
          (pushVal (setListElems c o.id l.tail) ti ((l.head?).getD createNullValue),
            some "Deque.removeFirst")
      | "removeLast" =>
          (pushVal (setListElems c o.id l.dropLast) ti ((l.getLast?).getD createNullValue),
            some "Deque.removeLast")
      | "pollLast" =>
          (pushVal (setListElems c o.id l.dropLast) ti ((l.getLast?).getD createNullValue),
            some "Deque.removeLast")
      | "peekFirst" =>
          (pushVal c ti ((l.head?).getD createNullValue), some "Deque.peekFirst")
      | "peek" =>
          (pushVal c ti ((l.head?).getD createNullValue), some "Deque.peekFirst")
      | "element" =>
          (pushVal c ti ((l.head?).getD createNullValue), some "Deque.peekFirst")
      | "getFirst" =>
          (pushVal c ti ((l.head?).getD createNullValue), some "Deque.peekFirst")
      | "peekLast" =>
          (pushVal c ti ((l.getLast?).getD createNullValue), some "Deque.peekLast")
      | "getLast" =>
          (pushVal c ti ((l.getLast?).getD createNullValue), some "Deque.peekLast")
      | "pollFirst" =>
          (pushVal (setListElems c o.id l.tail) ti ((l.head?).getD createNullValue),
            some "Deque.pollFirst")
      | _ => (c, none)
    else (c, none)

/-- $Iterator / $SetIterator synthetic objects. -/
def stdIterator (h : Host) (c : Core) (ti : Nat) (methodName : String)
    (obj : Option HeapObject) : Option (Core × String) :=
  match obj with
  | none => none
  | some o =>
    if o.className == "$Iterator" || o.className == "$SetIterator" then
      let idxField := o.fields.find? (fun f => f.name == "$index")
      let arrField := o.fields.find? (fun f => f.name == "$array")
      let arrObj :=
        match arrField with
        | some f => getHeapObj c f.value
        | none => none
      let elems := match arrObj with
        | some a => a.arrayElements.getD []
        | none => []
      let idx : JNum :=
        match idxField with
        | some f =>
            match f.value with
            | Value.primitive _ (JSVal.num q) => q
            | _ => JNum.ofInt 0
        | none => JNum.ofInt 0
      match methodName with
      | "hasNext" =>
          let b := idx.lt (JNum.ofInt elems.length)
          some (pushBool c ti b, "Iterator.hasNext = " ++ (if b then "true" else "false"))
      | "next" =>
          if idx.lt (JNum.ofInt elems.length) then
            let v := ((elems.get? idx.truncInt.toNat).getD createNullValue)
            let c := modifyHeapObj c o.id fun ob =>
              { ob with fields :=
                  (updateFirst (fun f => f.name == "$index")
                    (fun f => { f with value :=
                      createPrimitiveValue PrimType.int (JSVal.num (idx.add (JNum.ofInt 1))) })
                    ob.fields) }
            some (pushVal c ti v, "Iterator.next[" ++ h.numToString idx ++ "]")
          else
            some (pushVal c ti createNullValue, "Iterator.next[" ++ h.numToString idx ++ "]")
      | "remove" => some (pushVal c ti createNullValue, "Iterator.remove [no-op]")
      | _ => none
    else none

/-- Collections.shuffle Fisher-Yates loop consuming the host random
stream, highest index first. -/
def shuffleLoop (h : Host) (c : Core) (l : List Value) : List Value × Core :=
  ((List.range' 1 (l.length - 1)).reverse).foldl
    (fun (acc : List Value × Core) (i : Nat) =>
      let (r, c) := nextRandom h acc.2
      let j := (r.mul (JNum.ofInt (Int.ofNat (i + 1)))).floorInt.toNat
      (listSwap acc.1 i j, c))
    (l, c)

/-- Arrays.binarySearch while-loop (string comparison of stringified
values); returns (found, final lo). -/
def arrBinSearchAux (h : Host) (elems : List Value) (target : String) :
    Nat → Int → Int → Int × Int
  | 0, lo, _ => (-1, lo)
  | fuel + 1, lo, hi =>
      if lo ≤ hi then
        let mid := (lo + hi).fdiv 2
        let mv := valToString h ((elems.get? mid.toNat).getD createNullValue)
        if mv == target then (mid, lo)
        else if jsStrLt mv target then arrBinSearchAux h elems target fuel (mid + 1) hi
        else arrBinSearchAux h elems target fuel lo (mid - 1)
      else (-1, lo)

def arrBinSearch (h : Host) (elems : List Value) (target : String) : Int × Int :=
  arrBinSearchAux h elems target (elems.length + 1) 0 ((elems.length : Int) - 1)

/-- Collections utility family. -/
def stdCollections (h : Host) (c : Core) (ti : Nat) (methodName : String)
    (args : List Value) (className : String) : Option (Core × String) :=
  if className == "Collections" then
    let lo := heapOf c (argOrNull args 0)
    let elems := match lo with
      | some x => x.arrayElements.getD []
      | none => []
    let hasElems := match lo with
      | some x => x.arrayElements.isSome
      | none => false
    let writeElems := fun (c : Core) (newL : List Value) =>
      match lo with
      | some x =>
          if hasElems then
            modifyHeapObj c x.id (fun ob => { ob with arrayElements := some newL })
          else c
      | none => c
    match methodName with
    | "sort" =>
        let newL := stableSort (fun a b => !(jsStrLt (sortKey h b) (sortKey h a))) elems
        some (pushVal (writeElems c newL) ti createNullValue, "Collections.sort")
    | "reverse" =>
        some (pushVal (writeElems c elems.reverse) ti createNullValue, "Collections.reverse")
    | "shuffle" =>
        let (newL, c) := if hasElems then shuffleLoop h c elems else (elems, c)
        some (pushVal (writeElems c newL) ti createNullValue, "Collections.shuffle")
    | "min" =>
        let minVal := elems.foldl
          (fun best e =>
            match best with
            | none => some e
            | some b => if jsStrLt (sortKey h e) (sortKey h b) then some e else some b)
          elems.head?
        some (pushVal c ti (minVal.getD createNullValue), "Collections.min")
    | "max" =>
        let maxVal := elems.foldl
          (fun best e =>
            match best with
            | none => some e
            | some b => if jsStrLt (sortKey h b) (sortKey h e) then some e else some b)
          elems.head?
        some (pushVal c ti (maxVal.getD createNullValue), "Collections.max")
    | "frequency" =>
        let vs := valToString h (argOrNull args 1)
        let count := (elems.filter (fun e => valToString h e == vs)).length
        some (pushInt c ti count, "Collections.frequency")
    | "fill" =>
        let newL := elems.map (fun _ => argOrNull args 1)
        some (pushVal (writeElems c newL) ti createNullValue, "Collections.fill")
    | "copy" =>
        let dest := heapOf c (argOrNull args 0)
        let src := heapOf c (argOrNull args 1)
        let c :=
          match dest, src with
          | some d, some s =>
              match d.arrayElements, s.arrayElements with
              | some dl, some sl =>
                  modifyHeapObj c d.id fun ob =>
                    { ob with arrayElements := some (sl ++ dl.drop sl.length) }
              | _, _ => c
          | _, _ => c
        some (pushVal c ti createNullValue, "Collections.copy")
    | "swap" =>
        let i := (argNum h args 1).truncInt.toNat
        let j := (argNum h args 2).truncInt.toNat
        some (pushVal (writeElems c (listSwap elems i j)) ti createNullValue,
          "Collections.swap")
    | "nCopies" =>
        let count2 := (argNum h args 0).truncInt
        let n := if count2 < 0 then 0 else count2.toNat
        let elems2 := List.replicate n (argOrNull args 1)
        let (arrId, c) := allocateArray c "Object" elems2
        some (pushVal c ti (createReferenceValue (some arrId)),
          "Collections.nCopies(" ++ h.numToString (argNum h args 0) ++ ")")
    | "singleton" =>
        let (arrId, c) := allocateArray c "Object" [argOrNull args 0]
        some (pushVal c ti (createReferenceValue (some arrId)), "Collections.singletonList")
    | "singletonList" =>
        let (arrId, c) := allocateArray c "Object" [argOrNull args 0]
        some (pushVal c ti (createReferenceValue (some arrId)), "Collections.singletonList")
    | "emptyList" =>
        let (arrId, c) := allocateArray c "Object" []
        some (pushVal c ti (createReferenceValue (some arrId)), "Collections.empty")
    | "emptySet" =>
        let (arrId, c) := allocateArray c "Object" []
        some (pushVal c ti (createReferenceValue (some arrId)), "Collections.empty")
    | "emptyMap" =>
        let (arrId, c) := allocateArray c "Object" []
        some (pushVal c ti (createReferenceValue (some arrId)), "Collections.empty")
    | "unmodifiableList" =>
        some (pushVal c ti (argOrNull args 0), "Collections.unmodifiable")
    | "unmodifiableSortedList" =>
        some (pushVal c ti (argOrNull args 0), "Collections.unmodifiable")
    | "unmodifiableSet" =>
        some (pushVal c ti (argOrNull args 0), "Collections.unmodifiable")
    | "unmodifiableMap" =>
        some (pushVal c ti (argOrNull args 0), "Collections.unmodifiable")
    | "binarySearch" =>
        let vs := valToString h (argOrNull args 1)
        let idx : Int := match elems.findIdx? (fun e => valToString h e == vs) with
          | some i => i
          | none => -1
        some (pushInt c ti (if 0 ≤ idx then idx else -(idx + 1)), "Collections.binarySearch")
    | "disjoint" =>
        let a := heapOf c (argOrNull args 0)
        let b := heapOf c (argOrNull args 1)
        let setA := match a with
          | some x => (x.arrayElements.getD []).map (valToString h)
          | none => []
        let ok := match b with
          | some x =>
              match x.arrayElements with
              | some xs => xs.all (fun e => !(setA.contains (valToString h e)))
              | none => true
          | none => true
        some (pushBool c ti ok, "Collections.disjoint")
    | _ => none
  else none

/-- Arrays utility family. -/
def stdArraysUtil (h : Host) (c : Core) (ti : Nat) (methodName : String)
    (args : List Value) (className : String) : Option (Core × String) :=
  if className == "Arrays" then
    let arrObj := heapOf c (argOrNull args 0)
    let elems := match arrObj with
      | some x => x.arrayElements.getD []
      | none => []
    let hasElems := match arrObj with
      | some x => x.arrayElements.isSome
      | none => false
    let writeElems := fun (c : Core) (newL : List Value) =>
      match arrObj with
      | some x =>
          if hasElems then
            modifyHeapObj c x.id (fun ob => { ob with arrayElements := some newL })
          else c
      | none => c
    let numKey := fun (v : Value) =>
      match v with
      | Value.primitive _ p => toNumber h p
      | _ => JNum.ofInt 0
    match methodName with
    | "sort" =>
        let newL := stableSort (fun a b => !((numKey b).lt (numKey a))) elems
        some (pushVal (writeElems c newL) ti createNullValue, "Arrays.sort")
    | "fill" =>
        let newL := elems.map (fun _ => argOrNull args 1)
        some (pushVal (writeElems c newL) ti createNullValue, "Arrays.fill")
    | "copyOf" =>
        let newLenQ := argNum h args 1
        let newLen := let k := newLenQ.truncInt; if k < 0 then 0 else k.toNat
        let newElems := (List.range newLen).map fun i =>
          (elems.get? i).getD (createPrimitiveValue PrimType.int (JSVal.num (JNum.ofInt 0)))
        let elementType := match arrObj with
          | some x => jsReplaceLit x.className "[]" ""
          | none => "Object"
        let (arrId, c) := allocateArray c elementType newElems
        some (pushVal c ti (createReferenceValue (some arrId)),
          "Arrays.copyOf(len=" ++ h.numToString newLenQ ++ ")")
    | "copyOfRange" =>
        let slice := jsSliceList elems (argNum h args 1) (argNum h args 2)
        let (arrId, c) := allocateArray c "Object" slice
        some (pushVal c ti (createReferenceValue (some arrId)), "Arrays.copyOfRange")
    | "equals" =>
        let a := heapOf c (argOrNull args 0)
        let b := heapOf c (argOrNull args 1)
        let lenOf := fun (x : Option HeapObject) =>
          match x with
          | some o => (o.arrayElements.map List.length)
          | none => none
        let aElems := match a with
          | some o => o.arrayElements.getD []
          | none => []
        let bElems := match b with
          | some o => o.arrayElements.getD []
          | none => []
        let eq := lenOf a == lenOf b &&
          (List.range aElems.length).all fun i =>
            valToString h ((aElems.get? i).getD createNullValue) ==
              valToString h ((bElems.get? i).getD createNullValue)
        some (pushBool c ti eq, "Arrays.equals")
    | "deepEquals" => some (pushBool c ti false, "Arrays.deepEquals [simplified]")
    | "toString" =>
        let s := "[" ++ String.intercalate ", "
          (elems.map fun e =>
            match e with
            | Value.primitive _ p => jsValToString h p
            | _ => "null") ++ "]"
        some (pushStr c ti s, "Arrays.toString")
    | "deepToString" =>
        let s := "[" ++ String.intercalate ", "
          (elems.map fun e =>
            match e with
            | Value.primitive _ p => jsValToString h p
            | _ => "null") ++ "]"
        some (pushStr c ti s, "Arrays.deepToString")
    | "asList" =>
        let (arrId, c) := allocateArray c "Object" args
        some (pushVal c ti (createReferenceValue (some arrId)), "Arrays.asList")
    | "binarySearch" =>
        let target := valToString h (argOrNull args 1)
        let (found, lo) := arrBinSearch h elems target
        some (pushInt c ti (if 0 ≤ found then found else -(lo + 1)), "Arrays.binarySearch")
    | "stream" =>
        let (arrId, c) := allocateArray c "Object" elems
        some (pushVal c ti (createReferenceValue (some arrId)), "Arrays.stream")
    | _ => none
  else none

def statusString : ThreadStatus → String
  | ThreadStatus.NEW => "NEW"
  | ThreadStatus.RUNNABLE => "RUNNABLE"
  | ThreadStatus.RUNNING => "RUNNING"
  | ThreadStatus.BLOCKED => "BLOCKED"
  | ThreadStatus.WAITING => "WAITING"
  | ThreadStatus.TIMED_WAITING => "TIMED_WAITING"
  | ThreadStatus.TERMINATED => "TERMINATED"

/-- The five bookkeeping fields pushed onto a Thread heap object. -/
def threadInitFields (threadId threadName : String) : List HeapField :=
  [{ name := "$threadId", type := "String",
     value := createPrimitiveValue PrimType.string (JSVal.str threadId), isStatic := false },
   { name := "name", type := "String",
     value := createPrimitiveValue PrimType.string (JSVal.str threadName), isStatic := false },
   { name := "priority", type := "int",
     value := createPrimitiveValue PrimType.int (JSVal.num (JNum.ofInt 5)), isStatic := false },
   { name := "daemon", type := "boolean",
     value := createPrimitiveValue PrimType.boolean (JSVal.bool false), isStatic := false },
   { name := "$status", type := "String",
     value := createPrimitiveValue PrimType.string (JSVal.str "NEW"), isStatic := false }]

/-- Thread.start run() lookup: walk superclasses below the start class,
stopping at Object or Thread. -/
def findRunMethodAux (prog : CompiledProgram) :
    Nat → Option String → Option (CompiledMethod × String)
  | 0, _ => none
  | _, none => none
  | fuel + 1, some sc =>
      if sc == "" || sc == "Object" || sc == "Thread" then none
      else
        let cls := prog.classes.find? (fun cl => cl.name == sc)
        match (cls.map (fun cl => cl.methods.find? (fun m => m.methodName == "run"))).join with
        | some m => some (m, sc)
        | none => findRunMethodAux prog fuel (cls.map (fun cl => cl.superClass))

def findRunMethod (prog : CompiledProgram) (runClassName : String) :
    Option (CompiledMethod × String) :=
  match (prog.classes.find? (fun cl => cl.name == runClassName)).map
      (fun cl => cl.methods.find? (fun m => m.methodName == "run")) |>.join with
  | some m => some (m, runClassName)
  | none =>
      findRunMethodAux prog (prog.classes.length + 1)
        ((prog.classes.find? (fun cl => cl.name == runClassName)).map
          (fun cl => cl.superClass))

/-- Read a string field of a heap object. -/
def strField (o : HeapObject) (fname : String) : Option String :=
  match o.fields.find? (fun f => f.name == fname) with
  | some f =>
      match f.value with
      | Value.primitive _ p => some ((fun h => jsValToString h p) trivialHost)
      | _ => none
  | none => none

/-- Like strField but rendering through the given host. -/
def strFieldH (h : Host) (o : HeapObject) (fname : String) : Option String :=
  match o.fields.find? (fun f => f.name == fname) with
  | some f =>
      match f.value with
      | Value.primitive _ p => some (jsValToString h p)
      | _ => none
  | none => none

/-- Thread family (Thread, its subclasses and the wait/notify object
methods handled in the same block). -/
def stdThread (h : Host) (prog : CompiledProgram) (c : Core) (ti : Nat)
    (methodName : String) (args : List Value) (className : String)
    (objRef : Option Value) (obj : Option HeapObject) : Option (Core × String) :=
  let isThreadClass := className == "Thread" || isSubclassOf prog className "Thread" ||
    (match obj with
     | some o => o.className == "Thread" || isSubclassOf prog o.className "Thread"
     | none => false)
  if isThreadClass then
    let ai := c.state.activeThread
    let activeT := activeThreadState c
    match methodName with
    | "<init>" =>
        let c :=
          match obj with
          | some o =>
              if (o.fields.find? (fun f => f.name == "$threadId")).isNone then
                let threadName :=
                  match argPrim args 0 with
                  | some p => jsValToString h p
                  | none => "Thread-" ++ toString c.state.threads.length
                modifyHeapObj c o.id fun ob =>
                  { ob with fields := ob.fields ++
                      threadInitFields ("thread_" ++ toString c.state.threads.length) threadName }
              else c
          | none => c
        some (c, "Thread.<init>")
    | "start" =>
        let threadObj :=
          match obj with
          | some o => some o
          | none =>
              match objRef with
              | some v =>
                  match getRefId v with
                  | some refId => getHeapObjById c refId
                  | none => none
              | none => none
        let runClassName := match threadObj with
          | some o => o.className
          | none => className
        if threadObj.isSome || runClassName ≠ "Thread" then
          let (threadObj, c) : Option HeapObject × Core :=
            match threadObj with
            | some o =>
                if (o.fields.find? (fun f => f.name == "$threadId")).isNone then
                  let uniqueIdx := c.state.threads.length
                  let newFields := threadInitFields ("thread_" ++ toString uniqueIdx)
                    ("Thread-" ++ toString uniqueIdx)
                  (some { o with fields := o.fields ++ newFields },
                    modifyHeapObj c o.id fun ob => { ob with fields := ob.fields ++ newFields })
                else (some o, c)
            | none => (none, c)
          let uniqueIdx := c.state.threads.length
          let name :=
            match threadObj with
            | some o =>
                match strFieldH h o "name" with
                | some n => n
                | none => "Thread-" ++ toString uniqueIdx
            | none => "Thread-" ++ toString uniqueIdx
          let threadId :=
            match threadObj with
            | some o =>
                match strFieldH h o "$threadId" with
                | some n => n
                | none => "thread_" ++ toString uniqueIdx
            | none => "thread_" ++ toString uniqueIdx
          match findRunMethod prog runClassName with
          | some (runMethodNode, resolvedClass) =>
              let sig := runMethodNode.signature
              let startIdx :=
                (prog.methodOffsets.lookup (resolvedClass ++ "." ++ sig)).getD 0
              let thisValue :=
                match objRef with
                | some v => v
                | none =>
                    match threadObj with
                    | some o => createReferenceValue (some o.id)
                    | none => createNullValue
              let (fid, c) := generateFrameId h c
              let runFrame : StackFrame :=
                { id := fid, className := resolvedClass, methodName := "run",
                  methodSignature := sig,
                  localVariables :=
                    [{ name := "this", type := runClassName, value := thisValue, slot := 0 }],
                  operandStack := [], pc := startIdx, lineNumber := 0, isNative := false }
              let newThread : ThreadState :=
                { id := threadId, name := name, stack := [runFrame],
                  status := ThreadStatus.RUNNABLE, sleepUntilStep := none,
                  waitingOnMonitor := none, holdingMonitors := [],
                  objectId := (match threadObj with
                    | some o => some o.id
                    | none => none),
                  priority := 5, isDaemon := false, stepCount := 0, interrupted := false }
              let c := { c with state :=
                { c.state with threads := c.state.threads ++ [newThread] } }
              let c :=
                match threadObj with
                | some o =>
                    modifyHeapObj c o.id fun ob =>
                      { ob with fields :=
                          (updateFirst (fun f => f.name == "$status")
                            (fun f => { f with value :=
                              createPrimitiveValue PrimType.string (JSVal.str "RUNNABLE") })
                            ob.fields) }
                | none => c
              some (c, "Thread.start() spawned " ++ name ++ " (" ++ threadId ++
                ") running " ++ resolvedClass ++ ".run()")
          | none => some (c, "Thread.start [run() not found in " ++ runClassName ++ "]")
        else some (c, "Thread.start [run() not found in " ++ runClassName ++ "]")
    | "sleep" =>
        let ms := match argPrim args 0 with
          | some p => toNumber h p
          | none => JNum.ofInt 100
        let steps : Int := max 1 ((ms.div (JNum.ofInt 50)).roundInt)
        let c :=
          if activeT.isSome then
            modifyThread c ai fun t =>
              { t with status := ThreadStatus.TIMED_WAITING,
                       sleepUntilStep := some (c.state.stepNumber + steps) }
          else c
        some (c, "Thread.sleep(" ++ h.numToString ms ++ "ms) TIMED_WAITING for " ++
          toString steps ++ " steps")
    | "join" =>
        let c :=
          match obj, activeT with
          | some o, some _ =>
              match strFieldH h o "$threadId" with
              | some targetId =>
                  match c.state.threads.find? (fun t => t.id == targetId) with
                  | some target =>
                      if target.status ≠ ThreadStatus.TERMINATED then
                        modifyThread c ai fun t =>
                          { t with status := ThreadStatus.WAITING,
                                   waitingOnMonitor := some targetId }
                      else c
                  | none => c
              | none => c
          | _, _ => c
        some (c, "Thread.join()")
    | "wait" =>
        let c :=
          match objRef, activeT with
          | some (Value.reference (some oid)), some act =>
              if oid ≠ "" then
                let c := modifyThread c ai fun t =>
                  { t with status := ThreadStatus.WAITING, waitingOnMonitor := some oid }
                releaseMonitor c oid act.id
              else c
          | _, _ => c
        some (c, "Object.wait() WAITING")
    | "notify" =>
        let c :=
          match objRef with
          | some (Value.reference (some oid)) =>
              if oid ≠ "" then
                { c with state := { c.state with threads :=
                    (updateFirst
                      (fun t => t.status == ThreadStatus.WAITING &&
                        t.waitingOnMonitor == some oid)
                      (fun t => { t with status := ThreadStatus.RUNNABLE,
                                         waitingOnMonitor := none })
                      c.state.threads) } }
              else c
          | _ => c
        some (c, "Object.notify()")
    | "notifyAll" =>
        let c :=
          match objRef with
          | some (Value.reference (some oid)) =>
              if oid ≠ "" then
                { c with state := { c.state with threads :=
                    (c.state.threads.map fun t =>
                      if t.status == ThreadStatus.WAITING &&
                          t.waitingOnMonitor == some oid then
                        { t with status := ThreadStatus.RUNNABLE, waitingOnMonitor := none }
                      else t) } }
              else c
          | _ => c
        some (c, "Object.notifyAll()")
    | "getName" =>
        let n :=
          match obj with
          | some o => (strFieldH h o "name").getD "main"
          | none =>
              match activeT with
              | some t => t.name
              | none => "main"
        some (pushStr c ti n, "Thread.getName()")
    | "getId" =>
        let currentId :=
          match obj with
          | some o => (strFieldH h o "$threadId").getD "main"
          | none =>
              match activeT with
              | some t => t.id
              | none => "main"
        some (pushStr c ti currentId, "Thread.getId()")
    | "getState" =>
        let tId :=
          match obj with
          | some o => strFieldH h o "$threadId"
          | none =>
              match activeT with
              | some t => some t.id
              | none => none
        let t : Option ThreadState := match tId with
          | some i => c.state.threads.find? (fun th => th.id == i)
          | none => none
        some (pushStr c ti (match t with
          | some th => statusString th.status
          | none => "TERMINATED"), "Thread.getState()")
    | "isAlive" =>
        let tId := match obj with
          | some o => strFieldH h o "$threadId"
          | none => none
        let t : Option ThreadState := match tId with
          | some i => c.state.threads.find? (fun th => th.id == i)
          | none => none
        some (pushBool c ti (match t with
          | some th => th.status ≠ ThreadStatus.TERMINATED && th.status ≠ ThreadStatus.NEW
          | none => false), "Thread.isAlive()")
    | "setPriority" =>
        let p := match argPrim args 0 with
          | some pp => toNumber h pp
          | none => JNum.ofInt 5
        let c :=
          match obj with
          | some o =>
              modifyHeapObj c o.id fun ob =>
                { ob with fields :=
                    (updateFirst (fun f => f.name == "priority")
                      (fun f => { f with value :=
                        createPrimitiveValue PrimType.int (JSVal.num p) })
                      ob.fields) }
          | none => c
        some (c, "Thread.setPriority(" ++ h.numToString p ++ ")")
    | "setDaemon" =>
        let d := match argPrim args 0 with
          | some p => jsTruthy p
          | none => false
        let c :=
          match obj with
          | some o =>
              modifyHeapObj c o.id fun ob =>
                { ob with fields :=
                    (updateFirst (fun f => f.name == "daemon")
                      (fun f => { f with value :=
                        createPrimitiveValue PrimType.boolean (JSVal.bool d) })
                      ob.fields) }
          | none => c
        some (c, "Thread.setDaemon(" ++ (if d then "true" else "false") ++ ")")
    | "currentThread" =>
        let refId := match activeT with
          | some t => t.objectId
          | none => none
        some (pushVal c ti (createReferenceValue refId), "Thread.currentThread()")
    | "interrupt" =>
        let c :=
          if activeT.isSome then
            modifyThread c ai fun t => { t with interrupted := true }
          else c
        some (c, "Thread.interrupt()")
    | "isInterrupted" =>
        let tId := match obj with
          | some o => strFieldH h o "$threadId"
          | none => none
        let t : Option ThreadState := match tId with
          | some i => c.state.threads.find? (fun th => th.id == i)
          | none => activeT
        some (pushBool c ti (match t with
          | some th => th.interrupted
          | none => false), "Thread.isInterrupted()")
    | "interrupted" =>
        let wasInterrupted := match activeT with
          | some t => t.interrupted
          | none => false
        let c :=
          if activeT.isSome then
            modifyThread c ai fun t => { t with interrupted := false }
          else c
        some (pushBool c ti wasInterrupted, "Thread.interrupted()")
    | "yield" =>
        some (rotateThread (pushVal c ti createNullValue), "Thread.yield()")
    | _ => none
  else none

def EXCEPTION_TYPES : List String :=
  ["Exception", "RuntimeException", "NullPointerException", "IllegalArgumentException",
   "IllegalStateException", "IndexOutOfBoundsException", "ArrayIndexOutOfBoundsException",
   "ClassCastException", "UnsupportedOperationException", "StackOverflowError",
   "ArithmeticException", "NumberFormatException", "IOException", "FileNotFoundException"]

/-- Exception constructors and accessors. -/
def stdException (h : Host) (c : Core) (ti : Nat) (methodName : String)
    (args : List Value) (className : String) (obj : Option HeapObject) :
    Option (Core × String) :=
  if EXCEPTION_TYPES.contains className then
    if methodName == "<init>" then
      let c :=
        match obj, argPrim args 0 with
        | some o, some _ =>
            modifyHeapObj c o.id fun ob =>
              { ob with fields := ob.fields ++
                  [{ name := "message", type := "String", value := argOrNull args 0,
                     isStatic := false }] }
        | _, _ => c
      some (c, className ++ ".<init>")
    else if methodName == "getMessage" then
      let msgF : Option HeapField := match obj with
        | some o => o.fields.find? (fun f => f.name == "message")
        | none => none
      some (pushVal c ti (match msgF with
        | some f => f.value
        | none => createNullValue), className ++ ".getMessage")
    else if methodName == "toString" then
      let msgF : Option HeapField := match obj with
        | some o => o.fields.find? (fun f => f.name == "message")
        | none => none
      let msg := match msgF with
        | some f =>
            match f.value with
            | Value.primitive _ p => jsValToString h p
            | _ => className
        | none => className
      some (pushStr c ti (className ++ ": " ++ msg), className ++ ".toString")
    else none
  else none

/-- StringBuilder / StringBuffer backed by the $sb field. -/
def stdStringBuilder (h : Host) (c : Core) (ti : Nat) (methodName : String)
    (args : List Value) (objRef : Option Value) (obj : Option HeapObject) :
    Option (Core × String) :=
  match obj with
  | none => none
  | some o =>
    if o.className == "StringBuilder" || o.className == "StringBuffer" then
      let sbField := o.fields.find? (fun f => f.name == "$sb")
      let sbVal := match sbField with
        | some f =>
            match f.value with
            | Value.primitive _ p => some p
            | _ => none
        | none => none
      let setSb := fun (c : Core) (s : String) =>
        modifyHeapObj c o.id fun ob =>
          { ob with fields :=
              (updateFirst (fun f => f.name == "$sb")
                (fun f => { f with value :=
                  createPrimitiveValue PrimType.string (JSVal.str s) })
                ob.fields) }
      match methodName with
      | "<init>" =>
          let init := match argPrim args 0 with
            | some p => jsValToString h p
            | none => ""
          let c := modifyHeapObj c o.id fun ob =>
            { ob with fields := ob.fields ++
                [{ name := "$sb", type := "String",
                   value := createPrimitiveValue PrimType.string (JSVal.str init),
                   isStatic := false }] }
          some (c, "StringBuilder.<init>")
      | "append" =>
          let s := match args.get? 0 with
            | some (Value.primitive _ p) => jsValToString h p
            | some (Value.reference _) => "null"
            | _ => ""
          let c := match sbVal with
            | some p =>
                setSb c ((if jsTruthy p then jsValToString h p else "") ++ s)
            | none => c
          some (pushVal c ti ((objRef).getD createNullValue), "StringBuilder.append")
      | "toString" =>
          some (pushVal c ti (match sbField with
            | some f => f.value
            | none => createPrimitiveValue PrimType.string (JSVal.str "")),
            "StringBuilder.toString")
      | "length" =>
          let s := match sbVal with
            | some p => jsValToString h p
            | none => ""
          some (pushInt c ti (jsLength s), "StringBuilder.length")
      | "reverse" =>
          let c := match sbVal with
            | some p => setSb c (String.mk (jsValToString h p).toList.reverse)
            | none => c
          some (pushVal c ti ((objRef).getD createNullValue), "StringBuilder.reverse")
      | "delete" =>
          let c := match sbVal with
            | some p =>
                let s := jsValToString h p
                let a := argNum h args 0
                let b := match argPrim args 1 with
                  | some q => toNumber h q
                  | none => JNum.ofInt s.toList.length
                setSb c (String.mk (jsSliceList s.toList (JNum.ofInt 0) a ++
                  s.toList.drop (sliceIdx s.toList.length b)))
            | none => c
          some (pushVal c ti ((objRef).getD createNullValue), "StringBuilder.delete")
      | "insert" =>
          let c := match sbVal with
            | some p =>
                let s := jsValToString h p
                let pos := argNum h args 0
                let ins := match argPrim args 1 with
                  | some q => jsValToString h q
                  | none => ""
                setSb c (String.mk (jsSliceList s.toList (JNum.ofInt 0) pos) ++ ins ++
                  String.mk (s.toList.drop (sliceIdx s.toList.length pos)))
            | none => c
          some (pushVal c ti ((objRef).getD createNullValue), "StringBuilder.insert")
      | "charAt" =>
          let s := match sbVal with
            | some p => jsValToString h p
            | none => ""
          some (pushChar c ti (jsCharAt s (argNum h args 0)), "StringBuilder.charAt")
      | _ => none
    else none

/-- Scanner stubs (no stdin in the simulation). -/
def stdScanner (c : Core) (ti : Nat) (methodName : String)
    (obj : Option HeapObject) : Option (Core × String) :=
  match obj with
  | none => none
  | some o =>
    if o.className == "Scanner" then
      match methodName with
      | "<init>" => some (pushVal c ti createNullValue, "Scanner.<init>")
      | "nextInt" => some (pushInt c ti 0, "Scanner.nextInt [returns 0 in simulation]")
      | "nextLine" => some (pushStr c ti "", "Scanner.nextLine [returns empty in simulation]")
      | "next" => some (pushStr c ti "", "Scanner.nextLine [returns empty in simulation]")
      | "nextDouble" => some (pushNum c ti PrimType.double (JNum.ofInt 0), "Scanner.nextDouble")
      | "hasNextLine" => some (pushBool c ti false, "Scanner.hasNext")
      | "hasNext" => some (pushBool c ti false, "Scanner.hasNext")
      | "hasNextInt" => some (pushBool c ti false, "Scanner.hasNext")
      | "close" => some (pushVal c ti createNullValue, "Scanner.close")
      | _ => none
    else none

/-- invokeStdlib: the family chain in source order; returns the
description when handled.  The List family can initialise a backing array
even when it does not handle the call, so its core threads onward. -/
def invokeStdlib (h : Host) (prog : CompiledProgram) (c : Core) (ti : Nat)
    (methodName : String) (args : List Value) (_isStatic : Bool)
    (className : String) (objRef : Option Value) : Core × Option String :=
  let obj := match objRef with
    | some v => getHeapObj c v
    | none => none
  let strVal := match objRef with
    | some (Value.primitive PrimType.string p) =>
        some (match p with
          | JSVal.null => ""
          | _ => jsValToString h p)
    | _ => none
  match stdArraysEarly h c ti methodName args className with
  | some r => (r.1, some r.2)
  | none =>
  match stdString h c ti methodName args className strVal obj with
  | some r => (r.1, some r.2)
  | none =>
  match stdCharacter h c ti methodName args className with
  | some r => (r.1, some r.2)
  | none =>
  match stdIntegerFamily h c ti methodName args className obj with
  | some r => (r.1, some r.2)
  | none =>
  match stdMath h c ti methodName args className with
  | some r => (r.1, some r.2)
  | none =>
  match stdMap h c ti methodName args obj with
  | some r => (r.1, some r.2)
  | none =>
  match stdMapEntry c ti methodName args obj with
  | some r => (r.1, some r.2)
  | none =>
  match stdSet h c ti methodName args obj with
  | some r => (r.1, some r.2)
  | none =>
  match stdList h c ti methodName args obj with
  | (c, some d) => (c, some d)
  | (c, none) =>
  match stdIterator h c ti methodName obj with
  | some r => (r.1, some r.2)
  | none =>
  match stdCollections h c ti methodName args className with
  | some r => (r.1, some r.2)
  | none =>
  match stdArraysUtil h c ti methodName args className with
  | some r => (r.1, some r.2)
  | none =>
  match stdThread h prog c ti methodName args className objRef obj with
  | some r => (r.1, some r.2)
  | none =>
  match stdException h c ti methodName args className obj with
  | some r => (r.1, some r.2)
  | none =>
  match stdStringBuilder h c ti methodName args objRef obj with
  | some r => (r.1, some r.2)
  | none =>
  match stdScanner c ti methodName obj with
  | some r => (r.1, some r.2)
  | none =>
    match obj with
    | some o =>
        if o.kind == HKind.array && methodName == "iterator" then
          let (itId, c) := createIterator c o
          (pushVal c ti (createReferenceValue (some itId)), some "array.iterator")
        else (c, none)
    | none => (c, none)

-- ── Method invocation (invokeMethod) ────────────────────────────────────

def digitsToNat (l : List Char) : Nat :=
  l.foldl (fun acc c => acc * 10 + (c.toNat - 48)) 0

/-- Regex \((\d+)\) over the descriptor: the first parenthesised digit
group. -/
def parseArgcAux : List Char → Option Nat
  | [] => none
  | c :: rest =>
      if c == '(' then
        let digits := rest.takeWhile Char.isDigit
        let after := rest.drop digits.length
        if digits ≠ [] && after.head? == some ')' then some (digitsToNat digits)
        else parseArgcAux rest
      else parseArgcAux rest

def parseArgc (descriptor : String) : Nat :=
  (parseArgcAux descriptor.toList).getD 0

def popFromTop (c : Core) (ti : Nat) : Option Value × Core :=
  match topFrame c ti with
  | some fr =>
      match fr.operandStack with
      | v :: rest =>
          (some v, modifyTopFrame c ti fun f => { f with operandStack := rest })
      | [] => (none, c)
  | none => (none, c)

def advancePc (c : Core) (ti : Nat) : Core :=
  modifyTopFrame c ti fun f => { f with pc := f.pc + 1 }

/-- Pop argc values, keeping the original push order (the source pops and
unshifts, defaulting missing values to null). -/
def popArgsAux (c : Core) (ti : Nat) : Nat → List Value × Core
  | 0 => ([], c)
  | n + 1 =>
      let (v, c) := popFromTop c ti
      let (rest, c) := popArgsAux c ti n
      (rest ++ [v.getD createNullValue], c)

/-- Superclass walk of the user-method lookup. -/
def findMethodAux (prog : CompiledProgram) (methodName : String) :
    Nat → String → Option (CompiledClass × CompiledMethod)
  | 0, _ => none
  | fuel + 1, current =>
      if current == "" || current == "Object" then none
      else
        match prog.classes.find? (fun cl => cl.name == current) with
        | none => none
        | some cls =>
            match cls.methods.find? (fun m => m.methodName == methodName) with
            | some m => some (cls, m)
            | none => findMethodAux prog methodName fuel cls.superClass

def findMethodInHierarchy (prog : CompiledProgram) (targetClassName methodName : String) :
    Option (CompiledClass × CompiledMethod) :=
  match prog.classes.find? (fun cl => cl.name == targetClassName) with
  | none => none
  | some cls =>
      match cls.methods.find? (fun m => m.methodName == methodName) with
      | some m => some (cls, m)
      | none => findMethodAux prog methodName (prog.classes.length + 1) cls.superClass

/-- invokeMethod: universal toString/hashCode interceptors, argument
popping, stdlib dispatch, then user-defined lookup and frame push. -/
def invokeMethod (h : Host) (prog : CompiledProgram) (c : Core) (ti : Nat)
    (instr : Instruction) (isStatic : Bool) : Core × String :=
  let (methodName, descriptor) :=
    match instr.operands.get? 0 with
    | some (InstructionOperand.methodRef v d) => (v, d)
    | _ => ("", "")
  let numArgs := parseArgc descriptor
  -- Universal built-ins (before arg popping)
  if methodName == "toString" && numArgs == 0 && !isStatic then
    let (obj, c) := popFromTop c ti
    let s := match obj with
      | some v => valueToString h v
      | none => "null"
    (advancePc (pushStr c ti s) ti, "toString()")
  else if methodName == "hashCode" && numArgs == 0 && !isStatic then
    let (_, c) := popFromTop c ti
    let (r, c) := nextRandom h c
    let c := pushInt c ti ((r.mul (JNum.ofInt 100000)).floorInt)
    (advancePc c ti, "hashCode()")
  else
    let (args, c) := popArgsAux c ti numArgs
    let (targetClassName, objRef, c) : String × Option Value × Core :=
      if isStatic then
        let cn := match instr.operands.get? 1 with
          | some (InstructionOperand.classRef v) => v
          | _ =>
              match topFrame c ti with
              | some fr => fr.className
              | none => ""
        (cn, none, c)
      else
        let (objRef, c) := popFromTop c ti
        let cn :=
          match objRef with
          | some (Value.reference (some oid)) =>
              match getHeapObjById c oid with
              | some o => o.className
              | none => ""
          | _ => ""
        let cn :=
          if cn == "" then
            match objRef with
            | some (Value.primitive t _) =>
                if t == PrimType.string then "String" else "Object"
            | _ => cn
          else cn
        (cn, objRef, c)
    let (c, stdlibResult) :=
      invokeStdlib h prog c ti methodName args isStatic targetClassName objRef
    match stdlibResult with
    | some desc => (advancePc c ti, desc)
    | none =>
      if targetClassName == "" then
        (advancePc c ti, "Null pointer calling " ++ methodName ++ "()")
      else
        match findMethodInHierarchy prog targetClassName methodName with
        | none => (advancePc c ti, "Invoke " ++ methodName ++ "() [stdlib no-op]")
        | some (targetClass, methodNode) =>
            let c := advancePc c ti
            let signature := methodNode.signature
            let startIndex :=
              (prog.methodOffsets.lookup (targetClass.name ++ "." ++ signature)).getD 0
            let thisLocals : List LocalVariable :=
              if !isStatic then
                match objRef with
                | some v =>
                    [{ name := "this", type := targetClassName, value := v, slot := 0 }]
                | none => []
              else []
            let argLocals : List LocalVariable :=
              (List.range args.length).map fun (i : Nat) =>
                let expectedSlot : Int := if isStatic then (i : Int) else (i : Int) + 1
                let locVar := methodNode.localVariableTable.find?
                  (fun v => v.index == expectedSlot)
                { name := match locVar with
                    | some v => v.name
                    | none => "arg" ++ toString i,
                  type := match locVar with
                    | some v => v.type
                    | none => "Object",
                  value := (args.get? i).getD createNullValue,
                  slot := expectedSlot }
            let (fid, c) := generateFrameId h c
            let lineNumber := match topFrame c ti with
              | some fr => fr.lineNumber
              | none => 0
            let newFrame : StackFrame :=
              { id := fid, className := targetClass.name, methodName := methodName,
                methodSignature := signature,
                localVariables := thisLocals ++ argLocals,
                operandStack := [], pc := startIndex, lineNumber := lineNumber,
                isNative := false }
            let c := modifyThread c c.state.activeThread fun t =>
              { t with stack := newFrame :: t.stack }
            (c, "Invoke " ++ methodName ++ "(...)")

-- ── Instruction execution (executeInstruction) ──────────────────────────

def opcodeName : OpCode → String
  | OpCode.NOP => "NOP"
  | OpCode.LOAD_CONST => "LOAD_CONST"
  | OpCode.PUSH_NULL => "PUSH_NULL"
  | OpCode.LOAD_LOCAL => "LOAD_LOCAL"
  | OpCode.STORE_LOCAL => "STORE_LOCAL"
  | OpCode.NEW => "NEW"
  | OpCode.NEWARRAY => "NEWARRAY"
  | OpCode.ARRAYLENGTH => "ARRAYLENGTH"
  | OpCode.ARRAYLOAD => "ARRAYLOAD"
  | OpCode.ARRAYSTORE => "ARRAYSTORE"
  | OpCode.GETFIELD => "GETFIELD"
  | OpCode.PUTFIELD => "PUTFIELD"
  | OpCode.GETSTATIC => "GETSTATIC"
  | OpCode.PUTSTATIC => "PUTSTATIC"
  | OpCode.INVOKE_VIRTUAL => "INVOKE_VIRTUAL"
  | OpCode.INVOKE_STATIC => "INVOKE_STATIC"
  | OpCode.INVOKE_SPECIAL => "INVOKE_SPECIAL"
  | OpCode.INVOKE_INTERFACE => "INVOKE_INTERFACE"
  | OpCode.RETURN => "RETURN"
  | OpCode.RETURN_VALUE => "RETURN_VALUE"
  | OpCode.POP => "POP"
  | OpCode.DUP => "DUP"
  | OpCode.SWAP => "SWAP"
  | OpCode.ADD => "ADD"
  | OpCode.SUB => "SUB"
  | OpCode.MUL => "MUL"
  | OpCode.DIV => "DIV"
  | OpCode.MOD => "MOD"
  | OpCode.NEG => "NEG"
  | OpCode.CMP_EQ => "CMP_EQ"
  | OpCode.CMP_NE => "CMP_NE"
  | OpCode.CMP_LT => "CMP_LT"
  | OpCode.CMP_LE => "CMP_LE"
  | OpCode.CMP_GT => "CMP_GT"
  | OpCode.CMP_GE => "CMP_GE"
  | OpCode.AND => "AND"
  | OpCode.OR => "OR"
  | OpCode.NOT => "NOT"
  | OpCode.GOTO => "GOTO"
  | OpCode.IF_TRUE => "IF_TRUE"
  | OpCode.IF_FALSE => "IF_FALSE"
  | OpCode.CHECKCAST => "CHECKCAST"
  | OpCode.INSTANCEOF => "INSTANCEOF"
  | OpCode.LAMBDA_CREATE => "LAMBDA_CREATE"
  | OpCode.LAMBDA_INVOKE => "LAMBDA_INVOKE"
  | OpCode.STREAM_SOURCE => "STREAM_SOURCE"
  | OpCode.STREAM_MAP => "STREAM_MAP"
  | OpCode.STREAM_FILTER => "STREAM_FILTER"
  | OpCode.STREAM_FLATMAP => "STREAM_FLATMAP"
  | OpCode.STREAM_REDUCE => "STREAM_REDUCE"
  | OpCode.STREAM_COLLECT => "STREAM_COLLECT"
  | OpCode.STREAM_FOREACH => "STREAM_FOREACH"
  | OpCode.STREAM_COUNT => "STREAM_COUNT"
  | OpCode.PRINT => "PRINT"
  | OpCode.LINE => "LINE"
  | OpCode.BREAKPOINT => "BREAKPOINT"
  | OpCode.THROW => "THROW"
  | OpCode.LOAD_CLASS => "LOAD_CLASS"
  | OpCode.MONITORENTER => "MONITORENTER"
  | OpCode.MONITOREXIT => "MONITOREXIT"
  | OpCode.DUP_X1 => "DUP_X1"

/-- PRINT output text: valueToString with the regex ^"|"$ strip (one
leading and one trailing double quote). -/
def stripQuotes (s : String) : String :=
  let l := s.toList
  let l := if l.head? == some '"' then l.tail else l
  let l := if l.getLast? == some '"' then l.dropLast else l
  String.mk l

def JNum.isInt (a : JNum) : Bool := a.num.emod a.den == 0

/-- Read l[idx] for a JavaScript numeric index: a defined element only
for an integral in-range index. -/
def jsArrGet (l : List Value) (q : JNum) : Option Value :=
  if q.isInt && decide (0 ≤ q.truncInt) && decide (q.truncInt < (l.length : Int)) then
    l.get? q.truncInt.toNat
  else none

def jsArrSet (l : List Value) (q : JNum) (v : Value) : List Value :=
  if q.isInt && decide (0 ≤ q.truncInt) && decide (q.truncInt < (l.length : Int)) then
    l.set q.truncInt.toNat v
  else l

/-- The string-concatenation rendering of the ADD case. -/
def concatSide (h : Host) : Option Value → String
  | some (Value.primitive _ p) =>
      match p with
      | JSVal.null => "null"
      | _ => jsValToString h p
  | some (Value.reference oid) =>
      match oid with
      | some i => if i ≠ "" then "ref@" ++ i else "null"
      | none => "null"
  | some v => valueToString h v
  | none => "null"

/-- Is this value a primitive of ptype string (the ADD concat guard)? -/
def isStrPrim : Option Value → Bool
  | some (Value.primitive t _) => t == PrimType.string
  | _ => false

/-- One arithmetic opcode on two primitive payloads. -/
def arithResult (h : Host) (op : OpCode) (ta tb : PrimType) (pa pb : JSVal) : JSVal :=
  match op with
  | OpCode.ADD => jsAddVal h pa pb
  | OpCode.SUB => jsSubVal h pa pb
  | OpCode.MUL => jsMulVal h pa pb
  | OpCode.DIV =>
      let raw := if !(jsIsZeroNum pb) then jsDivVal h pa pb else JSVal.num (JNum.ofInt 0)
      if ta == PrimType.int && tb == PrimType.int then
        match raw with
        | JSVal.num q => JSVal.num (JNum.ofInt q.truncInt)
        | x => x
      else raw
  | OpCode.MOD =>
      if !(jsIsZeroNum pb) then jsModVal h pa pb else JSVal.num (JNum.ofInt 0)
  | _ => JSVal.num (JNum.ofInt 0)

/-- One comparison opcode. -/
def cmpResult (h : Host) (op : OpCode) (aV bV : Option Value) : Bool :=
  match aV, bV with
  | some (Value.primitive _ pa), some (Value.primitive _ pb) =>
      match op with
      | OpCode.CMP_EQ => jsStrictEq pa pb
      | OpCode.CMP_NE => !(jsStrictEq pa pb)
      | OpCode.CMP_LT => jsLtVal h pa pb
      | OpCode.CMP_LE => jsLeVal h pa pb
      | OpCode.CMP_GT => jsLtVal h pb pa
      | OpCode.CMP_GE => jsLeVal h pb pa
      | _ => false
  | some (Value.reference oa), some (Value.reference ob) =>
      match op with
      | OpCode.CMP_EQ => oa == ob
      | OpCode.CMP_NE => !(oa == ob)
      | _ => false
  | _, _ => false

/-- executeInstruction: dispatch on opcode; the mutated `frame` is the
top frame of thread `ti` (exactly how step invokes it). -/
def executeInstruction (h : Host) (prog : CompiledProgram) (c : Core) (ti : Nat)
    (instr : Instruction) : Core × String :=
  match instr.opcode with
  | OpCode.NOP => (advancePc c ti, "No operation")
  | OpCode.LINE =>
      let ln := match instr.operands.get? 0 with
        | some (InstructionOperand.int n) => n
        | _ => 0
      let c := modifyTopFrame c ti fun fr => { fr with lineNumber := ln }
      let c := { c with state := { c.state with pc := { c.state.pc with currentLine := ln } } }
      (advancePc c ti, "Line " ++ toString ln)
  | OpCode.LOAD_CONST =>
      let value := match instr.operands.get? 0 with
        | some op => operandToValue op
        | none => createNullValue
      (advancePc (pushVal c ti value) ti, "Push constant " ++ valueToString h value)
  | OpCode.PUSH_NULL =>
      (advancePc (pushVal c ti createNullValue) ti, "Push null")
  | OpCode.LOAD_LOCAL =>
      let (index, name) : Int × String := match instr.operands.get? 0 with
        | some (InstructionOperand.local i n) => (i, n)
        | _ => (0, "")
      let lv := match topFrame c ti with
        | some fr => fr.localVariables.find? (fun (v : LocalVariable) => v.slot == index)
        | none => none
      match lv with
      | some v =>
          (advancePc (pushVal c ti v.value) ti,
            "Load local " ++ name ++ " = " ++ valueToString h v.value)
      | none =>
          (advancePc (pushVal c ti createNullValue) ti,
            "Load local " ++ name ++ " (not found)")
  | OpCode.STORE_LOCAL =>
      let (index, name) : Int × String := match instr.operands.get? 0 with
        | some (InstructionOperand.local i n) => (i, n)
        | _ => (0, "")
      let (v, c) := popFromTop c ti
      let value := v.getD createNullValue
      let c := modifyTopFrame c ti fun fr =>
        if (fr.localVariables.find? (fun lv => lv.slot == index)).isSome then
          { fr with localVariables :=
              (updateFirst (fun lv => lv.slot == index)
                (fun lv => { lv with value := value }) fr.localVariables) }
        else
          { fr with localVariables := fr.localVariables ++
              [{ name := name, type := "Object", value := value, slot := index }] }
      (advancePc c ti, "Store " ++ name ++ " = " ++ valueToString h value)
  | OpCode.NEW =>
      let className := match instr.operands.get? 0 with
        | some (InstructionOperand.classRef v) => v
        | _ => ""
      let (objectId, c) := allocateObject c className
      (advancePc (pushVal c ti (createReferenceValue (some objectId))) ti,
        "New " ++ className ++ " -> @" ++ objectId)
  | OpCode.NEWARRAY =>
      let elementType := match instr.operands.get? 0 with
        | some (InstructionOperand.typeRef v) => v
        | _ => ""
      let (length, c) := popFromTop c ti
      let len : JNum := match length with
        | some (Value.primitive _ p) => toNumber h p
        | _ => JNum.ofInt 0
      -- new Array(len): an invalid length throws in the host; the model
      -- clamps to a natural count.
      let n := (max 0 len.truncInt).toNat
      let (arrayId, c) := allocateArray c elementType
        (List.replicate n (getDefaultValue elementType))
      (advancePc (pushVal c ti (createReferenceValue (some arrayId))) ti,
        "New " ++ elementType ++ "[" ++ h.numToString len ++ "] -> @" ++ arrayId)
  | OpCode.ARRAYLENGTH =>
      let (ref, c) := popFromTop c ti
      match ref with
      | some (Value.reference (some oid)) =>
          if oid ≠ "" then
            match getHeapObjById c oid with
            | some o =>
                match o.arrayLength with
                | some al =>
                    (advancePc (pushInt c ti al) ti, "Array length = " ++ toString al)
                | none => (advancePc (pushInt c ti 0) ti, "")
            | none => (advancePc (pushInt c ti 0) ti, "")
          else (advancePc c ti, "")
      | _ => (advancePc c ti, "")
  | OpCode.ARRAYLOAD =>
      let (index, c) := popFromTop c ti
      let (arrayRef, c) := popFromTop c ti
      match arrayRef, index with
      | some (Value.reference (some oid)), some (Value.primitive _ p) =>
          if oid ≠ "" then
            match getHeapObjById c oid with
            | some o =>
                match o.arrayElements with
                | some l =>
                    let idx := toNumber h p
                    let value := (jsArrGet l idx).getD createNullValue
                    (advancePc (pushVal c ti value) ti,
                      "Load array[" ++ h.numToString idx ++ "] = " ++ valueToString h value)
                | none => (advancePc c ti, "")
            | none => (advancePc c ti, "")
          else (advancePc c ti, "")
      | _, _ => (advancePc c ti, "")
  | OpCode.ARRAYSTORE =>
      let (value, c) := popFromTop c ti
      let (index, c) := popFromTop c ti
      let (arrayRef, c) := popFromTop c ti
      match arrayRef, index, value with
      | some (Value.reference (some oid)), some (Value.primitive _ p), some v =>
          if oid ≠ "" then
            let idx := toNumber h p
            let c := modifyHeapObj c oid fun o =>
              match o.arrayElements with
              | some l => { o with arrayElements := some (jsArrSet l idx v) }
              | none => o
            (advancePc c ti,
              "Store array[" ++ h.numToString idx ++ "] = " ++ valueToString h v)
          else (advancePc c ti, "")
      | _, _, _ => (advancePc c ti, "")
  | OpCode.GETFIELD =>
      let fname := match instr.operands.get? 0 with
        | some (InstructionOperand.fieldRef v _) => v
        | _ => ""
      let (objRef, c) := popFromTop c ti
      match objRef with
      | some (Value.reference (some oid)) =>
          if oid ≠ "" then
            match getHeapObjById c oid with
            | some o =>
                if fname == "length" && o.kind == HKind.array then
                  let al := match o.arrayLength with
                    | some x => x
                    | none =>
                        match o.arrayElements with
                        | some l => l.length
                        | none => 0
                  (advancePc (pushInt c ti al) ti, "Get array.length = " ++ toString al)
                else
                  match o.fields.find? (fun f => f.name == fname) with
                  | some f =>
                      (advancePc (pushVal c ti f.value) ti,
                        "Get field " ++ fname ++ " = " ++ valueToString h f.value)
                  | none =>
                      (advancePc (pushVal c ti createNullValue) ti,
                        "Get field " ++ fname ++ " = null")
            | none => (advancePc (pushVal c ti createNullValue) ti, "")
          else (advancePc (pushVal c ti createNullValue) ti, "")
      | _ => (advancePc (pushVal c ti createNullValue) ti, "")
  | OpCode.PUTFIELD =>
      let fname := match instr.operands.get? 0 with
        | some (InstructionOperand.fieldRef v _) => v
        | _ => ""
      let (v, c) := popFromTop c ti
      let value := v.getD createNullValue
      let (objRef, c) := popFromTop c ti
      match objRef with
      | some (Value.reference (some oid)) =>
          if oid ≠ "" then
            match getHeapObjById c oid with
            | some _ =>
                let c := modifyHeapObj c oid fun o =>
                  if (o.fields.find? (fun f => f.name == fname)).isSome then
                    { o with fields :=
                        (updateFirst (fun f => f.name == fname)
                          (fun f => { f with value := value }) o.fields) }
                  else
                    { o with fields := o.fields ++
                        [{ name := fname, type := "Object", value := value,
                           isStatic := false }] }
                (advancePc c ti, "Set field " ++ fname ++ " = " ++ valueToString h value)
            | none => (advancePc c ti, "")
          else (advancePc c ti, "")
      | _ => (advancePc c ti, "")
  | OpCode.GETSTATIC =>
      let (fname, owner) : String × String := match instr.operands.get? 0 with
        | some (InstructionOperand.fieldRef v ow) => (v, ow)
        | _ => ("", "")
      let className := if owner == "" then
          (match topFrame c ti with
            | some fr => fr.className
            | none => "")
        else owner
      match c.state.methodArea.staticFields.lookup className with
      | some m =>
          match m.lookup fname with
          | some v =>
              (advancePc (pushVal c ti v) ti, "Get static " ++ className ++ "." ++ fname)
          | none => (advancePc (pushVal c ti createNullValue) ti, "")
      | none => (advancePc (pushVal c ti createNullValue) ti, "")
  | OpCode.PUTSTATIC =>
      let (fname, owner) : String × String := match instr.operands.get? 0 with
        | some (InstructionOperand.fieldRef v ow) => (v, ow)
        | _ => ("", "")
      let (v, c) := popFromTop c ti
      let value := v.getD createNullValue
      let className := if owner == "" then
          (match topFrame c ti with
            | some fr => fr.className
            | none => "")
        else owner
      let outer := c.state.methodArea.staticFields
      let inner := (outer.lookup className).getD []
      let c := { c with state := { c.state with methodArea :=
        { c.state.methodArea with staticFields :=
            (recordSet outer className (recordSet inner fname value)) } } }
      (advancePc c ti, "Set static " ++ className ++ "." ++ fname ++ " = " ++
        valueToString h value)
  | OpCode.DUP =>
      let top := match topFrame c ti with
        | some fr => fr.operandStack.head?
        | none => none
      let c := match top with
        | some v => pushVal c ti v
        | none => c
      (advancePc c ti, "Duplicate top of stack")
  | OpCode.DUP_X1 =>
      let (v1, c) := popFromTop c ti
      let (v2, c) := popFromTop c ti
      let c := match v1, v2 with
        | some a, some b => pushVal (pushVal (pushVal c ti a) ti b) ti a
        | _, _ => c
      (advancePc c ti, "Duplicate top of stack and insert two values down")
  | OpCode.POP =>
      let (_, c) := popFromTop c ti
      (advancePc c ti, "Pop top of stack")
  | OpCode.SWAP =>
      let (a, c) := popFromTop c ti
      let (b, c) := popFromTop c ti
      let c := match a with
        | some v => pushVal c ti v
        | none => c
      let c := match b with
        | some v => pushVal c ti v
        | none => c
      (advancePc c ti, "Swap top two values")
  | OpCode.ADD => execArith h c ti instr.opcode
  | OpCode.SUB => execArith h c ti instr.opcode
  | OpCode.MUL => execArith h c ti instr.opcode
  | OpCode.DIV => execArith h c ti instr.opcode
  | OpCode.MOD => execArith h c ti instr.opcode
  | OpCode.NEG =>
      let (a, c) := popFromTop c ti
      match a with
      | some (Value.primitive t p) =>
          let c := pushVal c ti
            (createPrimitiveValue t (JSVal.num (toNumber h p).neg))
          (advancePc c ti, "Negate " ++ jsValToString h p)
      | _ => (advancePc c ti, "")
  | OpCode.CMP_EQ => execCmp h c ti instr.opcode
  | OpCode.CMP_NE => execCmp h c ti instr.opcode
  | OpCode.CMP_LT => execCmp h c ti instr.opcode
  | OpCode.CMP_LE => execCmp h c ti instr.opcode
  | OpCode.CMP_GT => execCmp h c ti instr.opcode
  | OpCode.CMP_GE => execCmp h c ti instr.opcode
  | OpCode.AND =>
      let (b, c) := popFromTop c ti
      let (a, c) := popFromTop c ti
      let truthyOf := fun (v : Option Value) =>
        match v with
        | some (Value.primitive _ p) => jsTruthy p
        | _ => false
      let result := truthyOf a && truthyOf b
      (advancePc (pushBool c ti result) ti,
        "AND: " ++ (if result then "true" else "false"))
  | OpCode.OR =>
      let (b, c) := popFromTop c ti
      let (a, c) := popFromTop c ti
      let truthyOf := fun (v : Option Value) =>
        match v with
        | some (Value.primitive _ p) => jsTruthy p
        | _ => false
      let result := truthyOf a || truthyOf b
      (advancePc (pushBool c ti result) ti,
        "OR: " ++ (if result then "true" else "false"))
  | OpCode.NOT =>
      let (a, c) := popFromTop c ti
      let result := !(match a with
        | some (Value.primitive _ p) => jsTruthy p
        | _ => false)
      (advancePc (pushBool c ti result) ti,
        "NOT: " ++ (if result then "true" else "false"))
  | OpCode.GOTO =>
      let target := match instr.operands.get? 0 with
        | some (InstructionOperand.label t) => t
        | _ => 0
      (modifyTopFrame c ti (fun fr => { fr with pc := target }),
        "Jump to instruction " ++ toString target)
  | OpCode.IF_TRUE =>
      let (condition, c) := popFromTop c ti
      let target := match instr.operands.get? 0 with
        | some (InstructionOperand.label t) => t
        | _ => 0
      match condition with
      | some (Value.primitive _ p) =>
          if jsTruthy p then
            (modifyTopFrame c ti (fun fr => { fr with pc := target }),
              "Condition true, jump to " ++ toString target)
          else (advancePc c ti, "Condition false, continue")
      | _ => (advancePc c ti, "Condition false, continue")
  | OpCode.IF_FALSE =>
      let (condition, c) := popFromTop c ti
      let target := match instr.operands.get? 0 with
        | some (InstructionOperand.label t) => t
        | _ => 0
      match condition with
      | some (Value.primitive _ p) =>
          if !(jsTruthy p) then
            (modifyTopFrame c ti (fun fr => { fr with pc := target }),
              "Condition false, jump to " ++ toString target)
          else (advancePc c ti, "Condition true, continue")
      | _ => (advancePc c ti, "Condition true, continue")
  | OpCode.INVOKE_VIRTUAL => invokeMethod h prog c ti instr false
  | OpCode.INVOKE_INTERFACE => invokeMethod h prog c ti instr false
  | OpCode.INVOKE_SPECIAL => invokeMethod h prog c ti instr false
  | OpCode.INVOKE_STATIC => invokeMethod h prog c ti instr true
  | OpCode.RETURN =>
      let c := modifyThread c c.state.activeThread fun t => { t with stack := t.stack.tail }
      (c, "Return void")
  | OpCode.RETURN_VALUE =>
      let (returnValue, c) := popFromTop c ti
      let c := modifyThread c c.state.activeThread fun t => { t with stack := t.stack.tail }
      let callerExists := (topFrame c c.state.activeThread).isSome
      let c := match returnValue with
        | some rv => if callerExists then pushVal c c.state.activeThread rv else c
        | none => c
      (c, "Return " ++ (match returnValue with
        | some rv => valueToString h rv
        | none => "void"))
  | OpCode.PRINT =>
      -- the operand is always a boolean literal; a missing operand
      -- defaults to println
      let isPrintln := match instr.operands.get? 0 with
        | some (InstructionOperand.boolean b) => b
        | _ => true
      let (value, c) := popFromTop c ti
      let outputStr := match value with
        | some v => stripQuotes (valueToString h v)
        | none => "null"
      let out := c.state.output
      let out := if out.isEmpty then [""] else out
      let out := out.dropLast ++ [((out.getLast?).getD "") ++ outputStr]
      let out := if isPrintln then out ++ [""] else out
      let c := { c with state := { c.state with output := out } }
      (advancePc c ti, "Print: " ++ outputStr)
  | OpCode.MONITORENTER =>
      let (lockRef, c) := popFromTop c ti
      let objectId := match lockRef with
        | some (Value.reference (some oid)) => if oid ≠ "" then some oid else none
        | _ => none
      match objectId, activeThreadState c with
      | some oid, some act =>
          let (acquired, c) := acquireMonitor c oid act.id
          if !acquired then
            let c := modifyThread c c.state.activeThread fun t =>
              { t with status := ThreadStatus.BLOCKED, waitingOnMonitor := some oid }
            let c := pushVal c ti (lockRef.getD createNullValue)
            (c, "MONITORENTER: Thread " ++ act.name ++ " BLOCKED waiting for monitor @" ++ oid)
          else
            (advancePc c ti,
              "MONITORENTER: Thread " ++ act.name ++ " acquired monitor @" ++ oid)
      | _, _ => (advancePc c ti, "")
  | OpCode.MONITOREXIT =>
      let (lockRef, c) := popFromTop c ti
      let objectId := match lockRef with
        | some (Value.reference (some oid)) => if oid ≠ "" then some oid else none
        | _ => none
      match objectId, activeThreadState c with
      | some oid, some act =>
          let c := releaseMonitor c oid act.id
          (advancePc c ti,
            "MONITOREXIT: Thread " ++ act.name ++ " released monitor @" ++ oid)
      | _, _ => (advancePc c ti, "")
  | OpCode.LAMBDA_CREATE =>
      let lambdaInfo := match instr.operands.get? 0 with
        | some (InstructionOperand.string v) => v
        | _ => ""
      let (lambdaId, c) := allocateLambda c lambdaInfo
      (advancePc (pushVal c ti (createReferenceValue (some lambdaId))) ti,
        "Create lambda -> @" ++ lambdaId)
  | OpCode.LAMBDA_INVOKE => (advancePc c ti, "Invoke lambda")
  | OpCode.STREAM_SOURCE => (advancePc c ti, "Stream operation: " ++ opcodeName instr.opcode)
  | OpCode.STREAM_MAP => (advancePc c ti, "Stream operation: " ++ opcodeName instr.opcode)
  | OpCode.STREAM_FILTER => (advancePc c ti, "Stream operation: " ++ opcodeName instr.opcode)
  | OpCode.STREAM_COLLECT => (advancePc c ti, "Stream operation: " ++ opcodeName instr.opcode)
  | OpCode.STREAM_FOREACH => (advancePc c ti, "Stream operation: " ++ opcodeName instr.opcode)
  | OpCode.INSTANCEOF =>
      let typeV := match instr.operands.get? 0 with
        | some (InstructionOperand.typeRef v) => v
        | _ => ""
      let (ref, c) := popFromTop c ti
      match ref with
      | some (Value.reference (some oid)) =>
          if oid ≠ "" then
            let result := match getHeapObjById c oid with
              | some o => o.className == typeV || typeV == "Object"
              | none => false
            (advancePc (pushBool c ti result) ti, "instanceof " ++ typeV)
          else (advancePc (pushBool c ti false) ti, "instanceof " ++ typeV)
      | _ => (advancePc (pushBool c ti false) ti, "instanceof " ++ typeV)
  | OpCode.CHECKCAST => (advancePc c ti, "checkcast")
  | OpCode.THROW =>
      let (exRef, c) := popFromTop c ti
      let exObj := match exRef with
        | some (Value.reference (some oid)) =>
            if oid ≠ "" then getHeapObjById c oid else none
        | _ => none
      let exType := match exObj with
        | some o => if o.className == "" then "RuntimeException" else o.className
        | none => "RuntimeException"
      let msgField := match exObj with
        | some o => o.fields.find? (fun (f : HeapField) => f.name == "message" || f.name == "detailMessage")
        | none => none
      let exMsg := match msgField with
        | some f =>
            match f.value with
            | Value.primitive _ p => jsValToString h p
            | _ => exType
        | none => exType
      let c := { c with state := { c.state with
        error := some (exType ++ ": " ++ exMsg),
        status := ExecutionStatus.error } }
      (c, "throw " ++ exType ++ ": " ++ exMsg)
  | _ => (advancePc c ti, "Unknown opcode: " ++ opcodeName instr.opcode)
where
  /-- ADD/SUB/MUL/DIV/MOD: string concatenation for ADD on string-typed
  primitives, numeric arithmetic otherwise. -/
  execArith (h : Host) (c : Core) (ti : Nat) (op : OpCode) : Core × String :=
    let (bV, c) := popFromTop c ti
    let (aV, c) := popFromTop c ti
    if op == OpCode.ADD && (isStrPrim aV || isStrPrim bV) then
      let aStr := concatSide h aV
      let bStr := concatSide h bV
      (advancePc
        (pushPrim c ti PrimType.string (JSVal.str (aStr ++ bStr))) ti,
        "String concat: \"" ++ aStr ++ bStr ++ "\"")
    else
      match aV, bV with
      | some (Value.primitive ta pa), some (Value.primitive tb pb) =>
          let result := arithResult h op ta tb pa pb
          (advancePc (pushPrim c ti ta result) ti,
            jsValToString h pa ++ " " ++ opcodeName op ++ " " ++ jsValToString h pb ++
              " = " ++ jsValToString h result)
      | _, _ =>
          (advancePc (pushVal c ti createNullValue) ti,
            opcodeName op ++ " on incompatible types")
  /-- CMP_*: primitive and reference comparisons. -/
  execCmp (h : Host) (c : Core) (ti : Nat) (op : OpCode) : Core × String :=
    let (bV, c) := popFromTop c ti
    let (aV, c) := popFromTop c ti
    let result := cmpResult h op aV bV
    (advancePc (pushBool c ti result) ti,
      "Compare: " ++ (if result then "true" else "false"))

-- ── Simulator stepping (step / stepBack / history) ──────────────────────

structure ExecutionResult where
  state : VMState
  instruction : Option Instruction
  description : String
deriving DecidableEq

/-- The simulator: program, core, bounded snapshot history (newest at the
head; JavaScript push/pop at the array end, shift at the front). -/
structure Sim where
  program : CompiledProgram
  core : Core
  history : List VMState
  maxHistory : Nat
deriving DecidableEq

/-- cloneState: a JSON-round-trip deep copy; the identity on the embedded
snapshot values (the embedded state holds only JSON-stable data). -/
def cloneState (s : VMState) : VMState := s

def saveHistory (sim : Sim) : Sim :=
  let hist :=
    if sim.history.length ≥ sim.maxHistory then sim.history.dropLast else sim.history
  { sim with history := cloneState sim.core.state :: hist }

def canStepBack (sim : Sim) : Bool := sim.history.length > 0

/-- stepBack: pop the most recent snapshot and install it. -/
def stepBack (sim : Sim) : Sim × ExecutionResult :=
  match sim.history with
  | [] =>
      (sim, { state := cloneState sim.core.state, instruction := none,
              description := "No previous state" })
  | s :: rest =>
      let sim := { sim with core := { sim.core with state := s }, history := rest }
      (sim, { state := cloneState s, instruction := none, description := "Stepped back" })

def canStepForward (sim : Sim) : Bool :=
  if sim.core.state.status == ExecutionStatus.completed ||
      sim.core.state.status == ExecutionStatus.error then false
  else
    sim.core.state.threads.any (fun t => t.status ≠ ThreadStatus.TERMINATED) ||
      sim.core.state.threads.length == 0

def getState (sim : Sim) : VMState := cloneState sim.core.state

def runnableActive (c : Core) : Bool :=
  match activeThreadState c with
  | some t => t.status == ThreadStatus.RUNNABLE || t.status == ThreadStatus.RUNNING
  | none => false

/-- The thread-finished path: TERMINATED, release every held monitor
(iterating the list captured at loop entry), clear the list. -/
def terminateThread (c : Core) (ti : Nat) (t : ThreadState) : Core :=
  let c := modifyThread c ti fun th => { th with status := ThreadStatus.TERMINATED }
  let c := t.holdingMonitors.foldl (fun c m => releaseMonitor c m t.id) c
  modifyThread c ti fun th => { th with holdingMonitors := [] }

def setGlobalStatus (c : Core) : Core :=
  { c with state := { c.state with status :=
      (if c.state.threads.all (fun t => t.status == ThreadStatus.TERMINATED) then
        ExecutionStatus.completed
      else ExecutionStatus.paused) } }

def bumpStepNumber (c : Core) : Core :=
  { c with state := { c.state with stepNumber := c.state.stepNumber + 1 } }

/-- Refresh the pc display from the active frame. -/
def updatePcDisplay (c : Core) : Core :=
  match activeThreadState c with
  | some t =>
      match t.stack.head? with
      | some af =>
          { c with state := { c.state with pc :=
              { currentInstruction := af.pc, currentLine := af.lineNumber,
                currentMethod := af.methodName, currentClass := af.className } } }
      | none => c
  | none => c

/-- step: one instruction of the active thread, per the source sequence
(guard, history push, tick, select, execute, bookkeeping, rotate). -/
def step (h : Host) (sim : Sim) : Sim × ExecutionResult :=
  if sim.core.state.status == ExecutionStatus.completed ||
      sim.core.state.status == ExecutionStatus.error then
    (sim, { state := cloneState sim.core.state, instruction := none,
            description := "Execution finished" })
  else
    let sim := saveHistory sim
    let c := tickThreads sim.core
    let c := if !(runnableActive c) then rotateThread c else c
    if !(runnableActive c) then
      let allDone := c.state.threads.all (fun t => t.status == ThreadStatus.TERMINATED)
      if allDone || c.state.threads.length == 0 then
        let c := { c with state := { c.state with status := ExecutionStatus.completed } }
        ({ sim with core := c },
          { state := cloneState c.state, instruction := none,
            description := "All threads completed" })
      else
        let c := tickThreads (bumpStepNumber c)
        ({ sim with core := c },
          { state := cloneState c.state, instruction := none,
            description := "Waiting for threads..." })
    else
      let ti := c.state.activeThread
      let c := modifyThread c ti fun t => { t with status := ThreadStatus.RUNNING }
      match getThread c ti with
      | none =>
          ({ sim with core := c },
            { state := cloneState c.state, instruction := none, description := "" })
      | some thread =>
        match thread.stack.head? with
        | none =>
            let c := terminateThread c ti thread
            let c := rotateThread c
            let c := setGlobalStatus (bumpStepNumber c)
            ({ sim with core := c },
              { state := cloneState c.state, instruction := none,
                description := "Thread " ++ thread.name ++ " terminated" })
        | some frame =>
          match sim.program.allInstructions.get? frame.pc with
          | none =>
              let c := terminateThread c ti thread
              let c := rotateThread c
              let c := setGlobalStatus (bumpStepNumber c)
              ({ sim with core := c },
                { state := cloneState c.state, instruction := none,
                  description := "Thread " ++ thread.name ++ " finished" })
          | some instruction =>
              let c := { c with state :=
                { c.state with status := ExecutionStatus.running } }
              let (c, description) := executeInstruction h sim.program c ti instruction
              let c := bumpStepNumber c
              let c := modifyThread c ti fun t => { t with stepCount := t.stepCount + 1 }
              let c :=
                match getThread c ti with
                | some t =>
                    if t.stack.length == 0 then terminateThread c ti t
                    else if t.status == ThreadStatus.RUNNING then
                      modifyThread c ti fun th => { th with status := ThreadStatus.RUNNABLE }
                    else c
                | none => c
              let c := rotateThread c
              let c := setGlobalStatus c
              let c := updatePcDisplay c
              ({ sim with core := c },
                { state := cloneState c.state, instruction := some instruction,
                  description := description })

def stepN (h : Host) : Nat → Sim → Sim
  | 0, sim => sim
  | n + 1, sim => stepN h n (step h sim).1

-- ── Simulator construction (constructor + initialize) ───────────────────

def loadClassInfo (prog : CompiledProgram) (cls : CompiledClass) : ClassInfo :=
  { name := cls.name,
    superClass := some cls.superClass,
    interfaces := cls.interfaces,
    fields := cls.fields.map fun f =>
      { name := f.name, type := f.type, accessModifiers := [],
        isStatic := f.isStatic, initialValue := f.initialValue.map operandToValue },
    methods := cls.methods.map fun m =>
      { name := m.methodName,
        returnType := extractReturnType m.signature,
        parameters := [], accessModifiers := [],
        isStatic := m.methodName == "main" || m.methodName == "<clinit>",
        isAbstract := false, isDefault := false, isNative := false,
        bytecodeStartIndex :=
          (prog.methodOffsets.lookup (cls.name ++ "." ++ m.signature)).getD 0,
        bytecodeEndIndex :=
          (prog.methodOffsets.lookup (cls.name ++ "." ++ m.signature)).getD 0 +
            m.instructions.length },
    isInterface := cls.isInterface, isAbstract := false, accessModifiers := [],
    loadedAtStep := 0 }

/-- One iteration of the constructor class-loading loop: register the
class and collect its static fields. -/
def loadClassIntoState (prog : CompiledProgram) (st : VMState)
    (cls : CompiledClass) : VMState :=
  let st := { st with methodArea := { st.methodArea with loadedClasses :=
    (recordSet st.methodArea.loadedClasses cls.name (loadClassInfo prog cls)) } }
  let statics := cls.fields.foldl
    (fun (m : List (String × Value)) f =>
      if f.isStatic then
        recordSet m f.name
          (match f.initialValue with
           | some iv => operandToValue iv
           | none => getDefaultValue f.type)
      else m)
    []
  { st with methodArea := { st.methodArea with staticFields :=
      (recordSet st.methodArea.staticFields cls.name statics) } }

/-- The constructor body (initialize in the source). -/
def initSim (h : Host) (prog : CompiledProgram) : Core :=
  let st := createInitialJVMState
  let st := prog.classes.foldl (loadClassIntoState prog) st
  let c : Core := { state := st, nextObjectId := 1, randClock := 0, frameClock := 0 }
  if prog.mainClass ≠ "" then
    let mainMethodSignature := prog.mainClass ++ ".main(String[])void"
    let startIndex := (prog.methodOffsets.lookup mainMethodSignature).getD 0
    let (argsArrayId, c) := allocateArray c "String" []
    let (fid, c) := generateFrameId h c
    let mainFrame : StackFrame :=
      { id := fid, className := prog.mainClass, methodName := "main",
        methodSignature := "main(String[])void",
        localVariables :=
          [{ name := "args", type := "String[]",
             value := createReferenceValue (some argsArrayId), slot := 0 }],
        operandStack := [], pc := startIndex, lineNumber := 1, isNative := false }
    let mainThread : ThreadState :=
      { id := "thread_main", name := "main", stack := [mainFrame],
        status := ThreadStatus.RUNNABLE, sleepUntilStep := none,
        waitingOnMonitor := none, holdingMonitors := [], objectId := none,
        priority := 5, isDaemon := false, stepCount := 0, interrupted := false }
    { c with state := { c.state with
        threads := [mainThread], activeThread := 0,
        pc := { currentInstruction := startIndex, currentLine := 1,
                currentMethod := "main", currentClass := prog.mainClass },
        status := ExecutionStatus.paused } }
  else c

def newSimulator (h : Host) (prog : CompiledProgram) : Sim :=
  { program := prog, core := initSim h prog, history := [], maxHistory := 500 }

-- ── Compiler fragments (BytecodeCompiler) ───────────────────────────────

def hasMainMethod (cls : CompiledClass) : Bool :=
  cls.methods.any fun m =>
    m.methodName == "main" && strContains m.signature "String[]"

/-- The main-class selection loop of BytecodeCompiler.compile: for each
class in order, if some method is main(String[]) assign mainClass (the
inner break leaves the outer loop running, so a later match overwrites an
earlier one). -/
def findMainClass (classes : List CompiledClass) : String :=
  classes.foldl (fun acc cls => if hasMainMethod cls then cls.name else acc) ""

/-- The System.out.print/println lowering of compileCallExpression: the
compiled argument instructions, or a pushed empty string when the call
has no arguments, followed by PRINT. -/
def emitPrintCall (argInstrs : List Instruction) (isPrintln : Bool) (line : Int) :
    List Instruction :=
  (if argInstrs.length > 0 then argInstrs
   else
     [{ opcode := OpCode.LOAD_CONST, operands := [InstructionOperand.string ""],
        sourceLine := line, comment := none }]) ++
  [{ opcode := OpCode.PRINT, operands := [InstructionOperand.boolean isPrintln],
     sourceLine := line,
     comment := some ("System.out." ++ (if isPrintln then "println" else "print")) }]

-- ── Specification-side definitions used by the claims ───────────────────

/-- The canonical Java string hash fold, h = 31*h + c accumulated in
32-bit signed arithmetic, written from the specification for comparison
with the source fold. -/
def javaHashSpec (units : List Nat) : Int :=
  units.foldl (fun acc u => toInt32 (31 * acc + (u : Int))) 0

/-- The monitor-relevant projection of the thread list. -/
def monitorView (ts : List ThreadState) : List (String × List String) :=
  ts.map fun t => (t.id, t.holdingMonitors)

/-- Both directions of the monitor agreement: every held monitor entry
has its object id in the holder thread list, and every held-list entry is
mapped to that thread id in the monitor table. -/
def MonAgree (s : VMState) : Prop :=
  (∀ o tid, s.monitors.lookup o = some (some tid) →
    ∃ p ∈ monitorView s.threads, p.1 = tid ∧ o ∈ p.2) ∧
  (∀ p ∈ monitorView s.threads, ∀ o ∈ p.2, s.monitors.lookup o = some (some p.1))

/-- Strengthened inductive invariant: the agreement plus the fact that
only the first thread with a given id ever holds monitors (thread ids can
collide when two Thread objects are initialised at the same population
count). -/
def MonInv (s : VMState) : Prop :=
  MonAgree s ∧
    List.Pairwise (fun p q => p.1 = q.1 → q.2 = []) (monitorView s.threads)

-- ── Concrete fixtures for witnesses and counterexamples ─────────────────

def mkInstr (op : OpCode) (ops : List InstructionOperand) : Instruction where
  opcode := op
  operands := ops
  sourceLine := 1
  comment := none

def tinyMainMethod : CompiledMethod where
  className := "Main"
  methodName := "main"
  signature := "main(String[])void"
  instructions := []
  localVariableTable := []
  maxStack := 0
  maxLocals := 0

def tinyMainClass : CompiledClass where
  name := "Main"
  superClass := "Object"
  interfaces := []
  fields := []
  methods := [tinyMainMethod]
  isInterface := false
  sourceFile := "source.java"

/-- A compiled hello-world program (one class, one main). -/
def tinyProg : CompiledProgram where
  classes := [tinyMainClass]
  mainClass := "Main"
  mainMethod := "main"
  allInstructions :=
    [mkInstr OpCode.LOAD_CONST [InstructionOperand.string "Hello, World!"],
     mkInstr OpCode.PRINT [InstructionOperand.boolean true],
     mkInstr OpCode.RETURN []]
  methodOffsets := [("Main.main(String[])void", 0)]

def sim0 : Sim := newSimulator trivialHost tinyProg

/-- A single-thread frame fixture with a given operand stack. -/
def testFrame (stk : List Value) : StackFrame where
  id := "frame_t"
  className := "Main"
  methodName := "main"
  methodSignature := "main(String[])void"
  localVariables := []
  operandStack := stk
  pc := 0
  lineNumber := 1
  isNative := false

def testThread (tid : String) (stk : List Value) : ThreadState where
  id := tid
  name := tid
  stack := [testFrame stk]
  status := ThreadStatus.RUNNING
  sleepUntilStep := none
  waitingOnMonitor := none
  holdingMonitors := []
  objectId := none
  priority := 5
  isDaemon := false
  stepCount := 0
  interrupted := false

/-- A core with one running thread whose top frame holds `stk`, plus a
given heap and monitor table. -/
def testCore (stk : List Value) (heap : List HeapObject)
    (monitors : List (String × Option String)) : Core where
  state :=
    { createInitialJVMState with
        heap := heap, monitors := monitors,
        threads := [testThread "thread_main" stk],
        activeThread := 0,
        status := ExecutionStatus.paused }
  nextObjectId := 10
  randClock := 0
  frameClock := 0

/-- A plain heap object of a given class with given fields. -/
def testObj (oid className : String) (fields : List HeapField) : HeapObject where
  id := oid
  kind := HKind.object
  className := className
  fields := fields
  arrayElements := none
  arrayLength := none
  stringValue := none
  isReachable := true
  gcRoot := false
  createdAtStep := 0
  references := []

/-- Two classes that both declare main(String[]), A before B. -/
def mainClassA : CompiledClass :=
  { tinyMainClass with
    name := "A"
    methods := [{ tinyMainMethod with className := "A" }] }

def mainClassB : CompiledClass :=
  { tinyMainClass with
    name := "B"
    methods := [{ tinyMainMethod with className := "B" }] }

/-- Fixture for the interrupt claim: main (active) plus a worker thread
with its Thread heap object; main executes worker.interrupt(). -/
def interruptWorker : ThreadState :=
  { testThread "thread_1" [] with
    name := "worker"
    objectId := some "obj_1"
    status := ThreadStatus.RUNNABLE }

def interruptThreadObj : HeapObject :=
  testObj "obj_1" "Thread" (threadInitFields "thread_1" "worker")

def interruptBase : Core :=
  testCore [Value.reference (some "obj_1")] [interruptThreadObj] []

def interruptCore : Core :=
  { interruptBase with
    state := { interruptBase.state with
      threads := [testThread "thread_main" [Value.reference (some "obj_1")],
                  interruptWorker] } }

/-- An INVOKE_VIRTUAL x.interrupt() call site (argc 0). -/
def interruptInstr : Instruction :=
  mkInstr OpCode.INVOKE_VIRTUAL [InstructionOperand.methodRef "interrupt" "(0)"]

/-- Host whose Math.random stream yields 0 then one half (for the
universal-hashCode interception counterexample). -/
def twoRandHost : Host :=
  { trivialHost with random := fun n => if n == 0 then ⟨0, 1⟩ else ⟨1, 2⟩ }

def hashInstr : Instruction :=
  mkInstr OpCode.INVOKE_VIRTUAL [InstructionOperand.methodRef "hashCode" "(0)"]

/-- Stack holding the string receiver twice so hashCode can be invoked
twice (with a POP of the first result in between). -/
def hashCore : Core :=
  testCore [Value.primitive PrimType.string (JSVal.str "abc"),
            Value.primitive PrimType.string (JSVal.str "abc")] [] []

def hashStep1 : Core := (executeInstruction twoRandHost tinyProg hashCore 0 hashInstr).1

def hashStep2 : Core :=
  (executeInstruction twoRandHost tinyProg hashStep1 0 (mkInstr OpCode.POP [])).1

def hashStep3 : Core := (executeInstruction twoRandHost tinyProg hashStep2 0 hashInstr).1

/-- Top operand of thread 0 of a core (readability helper for the
counterexample statements). -/
def topOperand (c : Core) : Option Value :=
  match topFrame c 0 with
  | some fr => fr.operandStack.head?
  | none => none

/-- Fixture for the MONITORENTER claim: one running thread whose top
operand is a reference to obj_5, whose monitor is held by thread_9. -/
def monCore : Core :=
  testCore [Value.reference (some "obj_5")] [] [("obj_5", some "thread_9")]

def monInstr : Instruction := mkInstr OpCode.MONITORENTER []

def divStack : List Value :=
  [Value.primitive PrimType.int (JSVal.num (JNum.ofInt 2)),
   Value.primitive PrimType.int (JSVal.num (JNum.ofInt (-7)))]

def divCore : Core := testCore divStack [] []

def divInstr : Instruction := mkInstr OpCode.DIV []

def modStack : List Value :=
  [Value.primitive PrimType.int (JSVal.num (JNum.ofInt 0)),
   Value.primitive PrimType.int (JSVal.num (JNum.ofInt 5))]

def modCore : Core := testCore modStack [] []

def modInstr : Instruction := mkInstr OpCode.MOD []

def printVal : Value := Value.primitive PrimType.string (JSVal.str "hi")

def printCore : Core := testCore [printVal] [] []

def printInstr : Instruction :=
  mkInstr OpCode.PRINT [InstructionOperand.boolean true]

/-- The PRINT output computation, verbatim from the PRINT branch: ensure
a last line exists, append the text to it, and on println start a new
empty line. -/
def printOutput (prev : List String) (txt : String) (isPrintln : Bool) :
    List String :=
  let out := if prev.isEmpty then [""] else prev
  let out := out.dropLast ++ [((out.getLast?).getD "") ++ txt]
  if isPrintln then out ++ [""] else out

def sleepArgs : List Value := [Value.primitive PrimType.int (JSVal.num (JNum.ofInt 100))]

def sleepCore : Core := testCore [] [] []

def sleeper : ThreadState :=
  { testThread "thread_slp" [] with
    status := ThreadStatus.TIMED_WAITING
    sleepUntilStep := some 3 }

def tickCore : Core :=
  { testCore [] [] [] with
    state := ({ (testCore [] [] []).state with threads := [sleeper] }) }

-- ════════════════════════════════════════════════════════════════════════
-- Theorems
-- ════════════════════════════════════════════════════════════════════════

theorem lt_of_getThread {c : Core} {ti : Nat} {act : ThreadState}
    (hact : c.state.threads.get? ti = some act) :
    ti < c.state.threads.length :=
  List.get?_eq_some.1 hact |>.1

theorem modifyThread_eq {c : Core} {ti : Nat} {act : ThreadState}
    (f : ThreadState → ThreadState)
    (hact : c.state.threads.get? ti = some act) :
    modifyThread c ti f = setThread c ti (f act) := by
  unfold modifyThread
  rw [show c.state.threads.get? ti = some act from hact]

theorem setThread_get {c : Core} {ti : Nat} (t : ThreadState)
    (hlt : ti < c.state.threads.length) :
    (setThread c ti t).state.threads.get? ti = some t := by
  unfold setThread
  exact List.get?_set_eq_of_lt t hlt

theorem setThread_length {c : Core} {ti : Nat} (t : ThreadState) :
    (setThread c ti t).state.threads.length = c.state.threads.length := by
  unfold setThread
  exact List.length_set ..

theorem setThread_setThread {c : Core} {ti : Nat} (t t' : ThreadState) :
    setThread (setThread c ti t) ti t' = setThread c ti t' := by
  unfold setThread
  dsimp only
  rw [List.set_set]

theorem topFrame_eq {c : Core} {ti : Nat} {act : ThreadState}
    {fr : StackFrame} {frs : List StackFrame}
    (hact : c.state.threads.get? ti = some act)
    (hstk : act.stack = fr :: frs) :
    topFrame c ti = some fr := by
  unfold topFrame getThread
  rw [hact]
  show act.stack.head? = some fr
  rw [hstk]
  rfl

theorem modifyTopFrame_eq {c : Core} {ti : Nat} {act : ThreadState}
    {fr : StackFrame} {frs : List StackFrame}
    (f : StackFrame → StackFrame)
    (hact : c.state.threads.get? ti = some act)
    (hstk : act.stack = fr :: frs) :
    modifyTopFrame c ti f = setThread c ti { act with stack := f fr :: frs } := by
  unfold modifyTopFrame
  rw [modifyThread_eq _ hact]
  rw [hstk]

theorem popFromTop_eq {c : Core} {ti : Nat} {act : ThreadState}
    {fr : StackFrame} {frs : List StackFrame} {v : Value} {rest : List Value}
    (hact : c.state.threads.get? ti = some act)
    (hstk : act.stack = fr :: frs)
    (htop : fr.operandStack = v :: rest) :
    popFromTop c ti =
      (some v,
       setThread c ti { act with stack := { fr with operandStack := rest } :: frs }) := by
  unfold popFromTop
  rw [topFrame_eq hact hstk]
  dsimp only
  rw [htop]
  dsimp only
  rw [modifyTopFrame_eq _ hact hstk]

theorem frame_eta {fr : StackFrame} {v : Value} {rest : List Value}
    (htop : fr.operandStack = v :: rest) :
    { fr with operandStack := v :: rest } = fr := by
  rw [← htop]

theorem blocked_thread_eta {act : ThreadState} {fr : StackFrame}
    {frs : List StackFrame} {oid : String}
    (hstk : act.stack = fr :: frs) :
    { act with status := ThreadStatus.BLOCKED, waitingOnMonitor := some oid,
               stack := fr :: frs } =
      { act with status := ThreadStatus.BLOCKED, waitingOnMonitor := some oid } := by
  rw [← hstk]

theorem acquireMonitor_held_by_other {c : Core} {oid tid owner : String}
    (hheld : c.state.monitors.lookup oid = some (some owner))
    (hne : ¬ owner = tid) :
    acquireMonitor c oid tid = (false, c) := by
  simp only [acquireMonitor, hheld]
  simp [hne]

/-- The symbolic core of the MONITORENTER blocked path: the whole
post-state is the pre-state with only the executing thread's status and
waiting_on_monitor changed (the popped reference was pushed back, so the
frame — operand stack and pc — is exactly the pre-state frame). -/
theorem monitorenter_blocked_core
    (h : Host) (prog : CompiledProgram) (c : Core) (ti : Nat)
    (instr : Instruction) (act : ThreadState) (fr : StackFrame)
    (frs : List StackFrame) (rest : List Value) (oid owner : String)
    (hop : instr.opcode = OpCode.MONITORENTER)
    (hti : c.state.activeThread = ti)
    (hact : c.state.threads.get? ti = some act)
    (hstk : act.stack = fr :: frs)
    (htop : fr.operandStack = Value.reference (some oid) :: rest)
    (hoid : oid ≠ "")
    (hheld : c.state.monitors.lookup oid = some (some owner))
    (howner : ¬ owner = act.id) :
    (executeInstruction h prog c ti instr).1 =
      setThread c ti { act with status := ThreadStatus.BLOCKED,
                                waitingOnMonitor := some oid } := by
  have hlt := lt_of_getThread hact
  have hpop := popFromTop_eq hact hstk htop
  unfold executeInstruction
  rw [hop]
  dsimp only
  rw [hpop]
  dsimp only
  rw [if_pos hoid]
  have hacts : activeThreadState
      (setThread c ti { act with stack := { fr with operandStack := rest } :: frs }) =
      some { act with stack := { fr with operandStack := rest } :: frs } := by
    unfold activeThreadState
    show (setThread c ti _).state.threads.get? c.state.activeThread = _
    rw [hti]
    exact setThread_get _ hlt
  rw [hacts]
  dsimp only
  have hacq : acquireMonitor
      (setThread c ti { act with stack := { fr with operandStack := rest } :: frs })
      oid act.id = (false,
        setThread c ti { act with stack := { fr with operandStack := rest } :: frs }) :=
    acquireMonitor_held_by_other hheld howner
  rw [hacq]
  dsimp only
  rw [if_pos (show (!false) = true from rfl)]
  rw [show (setThread c ti
      { act with stack := { fr with operandStack := rest } :: frs }).state.activeThread = ti
    from hti]
  rw [modifyThread_eq _ (setThread_get _ hlt)]
  rw [setThread_setThread]
  unfold pushVal
  rw [modifyTopFrame_eq _ (setThread_get _ hlt) rfl]
  rw [setThread_setThread]
  dsimp only [Option.getD]
  rw [frame_eta htop]
  rw [blocked_thread_eta hstk]

/-- C4: executing MONITORENTER when the popped reference names a monitor
held by a different thread leaves the executing thread BLOCKED with
waiting_on_monitor set to that object id, the operand stack unchanged
(the reference is pushed back) and the pc not advanced — the post-state
is the pre-state with only those two thread fields changed, so the same
instruction is retried when the thread is next scheduled. -/
theorem monitorenter_blocked_by_other
    (h : Host) (prog : CompiledProgram) (c : Core) (ti : Nat)
    (instr : Instruction) (act : ThreadState) (fr : StackFrame)
    (frs : List StackFrame) (rest : List Value) (oid owner : String)
    (hop : instr.opcode = OpCode.MONITORENTER)
    (hti : c.state.activeThread = ti)
    (hact : c.state.threads.get? ti = some act)
    (hstk : act.stack = fr :: frs)
    (htop : fr.operandStack = Value.reference (some oid) :: rest)
    (hoid : oid ≠ "")
    (hheld : c.state.monitors.lookup oid = some (some owner))
    (howner : ¬ owner = act.id) :
    (executeInstruction h prog c ti instr).1 =
      setThread c ti { act with status := ThreadStatus.BLOCKED,
                                waitingOnMonitor := some oid } ∧
    getThread (executeInstruction h prog c ti instr).1 ti =
      some { act with status := ThreadStatus.BLOCKED,
                      waitingOnMonitor := some oid } ∧
    topFrame (executeInstruction h prog c ti instr).1 ti = some fr ∧
    (executeInstruction h prog c ti instr).1.state.monitors =
      c.state.monitors := by
  have hlt := lt_of_getThread hact
  have hmain := monitorenter_blocked_core h prog c ti instr act fr frs rest
    oid owner hop hti hact hstk htop hoid hheld howner
  refine ⟨hmain, ?_, ?_, ?_⟩
  · rw [hmain]
    exact setThread_get _ hlt
  · rw [hmain]
    exact topFrame_eq (setThread_get _ hlt) (show _ = fr :: frs from hstk)
  · rw [hmain]
    rfl

/-- Witness for C4: thread_main tries to enter the monitor of obj_5,
which thread_9 holds. -/
theorem monitorenter_blocked_by_other_witness :
    monCore.state.monitors.lookup "obj_5" = some (some "thread_9") ∧
    getThread (executeInstruction trivialHost tinyProg monCore 0 monInstr).1 0 =
      some { testThread "thread_main" [Value.reference (some "obj_5")] with
             status := ThreadStatus.BLOCKED, waitingOnMonitor := some "obj_5" } :=
  ⟨rfl,
   (monitorenter_blocked_by_other trivialHost tinyProg monCore 0 monInstr
      (testThread "thread_main" [Value.reference (some "obj_5")])
      (testFrame [Value.reference (some "obj_5")]) [] [] "obj_5" "thread_9"
      rfl rfl rfl rfl rfl (by decide) rfl (by decide)).2.1⟩

/-- Helper for C1: when the status guard passes, `step` pushes
`cloneState` of the pre-step state onto the history (capping at
`maxHistory`), and no later phase of `step` touches the history. -/
theorem step_history_eq (h : Host) (sim : Sim)
    (h1 : sim.core.state.status ≠ ExecutionStatus.completed)
    (h2 : sim.core.state.status ≠ ExecutionStatus.error) :
    (step h sim).1.history = cloneState sim.core.state ::
      (if sim.history.length ≥ sim.maxHistory then sim.history.dropLast
       else sim.history) := by
  have hg : ¬ ((sim.core.state.status == ExecutionStatus.completed ||
      sim.core.state.status == ExecutionStatus.error) = true) := by
    cases hs : sim.core.state.status <;> simp_all
  have hs : (step h sim).1.history = (saveHistory sim).history := by
    unfold step
    rw [if_neg hg]
    dsimp only
    repeat' split
    all_goals rfl
  rw [hs]; rfl

/-- C1: for every simulator whose status is neither completed nor error,
`step` followed by `stepBack` restores exactly the pre-step snapshot:
the `ExecutionResult` returned by `stepBack` carries a state equal
(value equality of the whole `VMState` tree) to the state before `step`,
and the simulator itself is back at that state, because `stepBack` pops
precisely the history entry `step` pushed at its start. -/
theorem step_stepBack_roundtrip (h : Host) (sim : Sim)
    (h1 : sim.core.state.status ≠ ExecutionStatus.completed)
    (h2 : sim.core.state.status ≠ ExecutionStatus.error) :
    ((stepBack (step h sim).1).2).state = sim.core.state ∧
    ((stepBack (step h sim).1).1).core.state = sim.core.state := by
  have hhist := step_history_eq h sim h1 h2
  unfold stepBack
  rw [hhist]
  exact ⟨rfl, rfl⟩

set_option maxRecDepth 100000 in
/-- Witness for C1: the round trip at the freshly constructed
hello-world simulator. -/
theorem step_stepBack_roundtrip_witness :
    sim0.core.state.status ≠ ExecutionStatus.completed ∧
    sim0.core.state.status ≠ ExecutionStatus.error ∧
    (((stepBack (step trivialHost sim0).1).2).state = sim0.core.state ∧
     ((stepBack (step trivialHost sim0).1).1).core.state = sim0.core.state) :=
  ⟨by decide, by decide,
   step_stepBack_roundtrip trivialHost sim0 (by decide) (by decide)⟩

/-- C10: `stepBack` on an empty history is a no-op: the simulator is
returned unchanged and the result carries the current state, no
instruction, and the description "No previous state"; no error status is
entered. -/
theorem stepBack_empty_history_noop (sim : Sim) (hh : sim.history = []) :
    (stepBack sim).1 = sim ∧
    (stepBack sim).2.state = sim.core.state ∧
    (stepBack sim).2.instruction = none ∧
    (stepBack sim).2.description = "No previous state" := by
  unfold stepBack
  rw [hh]
  exact ⟨rfl, rfl, rfl, rfl⟩

/-- Witness for C10 at the freshly constructed simulator, whose history
is empty. -/
theorem stepBack_empty_history_noop_witness :
    sim0.history = [] ∧ (stepBack sim0).1 = sim0 :=
  ⟨rfl, (stepBack_empty_history_noop sim0 rfl).1⟩

set_option maxRecDepth 100000 in
/-- C2 (code bug): the emulated String.hashCode is neither deterministic
nor the canonical 31-fold. `invokeMethod` intercepts EVERY virtual
0-argument hashCode call (before the stdlib dispatch that holds the
canonical fold) and answers `Math.floor(Math.random() * 100000)`.
With a random stream 0, 1/2 the two calls on the same receiver "abc"
push 0 and then 50000 — two different ints — while the canonical fold
`h = 31*h + c` (which the shadowed stdlib branch computes, here as
`stringHashCode`) gives 96354. -/
theorem hashCode_random_interceptor_bug :
    topOperand hashStep1 =
      some (Value.primitive PrimType.int (JSVal.num (JNum.ofInt 0))) ∧
    topOperand hashStep3 =
      some (Value.primitive PrimType.int (JSVal.num (JNum.ofInt 50000))) ∧
    stringHashCode (utf16Units "abc") = 96354 ∧
    topOperand hashStep1 ≠ topOperand hashStep3 :=
  ⟨by decide, by decide, by decide, by decide⟩

/-- C6 (code bug): with two classes A and B that BOTH declare a
main(String[]) method, the compiler selects "B" — the LAST such class in
declaration order, not the first. The loop in `compile` has its `break`
inside the inner condition's sibling position, so every later match
overwrites `mainClass` (embedded as `findMainClass`, a fold keeping the
latest match). -/
theorem findMainClass_last_wins_bug :
    hasMainMethod mainClassA = true ∧
    hasMainMethod mainClassB = true ∧
    findMainClass [mainClassA, mainClassB] = "B" :=
  ⟨by decide, by decide, by decide⟩

set_option maxRecDepth 100000 in
/-- C7 (code bug): Thread.interrupt sets the interrupted flag of the
CALLING thread, not the receiver. Main (index 0, active) invokes
`worker.interrupt()` on the worker thread (index 1, owner of the Thread
object obj_1): afterwards the flags read [true, false] — the caller was
flagged and the receiver was left untouched — where the spec requires
[false, true]. -/
theorem interrupt_flags_caller_bug :
    ((executeInstruction trivialHost tinyProg interruptCore 0
        interruptInstr).1.state.threads.map (fun t => t.interrupted)) =
      [true, false] ∧
    (interruptCore.state.threads.map (fun t => t.interrupted)) =
      [false, false] ∧
    (interruptCore.state.threads.map (fun t => t.name)) =
      ["thread_main", "worker"] ∧
    interruptWorker.objectId = some "obj_1" :=
  ⟨by decide, by decide, by decide, by decide⟩

theorem JNum_div_ofInt_truncInt (m n : Int) (_hn : ¬ n = 0) :
    ((JNum.ofInt m).div (JNum.ofInt n)).truncInt = m.tdiv n := by
  unfold JNum.div JNum.mk' JNum.ofInt JNum.truncInt
  dsimp only
  simp only [mul_one, one_mul]
  split
  · dsimp only
    rw [Int.neg_tdiv, Int.tdiv_neg, neg_neg]
  · rfl

theorem arithResult_zero (h : Host) (op : OpCode) (ta tb : PrimType)
    (pa pb : JSVal)
    (hop : op = OpCode.DIV ∨ op = OpCode.MOD)
    (hz : jsIsZeroNum pb = true) :
    arithResult h op ta tb pa pb = JSVal.num (JNum.ofInt 0) := by
  rcases hop with hop | hop <;> subst hop <;> unfold arithResult <;>
    dsimp only <;> rw [hz] <;>
    rw [if_neg (show ¬ ((!true) = true) from by decide)]
  split <;> rfl

theorem arithResult_div_int (h : Host) (m n : Int) (hn : ¬ n = 0) :
    arithResult h OpCode.DIV PrimType.int PrimType.int
      (JSVal.num (JNum.ofInt m)) (JSVal.num (JNum.ofInt n)) =
      JSVal.num (JNum.ofInt (m.tdiv n)) := by
  have hz : jsIsZeroNum (JSVal.num (JNum.ofInt n)) = false := by
    unfold jsIsZeroNum JNum.isZero JNum.ofInt
    dsimp only
    simpa using hn
  unfold arithResult
  dsimp only
  rw [hz]
  rw [if_pos (show (!false) = true from rfl)]
  rw [if_pos (show ((PrimType.int == PrimType.int) &&
      (PrimType.int == PrimType.int)) = true from rfl)]
  unfold jsDivVal toNumber
  dsimp only
  rw [JNum_div_ofInt_truncInt m n hn]

theorem execArith_prim (h : Host) (c : Core) (ti : Nat) (op : OpCode)
    (act : ThreadState) (fr : StackFrame) (frs : List StackFrame)
    (rest : List Value) (ta tb : PrimType) (pa pb : JSVal)
    (hne : (op == OpCode.ADD) = false)
    (hact : c.state.threads.get? ti = some act)
    (hstk : act.stack = fr :: frs)
    (htop : fr.operandStack = Value.primitive tb pb :: Value.primitive ta pa :: rest) :
    (executeInstruction.execArith h c ti op).1 =
      setThread c ti { act with stack :=
        ({ fr with
           operandStack := (Value.primitive ta (arithResult h op ta tb pa pb) :: rest),
           pc := (fr.pc + 1) }) :: frs } := by
  have hlt := lt_of_getThread hact
  unfold executeInstruction.execArith
  rw [popFromTop_eq hact hstk htop]
  dsimp only
  rw [popFromTop_eq (setThread_get _ hlt) rfl rfl]
  rw [setThread_setThread]
  dsimp only
  have hguard : (op == OpCode.ADD &&
      (isStrPrim (some (Value.primitive ta pa)) ||
       isStrPrim (some (Value.primitive tb pb)))) = false := by
    rw [hne, Bool.false_and]
  rw [if_neg (show ¬ _ = true from by rw [hguard]; decide)]
  dsimp only
  unfold pushPrim pushVal createPrimitiveValue advancePc
  rw [modifyTopFrame_eq _ (setThread_get _ hlt) rfl]
  rw [setThread_setThread]
  rw [modifyTopFrame_eq _ (setThread_get _ hlt) rfl]
  rw [setThread_setThread]

/-- C5: a DIV or MOD instruction on two primitive operands pops b (first)
and a (second) and pushes one result value, advancing pc by one and
leaving status and error untouched; when b is zero the pushed payload is
the number 0 (no error path); and when both operands are ints, DIV
pushes the quotient truncated toward zero (Int.tdiv). -/
theorem div_mod_semantics
    (h : Host) (prog : CompiledProgram) (c : Core) (ti : Nat)
    (instr : Instruction) (act : ThreadState) (fr : StackFrame)
    (frs : List StackFrame) (rest : List Value)
    (ta tb : PrimType) (pa pb : JSVal)
    (hop : instr.opcode = OpCode.DIV ∨ instr.opcode = OpCode.MOD)
    (hact : c.state.threads.get? ti = some act)
    (hstk : act.stack = fr :: frs)
    (htop : fr.operandStack = Value.primitive tb pb :: Value.primitive ta pa :: rest) :
    (executeInstruction h prog c ti instr).1 =
      setThread c ti { act with stack :=
        ({ fr with
           operandStack := (Value.primitive ta (arithResult h instr.opcode ta tb pa pb) :: rest),
           pc := (fr.pc + 1) }) :: frs } ∧
    (executeInstruction h prog c ti instr).1.state.status = c.state.status ∧
    (executeInstruction h prog c ti instr).1.state.error = c.state.error ∧
    (jsIsZeroNum pb = true →
      arithResult h instr.opcode ta tb pa pb = JSVal.num (JNum.ofInt 0)) ∧
    (∀ m n : Int, instr.opcode = OpCode.DIV → ta = PrimType.int → tb = PrimType.int →
      pa = JSVal.num (JNum.ofInt m) → pb = JSVal.num (JNum.ofInt n) → ¬ n = 0 →
      arithResult h instr.opcode ta tb pa pb = JSVal.num (JNum.ofInt (m.tdiv n))) := by
  have hmain : (executeInstruction h prog c ti instr).1 =
      setThread c ti { act with stack :=
        ({ fr with
           operandStack := (Value.primitive ta (arithResult h instr.opcode ta tb pa pb) :: rest),
           pc := (fr.pc + 1) }) :: frs } := by
    rcases hop with hop | hop <;>
      (unfold executeInstruction
       rw [hop]
       dsimp only
       exact execArith_prim h c ti _ act fr frs rest ta tb pa pb rfl hact hstk htop)
  refine ⟨hmain, ?_, ?_, ?_, ?_⟩
  · rw [hmain]; rfl
  · rw [hmain]; rfl
  · intro hz
    exact arithResult_zero h instr.opcode ta tb pa pb hop hz
  · intro m n hD hta htb hpa hpb hn
    subst hta; subst htb; subst hpa; subst hpb
    rw [hD]
    exact arithResult_div_int h m n hn

/-- Witness for C5: minus seven DIV two gives minus three (truncation
toward zero), and five MOD zero gives zero. -/
theorem div_mod_semantics_witness :
    divInstr.opcode = OpCode.DIV ∧
    arithResult trivialHost OpCode.DIV PrimType.int PrimType.int
      (JSVal.num (JNum.ofInt (-7))) (JSVal.num (JNum.ofInt 2)) =
      JSVal.num (JNum.ofInt (-3)) ∧
    jsIsZeroNum (JSVal.num (JNum.ofInt 0)) = true ∧
    arithResult trivialHost OpCode.MOD PrimType.int PrimType.int
      (JSVal.num (JNum.ofInt 5)) (JSVal.num (JNum.ofInt 0)) =
      JSVal.num (JNum.ofInt 0) := by
  refine ⟨rfl, ?_, by decide, ?_⟩
  · have h5 := div_mod_semantics trivialHost tinyProg divCore 0 divInstr
      (testThread "thread_main" divStack) (testFrame divStack) [] []
      PrimType.int PrimType.int (JSVal.num (JNum.ofInt (-7))) (JSVal.num (JNum.ofInt 2))
      (Or.inl rfl) rfl rfl rfl
    exact h5.2.2.2.2 (-7) 2 rfl rfl rfl rfl rfl (by decide)
  · have h7 := div_mod_semantics trivialHost tinyProg modCore 0 modInstr
      (testThread "thread_main" modStack) (testFrame modStack) [] []
      PrimType.int PrimType.int (JSVal.num (JNum.ofInt 5)) (JSVal.num (JNum.ofInt 0))
      (Or.inr rfl) rfl rfl rfl
    exact h7.2.2.2.1 (by decide)

theorem printOutput_shape (prev : List String) (txt : String) (pl : Bool) :
    printOutput prev txt pl =
      (if prev.isEmpty then [""] else prev).dropLast ++
      ([(((if prev.isEmpty then [""] else prev).getLast?).getD "") ++ txt] ++
       (if pl then [""] else [])) := by
  unfold printOutput
  cases pl <;> cases hpe : prev.isEmpty <;> simp [hpe]

theorem print_post (c1 : Core) (ti : Nat) (act' : ThreadState)
    (fr' : StackFrame) (frs : List StackFrame) (out : List String)
    (hact1 : c1.state.threads.get? ti = some act')
    (hstk1 : act'.stack = fr' :: frs) :
    getThread (advancePc { c1 with state := ({ c1.state with output := out }) } ti) ti =
      some { act' with stack := ({ fr' with pc := (fr'.pc + 1) }) :: frs } ∧
    (advancePc { c1 with state := ({ c1.state with output := out }) } ti).state.output = out ∧
    (advancePc { c1 with state := ({ c1.state with output := out }) } ti).state.status =
      c1.state.status := by
  have hact2 : ({ c1 with state := ({ c1.state with output := out }) } : Core).state.threads.get? ti
      = some act' := hact1
  have hlt2 := lt_of_getThread hact2
  unfold advancePc
  rw [modifyTopFrame_eq _ hact2 hstk1]
  refine ⟨?_, ?_, ?_⟩
  · exact setThread_get _ hlt2
  · rfl
  · rfl

/-- C9: a PRINT instruction pops exactly one value and advances pc by
one; its text (valueToString with the quote strip) is appended to the
last line of state.output, an initial empty line being created when the
output is empty, and is_println = true appends a new empty trailing
line; all lines before the last are unchanged (the dropLast prefix is
kept verbatim). The compiler side: an argument-less print/println call
compiles to LOAD_CONST "" followed by PRINT, so one value is always
available to pop. -/
theorem print_semantics
    (h : Host) (prog : CompiledProgram) (c : Core) (ti : Nat)
    (instr : Instruction) (act : ThreadState) (fr : StackFrame)
    (frs : List StackFrame) (rest : List Value) (v : Value) (b : Bool)
    (hop : instr.opcode = OpCode.PRINT)
    (hoper : instr.operands.get? 0 = some (InstructionOperand.boolean b))
    (hact : c.state.threads.get? ti = some act)
    (hstk : act.stack = fr :: frs)
    (htop : fr.operandStack = v :: rest) :
    getThread (executeInstruction h prog c ti instr).1 ti =
      some { act with stack :=
        ({ fr with operandStack := rest, pc := (fr.pc + 1) }) :: frs } ∧
    (executeInstruction h prog c ti instr).1.state.output =
      printOutput c.state.output (stripQuotes (valueToString h v)) b ∧
    (executeInstruction h prog c ti instr).1.state.status = c.state.status ∧
    (∀ (prev : List String) (txt : String) (pl : Bool),
      printOutput prev txt pl =
        (if prev.isEmpty then [""] else prev).dropLast ++
        ([(((if prev.isEmpty then [""] else prev).getLast?).getD "") ++ txt] ++
         (if pl then [""] else []))) ∧
    (∀ (line : Int) (pl : Bool),
      emitPrintCall [] pl line =
        [{ opcode := OpCode.LOAD_CONST, operands := [InstructionOperand.string ""],
           sourceLine := line, comment := none },
         { opcode := OpCode.PRINT, operands := [InstructionOperand.boolean pl],
           sourceLine := line,
           comment := some ("System.out." ++ (if pl then "println" else "print")) }]) := by
  have hlt := lt_of_getThread hact
  have hfull : (executeInstruction h prog c ti instr).1 =
      advancePc
        { (setThread c ti { act with stack := ({ fr with operandStack := rest }) :: frs }) with
          state := ({ (setThread c ti
              { act with stack := ({ fr with operandStack := rest }) :: frs }).state with
            output := (printOutput c.state.output (stripQuotes (valueToString h v)) b) }) }
        ti := by
    unfold executeInstruction
    rw [hop]
    dsimp only
    rw [hoper]
    dsimp only
    rw [popFromTop_eq hact hstk htop]
    dsimp only
    rfl
  have hpost := print_post
    (setThread c ti { act with stack := ({ fr with operandStack := rest }) :: frs }) ti
    { act with stack := ({ fr with operandStack := rest }) :: frs }
    { fr with operandStack := rest } frs
    (printOutput c.state.output (stripQuotes (valueToString h v)) b)
    (setThread_get _ hlt) rfl
  refine ⟨?_, ?_, ?_, ?_, ?_⟩
  · rw [hfull]
    exact hpost.1
  · rw [hfull]
    exact hpost.2.1
  · rw [hfull]
    exact hpost.2.2
  · exact printOutput_shape
  · intro line pl
    rfl

/-- Witness for C9: println of the string "hi" from a one-entry stack. -/
theorem print_semantics_witness :
    printInstr.operands.get? 0 = some (InstructionOperand.boolean true) ∧
    (executeInstruction trivialHost tinyProg printCore 0 printInstr).1.state.output =
      printOutput printCore.state.output
        (stripQuotes (valueToString trivialHost printVal)) true :=
  ⟨rfl, (print_semantics trivialHost tinyProg printCore 0 printInstr
     (testThread "thread_main" [printVal]) (testFrame [printVal]) [] [] printVal true
     rfl rfl rfl rfl rfl).2.1⟩

theorem tickIter_timed_waiting (c2 : Core) (i : Nat) (t : ThreadState) (u : Int)
    (hget : c2.state.threads.get? i = some t)
    (hst : t.status = ThreadStatus.TIMED_WAITING)
    (hsu : t.sleepUntilStep = some u) :
    tickIter c2 i =
      (if u ≤ c2.state.stepNumber then
        setThread c2 i { t with status := ThreadStatus.RUNNABLE, sleepUntilStep := none }
      else setThread c2 i t) := by
  unfold tickIter
  rw [hget]
  dsimp only
  rw [hst, hsu]
  by_cases hu : u ≤ c2.state.stepNumber <;> simp [hu, hst]

theorem stdThread_sleep (h : Host) (prog : CompiledProgram) (c : Core) (ti : Nat)
    (args : List Value) (objRef : Option Value) (obj : Option HeapObject)
    (act : ThreadState) (q : JNum)
    (hact : c.state.threads.get? c.state.activeThread = some act)
    (harg : argPrim args 0 = some (JSVal.num q)) :
    stdThread h prog c ti "sleep" args "Thread" objRef obj =
      some (setThread c c.state.activeThread
        { act with status := ThreadStatus.TIMED_WAITING,
                   sleepUntilStep := some (c.state.stepNumber +
                     max 1 ((q.div (JNum.ofInt 50)).roundInt)) },
        "Thread.sleep(" ++ h.numToString q ++ "ms) TIMED_WAITING for " ++
          toString (max 1 ((q.div (JNum.ofInt 50)).roundInt)) ++ " steps") := by
  have hms : (match argPrim args 0 with
      | some p => toNumber h p
      | none => JNum.ofInt 100) = q := by rw [harg]; rfl
  have hsome : (activeThreadState c).isSome = true := by
    unfold activeThreadState; rw [hact]; rfl
  unfold stdThread
  show (let ms := match argPrim args 0 with
          | some p => toNumber h p
          | none => JNum.ofInt 100
        let steps : Int := max 1 ((ms.div (JNum.ofInt 50)).roundInt)
        let c2 :=
          if (activeThreadState c).isSome then
            modifyThread c c.state.activeThread fun t =>
              { t with status := ThreadStatus.TIMED_WAITING,
                       sleepUntilStep := some (c.state.stepNumber + steps) }
          else c
        some (c2, "Thread.sleep(" ++ h.numToString ms ++ "ms) TIMED_WAITING for " ++
          toString steps ++ " steps")) = _
  dsimp only
  rw [hms]
  rw [if_pos hsome]
  rw [modifyThread_eq _ hact]

/-- C8: Thread.sleep(ms) by the active thread sets its status to
TIMED_WAITING with sleep_until_step = step_number + max(1, round(ms/50));
and the per-thread tick body promotes a TIMED_WAITING thread back to
RUNNABLE, clearing sleep_until_step, exactly when
sleep_until_step <= step_number (otherwise the thread is written back
unchanged); tickThreads is the fold of that body over all indices. -/
theorem thread_sleep_tick
    (h : Host) (prog : CompiledProgram) (c : Core) (ti : Nat)
    (args : List Value) (objRef : Option Value) (obj : Option HeapObject)
    (act : ThreadState) (q : JNum)
    (hact : c.state.threads.get? c.state.activeThread = some act)
    (harg : argPrim args 0 = some (JSVal.num q)) :
    stdThread h prog c ti "sleep" args "Thread" objRef obj =
      some (setThread c c.state.activeThread
        { act with status := ThreadStatus.TIMED_WAITING,
                   sleepUntilStep := (some (c.state.stepNumber +
                     max 1 ((q.div (JNum.ofInt 50)).roundInt))) },
        "Thread.sleep(" ++ h.numToString q ++ "ms) TIMED_WAITING for " ++
          toString (max 1 ((q.div (JNum.ofInt 50)).roundInt)) ++ " steps") ∧
    (∀ (c2 : Core) (i : Nat) (t : ThreadState) (u : Int),
      c2.state.threads.get? i = some t →
      t.status = ThreadStatus.TIMED_WAITING →
      t.sleepUntilStep = some u →
      tickIter c2 i =
        (if u ≤ c2.state.stepNumber then
          setThread c2 i { t with status := ThreadStatus.RUNNABLE,
                                  sleepUntilStep := none }
        else setThread c2 i t)) ∧
    (∀ c3 : Core,
      tickThreads c3 = (List.range c3.state.threads.length).foldl tickIter c3) :=
  ⟨stdThread_sleep h prog c ti args objRef obj act q hact harg,
   tickIter_timed_waiting,
   fun _ => rfl⟩

/-- Witness for C8: sleep(100) becomes TIMED_WAITING for max(1,2) steps,
and a sleeper with deadline 3 is woken iff 3 is at most the step number. -/
theorem thread_sleep_tick_witness :
    sleepCore.state.threads.get? sleepCore.state.activeThread =
      some (testThread "thread_main" []) ∧
    argPrim sleepArgs 0 = some (JSVal.num (JNum.ofInt 100)) ∧
    tickIter tickCore 0 =
      (if (3 : Int) ≤ tickCore.state.stepNumber then
        setThread tickCore 0 { sleeper with status := ThreadStatus.RUNNABLE,
                                            sleepUntilStep := none }
      else setThread tickCore 0 sleeper) ∧
    stdThread trivialHost tinyProg sleepCore 0 "sleep" sleepArgs "Thread" none none =
      some (setThread sleepCore sleepCore.state.activeThread
        { testThread "thread_main" [] with
          status := ThreadStatus.TIMED_WAITING
          sleepUntilStep := (some (sleepCore.state.stepNumber +
            max 1 (((JNum.ofInt 100).div (JNum.ofInt 50)).roundInt))) },
        "Thread.sleep(" ++ trivialHost.numToString (JNum.ofInt 100) ++
          "ms) TIMED_WAITING for " ++
          toString (max 1 (((JNum.ofInt 100).div (JNum.ofInt 50)).roundInt)) ++
          " steps") := by
  have hmain := thread_sleep_tick trivialHost tinyProg sleepCore 0 sleepArgs none none
    (testThread "thread_main" []) (JNum.ofInt 100) rfl rfl
  exact ⟨rfl, rfl, hmain.2.1 tickCore 0 sleeper 3 rfl rfl rfl, hmain.1⟩

theorem lookup_recordSet {α : Type} (m : List (String × α)) (k k' : String) (v : α) :
    List.lookup k' (recordSet m k v) =
      if k' = k then some v else List.lookup k' m := by
  induction m with
  | nil =>
      simp only [recordSet, List.lookup]
      by_cases hk : k' = k
      · rw [if_pos hk, show (k' == k) = true from beq_iff_eq.mpr hk]
      · rw [if_neg hk, show (k' == k) = false from beq_eq_false_iff_ne.mpr hk]
  | cons hd tl ih =>
      obtain ⟨k0, v0⟩ := hd
      simp only [recordSet]
      by_cases h0 : k0 = k
      · rw [if_pos (show (k0 == k) = true from beq_iff_eq.mpr h0)]
        simp only [List.lookup]
        by_cases hk : k' = k
        · rw [show (k' == k) = true from beq_iff_eq.mpr hk, if_pos hk]
        · rw [show (k' == k) = false from beq_eq_false_iff_ne.mpr hk, if_neg hk,
              show (k' == k0) = false from beq_eq_false_iff_ne.mpr (h0 ▸ hk)]
      · rw [if_neg (show ¬ (k0 == k) = true from by
          rw [beq_eq_false_iff_ne.mpr h0]; decide)]
        simp only [List.lookup]
        by_cases hk0 : k' = k0
        · rw [show (k' == k0) = true from beq_iff_eq.mpr hk0,
              if_neg (show ¬ k' = k from by rw [hk0]; exact h0)]
        · rw [show (k' == k0) = false from beq_eq_false_iff_ne.mpr hk0, ih]

theorem set_get_eq {α : Type} (l : List α) (i : Nat) (a : α)
    (h : l.get? i = some a) : l.set i a = l := by
  apply List.ext_get?
  intro n
  by_cases hn : n = i
  · subst hn
    rw [List.get?_set_eq_of_lt _ (List.get?_eq_some.1 h).1, h]
  · rw [List.get?_set_ne _ _ (fun he => hn he.symm)]

theorem updateFirst_get?_cases {α : Type} (p : α → Bool) (f : α → α)
    (l : List α) (i : Nat) (x : α) (h : l.get? i = some x) :
    (updateFirst p f l).get? i = some x ∨
    (updateFirst p f l).get? i = some (f x) := by
  induction l generalizing i with
  | nil => simp at h
  | cons hd tl ih =>
      unfold updateFirst
      by_cases hp : p hd = true
      · rw [if_pos hp]
        cases i with
        | zero => right; simp_all
        | succ n => left; simp_all
      · rw [if_neg hp]
        cases i with
        | zero => left; simp_all
        | succ n =>
            simp only [List.get?] at h ⊢
            exact ih n h

theorem updateFirst_get?_of_neg {α : Type} (p : α → Bool) (f : α → α)
    (l : List α) (i : Nat) (x : α) (h : l.get? i = some x)
    (hp : p x = false) :
    (updateFirst p f l).get? i = some x := by
  induction l generalizing i with
  | nil => simp at h
  | cons hd tl ih =>
      unfold updateFirst
      by_cases hph : p hd = true
      · rw [if_pos hph]
        cases i with
        | zero =>
            simp only [List.get?] at h
            cases h
            rw [hph] at hp
            cases hp
        | succ n => simp_all
      · rw [if_neg hph]
        cases i with
        | zero => simp_all
        | succ n =>
            simp only [List.get?] at h ⊢
            exact ih n h

theorem updateFirst_get?_first {α : Type} (p : α → Bool) (f : α → α)
    (l : List α) (i : Nat) (x : α) (h : l.get? i = some x)
    (hp : p x = true)
    (hfirst : ∀ j, j < i → ∀ y, l.get? j = some y → p y = false) :
    (updateFirst p f l).get? i = some (f x) := by
  induction l generalizing i with
  | nil => simp at h
  | cons hd tl ih =>
      unfold updateFirst
      cases i with
      | zero =>
          simp only [List.get?] at h
          cases h
          rw [if_pos hp]
          rfl
      | succ n =>
          have hhd : p hd = false := hfirst 0 (Nat.succ_pos n) hd rfl
          rw [if_neg (by rw [hhd]; decide)]
          simp only [List.get?] at h ⊢
          exact ih n h (fun j hj y hy => hfirst (j + 1) (Nat.succ_lt_succ hj) y hy)

theorem updateFirst_mem {α : Type} (p : α → Bool) (f : α → α)
    (l : List α) (y : α) (hy : y ∈ updateFirst p f l) :
    y ∈ l ∨ ∃ x ∈ l, p x = true ∧ y = f x := by
  induction l with
  | nil => simp [updateFirst] at hy
  | cons hd tl ih =>
      unfold updateFirst at hy
      by_cases hp : p hd = true
      · rw [if_pos hp] at hy
        rcases List.mem_cons.1 hy with h | h
        · right; exact ⟨hd, List.mem_cons_self .., hp, h⟩
        · left; exact List.mem_cons_of_mem _ h
      · rw [if_neg hp] at hy
        rcases List.mem_cons.1 hy with h | h
        · left; simp [h]
        · rcases ih h with h2 | ⟨x, hx, hpx, hyx⟩
          · left; exact List.mem_cons_of_mem _ h2
          · right; exact ⟨x, List.mem_cons_of_mem _ hx, hpx, hyx⟩

theorem updateFirst_length {α : Type} (p : α → Bool) (f : α → α) (l : List α) :
    (updateFirst p f l).length = l.length := by
  induction l with
  | nil => rfl
  | cons hd tl ih =>
      unfold updateFirst
      by_cases hp : p hd = true
      · rw [if_pos hp]; rfl
      · rw [if_neg hp]; simpa using ih

theorem updateFirst_congr {α : Type} (p p' : α → Bool) (f f' : α → α) (l : List α)
    (hp : ∀ x, p x = p' x) (hf : ∀ x, p x = true → f x = f' x) :
    updateFirst p f l = updateFirst p' f' l := by
  induction l with
  | nil => rfl
  | cons hd tl ih =>
      unfold updateFirst
      by_cases hph : p hd = true
      · rw [if_pos hph, if_pos (by rw [← hp]; exact hph), hf hd hph]
      · rw [if_neg hph, if_neg (by rw [← hp]; exact hph), ih]

theorem pairwise_updateFirst {α : Type} {R : α → α → Prop} (p : α → Bool) (f : α → α)
    (l : List α) (h : List.Pairwise R l)
    (h1 : ∀ x y, R x y → R x (f y)) (h2 : ∀ x y, R x y → R (f x) y) :
    List.Pairwise R (updateFirst p f l) := by
  induction l with
  | nil => exact List.Pairwise.nil
  | cons hd tl ih =>
      rcases List.pairwise_cons.1 h with ⟨hrel, htl⟩
      unfold updateFirst
      by_cases hp : p hd = true
      · rw [if_pos hp]
        exact List.pairwise_cons.2 ⟨fun y hy => h2 hd y (hrel y hy), htl⟩
      · rw [if_neg hp]
        refine List.pairwise_cons.2 ⟨?_, ih htl⟩
        intro y hy
        rcases updateFirst_mem p f tl y hy with h3 | ⟨x, hx, _, hyx⟩
        · exact hrel y h3
        · rw [hyx]
          exact h1 hd x (hrel x hx)

theorem mem_updateFirst_image {α : Type} (p : α → Bool) (f : α → α)
    (l : List α) (x : α) (hx : x ∈ l) :
    x ∈ updateFirst p f l ∨ f x ∈ updateFirst p f l := by
  induction l with
  | nil => cases hx
  | cons hd tl ih =>
      unfold updateFirst
      by_cases hp : p hd = true
      · rw [if_pos hp]
        rcases List.mem_cons.1 hx with h | h
        · right; rw [h]; exact List.mem_cons_self ..
        · left; exact List.mem_cons_of_mem _ h
      · rw [if_neg hp]
        rcases List.mem_cons.1 hx with h | h
        · left; rw [h]; exact List.mem_cons_self ..
        · rcases ih h with h2 | h2
          · left; exact List.mem_cons_of_mem _ h2
          · right; exact List.mem_cons_of_mem _ h2

theorem updateFirst_exists_hit {α : Type} (p : α → Bool) (f : α → α)
    (l : List α) (hx : ∃ x ∈ l, p x = true) :
    ∃ x ∈ l, p x = true ∧ f x ∈ updateFirst p f l := by
  induction l with
  | nil => simp at hx
  | cons hd tl ih =>
      unfold updateFirst
      by_cases hp : p hd = true
      · rw [if_pos hp]
        exact ⟨hd, List.mem_cons_self .., hp, List.mem_cons_self ..⟩
      · rw [if_neg hp]
        rcases hx with ⟨x, hxl, hpx⟩
        rcases List.mem_cons.1 hxl with h | h
        · rw [h] at hpx; rw [hpx] at hp; cases hp rfl
        · rcases ih ⟨x, h, hpx⟩ with ⟨y, hyl, hpy, hmem⟩
          exact ⟨y, List.mem_cons_of_mem _ hyl, hpy, List.mem_cons_of_mem _ hmem⟩

theorem pairwise_updateFirst_first {α : Type} {R : α → α → Prop} (p : α → Bool)
    (f : α → α) (l : List α) (h : List.Pairwise R l)
    (h2 : ∀ x y, R x y → R (f x) y)
    (h1 : ∀ x y, R x y → ¬ p x = true → p y = true → R x (f y)) :
    List.Pairwise R (updateFirst p f l) := by
  induction l with
  | nil => exact List.Pairwise.nil
  | cons hd tl ih =>
      rcases List.pairwise_cons.1 h with ⟨hrel, htl⟩
      unfold updateFirst
      by_cases hp : p hd = true
      · rw [if_pos hp]
        exact List.pairwise_cons.2 ⟨fun y hy => h2 hd y (hrel y hy), htl⟩
      · rw [if_neg hp]
        refine List.pairwise_cons.2 ⟨?_, ih htl⟩
        intro y hy
        rcases updateFirst_mem p f tl y hy with h3 | ⟨x, hx, hpx, hyx⟩
        · exact hrel y h3
        · rw [hyx]
          exact h1 hd x (hrel x hx) hp hpx

def AgreeL (mon : List (String × Option String))
    (view : List (String × List String)) : Prop :=
  (∀ o tid, List.lookup o mon = some (some tid) →
    ∃ p ∈ view, p.1 = tid ∧ o ∈ p.2) ∧
  (∀ p ∈ view, ∀ o ∈ p.2, List.lookup o mon = some (some p.1))

def PairwiseIds (view : List (String × List String)) : Prop :=
  List.Pairwise (fun p q => p.1 = q.1 → q.2 = []) view

theorem agree_acquire (mon : List (String × Option String))
    (view : List (String × List String)) (oid tid : String)
    (hA : AgreeL mon view) (hP : PairwiseIds view)
    (hfree : List.lookup oid mon = none ∨ List.lookup oid mon = some none ∨
      List.lookup oid mon = some (some tid))
    (hex : ∃ x ∈ view, x.1 = tid) :
    AgreeL (recordSet mon oid (some tid))
      (updateFirst (fun pr => pr.1 == tid)
        (fun pr => if pr.2.contains oid then pr else (pr.1, pr.2 ++ [oid])) view) ∧
    PairwiseIds (updateFirst (fun pr => pr.1 == tid)
        (fun pr => if pr.2.contains oid then pr else (pr.1, pr.2 ++ [oid])) view) := by
  set g : String × List String → String × List String :=
    fun pr => if pr.2.contains oid then pr else (pr.1, pr.2 ++ [oid]) with hg
  have hg1 : ∀ pr, (g pr).1 = pr.1 := by
    intro pr
    rw [hg]
    dsimp only
    split <;> rfl
  have hg2 : ∀ pr o2, o2 ∈ (g pr).2 → o2 ∈ pr.2 ∨ o2 = oid := by
    intro pr o2 h2
    rw [hg] at h2
    dsimp only at h2
    split at h2
    · left; exact h2
    · rcases List.mem_append.1 h2 with h3 | h3
      · left; exact h3
      · right; simpa using h3
  have hg3 : ∀ pr o2, o2 ∈ pr.2 → o2 ∈ (g pr).2 := by
    intro pr o2 h2
    rw [hg]
    dsimp only
    split
    · exact h2
    · exact List.mem_append.2 (Or.inl h2)
  have hgoid : ∀ pr, oid ∈ (g pr).2 ∨ ¬ pr.2.contains oid = true := by
    intro pr
    rw [hg]
    dsimp only
    by_cases hc : pr.2.contains oid = true
    · rw [if_pos hc]
      left
      simpa using hc
    · right; exact hc
  refine ⟨⟨?_, ?_⟩, ?_⟩
  · -- direction 1: table entry implies holder pair
    intro o t' hlook
    rw [lookup_recordSet] at hlook
    by_cases ho : o = oid
    · rw [if_pos ho] at hlook
      cases hlook
      subst ho
      rcases updateFirst_exists_hit (fun pr => pr.1 == tid) g view
        (by rcases hex with ⟨x, hx1, hx2⟩
            exact ⟨x, hx1, beq_iff_eq.mpr hx2⟩) with ⟨x, hxv, hpx, hmem⟩
      refine ⟨g x, hmem, ?_, ?_⟩
      · rw [hg1 x]; exact beq_iff_eq.1 hpx
      · rcases hgoid x with h4 | h4
        · exact h4
        · rw [hg]
          dsimp only
          rw [if_neg h4]
          exact List.mem_append.2 (Or.inr (List.mem_singleton.2 rfl))
    · rw [if_neg ho] at hlook
      rcases hA.1 o t' hlook with ⟨q, hqv, hq1, hq2⟩
      rcases mem_updateFirst_image (fun pr => pr.1 == tid) g view q hqv with h4 | h4
      · exact ⟨q, h4, hq1, hq2⟩
      · exact ⟨g q, h4, by rw [hg1 q]; exact hq1, hg3 q o hq2⟩
  · -- direction 2: holder pair implies table entry
    intro q hq o ho
    rcases updateFirst_mem (fun pr => pr.1 == tid) g view q hq with h4 | ⟨x, hxv, hpx, hqx⟩
    · have hold := hA.2 q h4 o ho
      rw [lookup_recordSet]
      by_cases hoo : o = oid
      · rw [if_pos hoo]
        subst hoo
        rcases hfree with h5 | h5 | h5 <;> rw [h5] at hold
        · cases hold
        · cases hold
        · cases hold
          rfl
      · rw [if_neg hoo]
        exact hold
    · subst hqx
      rcases hg2 x o ho with h5 | h5
      · have hold := hA.2 x hxv o h5
        rw [lookup_recordSet, hg1 x]
        by_cases hoo : o = oid
        · rw [if_pos hoo]
          subst hoo
          rcases hfree with h6 | h6 | h6 <;> rw [h6] at hold
          · cases hold
          · cases hold
          · cases hold
            rfl
        · rw [if_neg hoo]
          exact hold
      · subst h5
        rw [lookup_recordSet, if_pos rfl, hg1 x]
        rw [beq_iff_eq.1 hpx]
  · -- Pairwise preserved
    apply pairwise_updateFirst_first _ _ _ hP
    · intro x y hr heq
      rw [hg1 x] at heq
      exact hr heq
    · intro x y hr hpx hpy heq
      exfalso
      rw [hg1 y] at heq
      exact hpx (beq_iff_eq.mpr (heq.trans (beq_iff_eq.1 hpy)))

theorem agree_release (mon : List (String × Option String))
    (view : List (String × List String)) (oid tid : String)
    (hA : AgreeL mon view) (hP : PairwiseIds view)
    (hheld : List.lookup oid mon = some (some tid)) :
    AgreeL (recordSet mon oid none)
      (updateFirst (fun pr => pr.1 == tid)
        (fun pr => (pr.1, pr.2.filter (fun m => !(m == oid)))) view) ∧
    PairwiseIds (updateFirst (fun pr => pr.1 == tid)
        (fun pr => (pr.1, pr.2.filter (fun m => !(m == oid)))) view) := by
  set g : String × List String → String × List String :=
    fun pr => (pr.1, pr.2.filter (fun m => !(m == oid))) with hg
  have hmemg : ∀ pr o2, o2 ∈ (g pr).2 ↔ (o2 ∈ pr.2 ∧ ¬ o2 = oid) := by
    intro pr o2
    rw [hg]
    dsimp only
    rw [List.mem_filter]
    constructor
    · rintro ⟨h1, h2⟩
      refine ⟨h1, ?_⟩
      intro he
      rw [he] at h2
      simp at h2
    · rintro ⟨h1, h2⟩
      refine ⟨h1, ?_⟩
      simpa using h2
  refine ⟨⟨?_, ?_⟩, ?_⟩
  · -- direction 1
    intro o t' hlook
    rw [lookup_recordSet] at hlook
    by_cases ho : o = oid
    · rw [if_pos ho] at hlook
      cases hlook
    · rw [if_neg ho] at hlook
      rcases hA.1 o t' hlook with ⟨q, hqv, hq1, hq2⟩
      rcases mem_updateFirst_image (fun pr => pr.1 == tid) g view q hqv with h4 | h4
      · exact ⟨q, h4, hq1, hq2⟩
      · exact ⟨g q, h4, hq1, (hmemg q o).2 ⟨hq2, ho⟩⟩
  · -- direction 2 (indexed)
    intro q hq o ho
    rcases List.mem_iff_get?.1 hq with ⟨i, hqi⟩
    have hilen : i < view.length := by
      have h1 := (List.get?_eq_some.1 hqi).1
      rwa [updateFirst_length] at h1
    obtain ⟨x, hx⟩ : ∃ x, view.get? i = some x := by
      cases hxx : view.get? i with
      | none =>
          rw [List.get?_eq_none] at hxx
          omega
      | some y => exact ⟨y, rfl⟩
    have hxmem := List.get?_mem hx
    rcases updateFirst_get?_cases (fun pr => pr.1 == tid) g view i x hx with hc | hc
    · -- untouched at i
      have hqx : q = x := by
        have h2 := hqi.symm.trans hc
        exact Option.some_inj.1 h2
      subst hqx
      have hold := hA.2 q hxmem o ho
      rw [lookup_recordSet]
      by_cases hoo : o = oid
      · subst hoo
        exfalso
        have hq1 : q.1 = tid := by
          rw [hold] at hheld
          simpa using hheld
        have hfirst : ∀ j, j < i → ∀ y, view.get? j = some y →
            ((fun pr => pr.1 == tid) y) = false := by
          intro j hj y hy
          have hjlen : j < view.length := (List.get?_eq_some.1 hy).1
          by_cases hpy : (y.1 == tid) = true
          · exfalso
            have hR := List.pairwise_iff_get.1 hP ⟨j, hjlen⟩ ⟨i, hilen⟩ hj
            have hyy : view.get ⟨j, hjlen⟩ = y := by
              have h3 := List.get?_eq_get (l := view) hjlen
              rw [h3] at hy
              exact Option.some_inj.1 hy
            have hxx : view.get ⟨i, hilen⟩ = q := by
              have h3 := List.get?_eq_get (l := view) hilen
              rw [h3] at hx
              exact Option.some_inj.1 hx
            rw [hyy, hxx] at hR
            have hq2 : q.2 = [] := hR (by rw [beq_iff_eq.1 hpy, hq1])
            rw [hq2] at ho
            cases ho
          · simpa using hpy
        have hpos := updateFirst_get?_first (fun pr => pr.1 == tid) g view i q hx
          (beq_iff_eq.mpr hq1) hfirst
        have hxg : q = g q := by
          have h2 := hqi.symm.trans hpos
          exact Option.some_inj.1 h2
        rw [hxg, hmemg] at ho
        exact ho.2 rfl
      · rw [if_neg hoo]
        exact hold
    · -- filtered at i
      have hqx : q = g x := by
        have h2 := hqi.symm.trans hc
        exact Option.some_inj.1 h2
      subst hqx
      rw [hmemg] at ho
      have hold := hA.2 x hxmem o ho.1
      rw [lookup_recordSet, if_neg ho.2]
      rw [hold]
  · apply pairwise_updateFirst_first _ _ _ hP
    · intro x y hr heq
      exact hr heq
    · intro x y hr _ _ heq
      rw [hg]
      dsimp only
      rw [hr heq]
      rfl

theorem monitorView_updateFirst_invar (p : ThreadState → Bool)
    (f : ThreadState → ThreadState) (l : List ThreadState)
    (hid : ∀ t, (f t).id = t.id)
    (hh : ∀ t, (f t).holdingMonitors = t.holdingMonitors) :
    monitorView (updateFirst p f l) = monitorView l := by
  induction l with
  | nil => rfl
  | cons hd tl ih =>
      by_cases hp : p hd = true
      · simp only [updateFirst, monitorView, List.map_cons]
        rw [if_pos hp]
        simp only [List.map_cons]
        rw [hid, hh]
      · simp only [updateFirst, monitorView, List.map_cons]
        rw [if_neg hp]
        simp only [List.map_cons]
        refine congrArg _ ?_
        exact ih

theorem monitorView_updateFirst_comm (p2 : String → Bool) (g : List String → List String)
    (l : List ThreadState) :
    monitorView (updateFirst (fun t => p2 t.id)
      (fun t => { t with holdingMonitors := (g t.holdingMonitors) }) l) =
    updateFirst (fun pr => p2 pr.1) (fun pr => (pr.1, g pr.2)) (monitorView l) := by
  induction l with
  | nil => rfl
  | cons hd tl ih =>
      by_cases hp : p2 hd.id = true
      · simp only [updateFirst, monitorView, List.map_cons]
        rw [if_pos hp, if_pos hp]
        rfl
      · simp only [updateFirst, monitorView, List.map_cons]
        rw [if_neg hp, if_neg hp]
        simp only [List.map_cons]
        refine congrArg _ ?_
        exact ih

theorem monitorView_set_invar (ts : List ThreadState) (i : Nat) (t t2 : ThreadState)
    (hget : ts.get? i = some t) (hid : t2.id = t.id)
    (hh : t2.holdingMonitors = t.holdingMonitors) :
    monitorView (ts.set i t2) = monitorView ts := by
  unfold monitorView
  rw [List.map_set]
  rw [hid, hh]
  apply set_get_eq
  rw [List.get?_map, hget]
  rfl

theorem MonInv_iff (s : VMState) :
    MonInv s ↔ (AgreeL s.monitors (monitorView s.threads) ∧
      PairwiseIds (monitorView s.threads)) := Iff.rfl

theorem foldl_field_invar {α β γ : Type} (g : β → α → β) (proj : β → γ)
    (hg : ∀ b a, proj (g b a) = proj b) :
    ∀ (l : List α) (b : β), proj (l.foldl g b) = proj b := by
  intro l
  induction l with
  | nil => intro b; rfl
  | cons hd tl ih =>
      intro b
      rw [List.foldl_cons, ih, hg]

theorem acquireMonitor_preserves (c : Core) (oid tid : String)
    (hInv : MonInv c.state) (hex : ∃ t ∈ c.state.threads, t.id = tid) :
    MonInv (acquireMonitor c oid tid).2.state := by
  unfold acquireMonitor
  dsimp only
  split
  next hguard =>
    rw [MonInv_iff]
    dsimp only
    have hview : monitorView (updateFirst (fun t => t.id == tid)
        (fun t =>
          if t.holdingMonitors.contains oid then t
          else { t with holdingMonitors := t.holdingMonitors ++ [oid] })
        c.state.threads) =
        updateFirst (fun pr => pr.1 == tid)
          (fun pr => if pr.2.contains oid then pr else (pr.1, pr.2 ++ [oid]))
          (monitorView c.state.threads) := by
      rw [updateFirst_congr (fun t => t.id == tid) (fun t => (fun i => i == tid) t.id)
        (fun t =>
          if t.holdingMonitors.contains oid then t
          else { t with holdingMonitors := t.holdingMonitors ++ [oid] })
        (fun t => { t with holdingMonitors :=
          ((fun l2 => if l2.contains oid then l2 else l2 ++ [oid]) t.holdingMonitors) })
        c.state.threads (fun x => rfl) ?hff]
      · rw [monitorView_updateFirst_comm (fun i => i == tid)
          (fun l2 => if l2.contains oid then l2 else l2 ++ [oid]) c.state.threads]
        apply updateFirst_congr
        · intro x; rfl
        · intro x _
          dsimp only
          split
          · rfl
          · rfl
      case hff =>
        intro x _
        dsimp only
        by_cases hc : x.holdingMonitors.contains oid = true
        · rw [if_pos hc, if_pos hc]
        · rw [if_neg hc, if_neg hc]
    rw [hview]
    have hfree : List.lookup oid c.state.monitors = none ∨
        List.lookup oid c.state.monitors = some none ∨
        List.lookup oid c.state.monitors = some (some tid) := by
      have h1 := hguard
      rw [Bool.or_eq_true, Bool.or_eq_true] at h1
      rcases h1 with (h | h) | h
      · exact Or.inl (eq_of_beq h)
      · exact Or.inr (Or.inl (eq_of_beq h))
      · exact Or.inr (Or.inr (eq_of_beq h))
    have hexv : ∃ x ∈ monitorView c.state.threads, x.1 = tid := by
      rcases hex with ⟨t, htm, hti⟩
      exact ⟨(t.id, t.holdingMonitors),
        List.mem_map.2 ⟨t, htm, rfl⟩, hti⟩
    have hAP := (MonInv_iff c.state).1 hInv
    exact agree_acquire c.state.monitors (monitorView c.state.threads) oid tid
      hAP.1 hAP.2 hfree hexv
  next hguard => exact hInv

theorem releaseMonitor_preserves (c : Core) (oid tid : String)
    (hInv : MonInv c.state) :
    MonInv (releaseMonitor c oid tid).state := by
  unfold releaseMonitor
  dsimp only
  split
  next hguard =>
    rw [MonInv_iff]
    dsimp only
    rw [monitorView_updateFirst_invar
      (fun t => t.status == ThreadStatus.BLOCKED && t.waitingOnMonitor == some oid)
      (fun t => { t with status := ThreadStatus.RUNNABLE, waitingOnMonitor := none })
      _ (fun t => rfl) (fun t => rfl)]
    rw [monitorView_updateFirst_comm (fun i => i == tid)
      (fun l2 => l2.filter (fun m => !(m == oid))) c.state.threads]
    have hheld : List.lookup oid c.state.monitors = some (some tid) :=
      eq_of_beq hguard
    have hAP := (MonInv_iff c.state).1 hInv
    exact agree_release c.state.monitors (monitorView c.state.threads) oid tid
      hAP.1 hAP.2 hheld
  next hguard => exact hInv

theorem monitorView_get? (ts : List ThreadState) (i : Nat) :
    (monitorView ts).get? i = (ts.get? i).map fun t => (t.id, t.holdingMonitors) := by
  unfold monitorView
  exact List.get?_map _ _ _

theorem monitorView_length (ts : List ThreadState) :
    (monitorView ts).length = ts.length := by
  unfold monitorView
  exact List.length_map ..

theorem view_pair_at (c : Core) (i : Nat) (t : ThreadState)
    (hget : c.state.threads.get? i = some t)
    (hiv : i < (monitorView c.state.threads).length) :
    (monitorView c.state.threads).get ⟨i, hiv⟩ = (t.id, t.holdingMonitors) := by
  have h3 := List.get?_eq_get (l := monitorView c.state.threads) hiv
  have h4 : (monitorView c.state.threads).get? i = some (t.id, t.holdingMonitors) := by
    rw [monitorView_get?, hget]
    rfl
  rw [h3] at h4
  exact Option.some_inj.1 h4

theorem first_with_tid (c : Core) (ti : Nat) (t : ThreadState) (tid : String)
    (hInv : MonInv c.state) (hget : c.state.threads.get? ti = some t)
    (hid : t.id = tid) (hne : t.holdingMonitors ≠ []) :
    ∀ j, j < ti → ∀ y, c.state.threads.get? j = some y →
      ((fun t3 => t3.id == tid) y) = false := by
  intro j hj y hy
  by_cases hpy : (y.id == tid) = true
  · exfalso
    have hjlen : j < c.state.threads.length := (List.get?_eq_some.1 hy).1
    have hilen : ti < c.state.threads.length := (List.get?_eq_some.1 hget).1
    have hjv : j < (monitorView c.state.threads).length := by
      rw [monitorView_length]; exact hjlen
    have hiv : ti < (monitorView c.state.threads).length := by
      rw [monitorView_length]; exact hilen
    have hP := ((MonInv_iff c.state).1 hInv).2
    have hR := List.pairwise_iff_get.1 hP ⟨j, hjv⟩ ⟨ti, hiv⟩ hj
    rw [view_pair_at c j y hy hjv, view_pair_at c ti t hget hiv] at hR
    exact hne (hR ((eq_of_beq hpy).trans hid.symm))
  · simpa using hpy

theorem releaseMonitor_at (c : Core) (oid tid : String) (ti : Nat) (t : ThreadState)
    (hInv : MonInv c.state) (hget : c.state.threads.get? ti = some t)
    (hid : t.id = tid) :
    ∃ t2, (releaseMonitor c oid tid).state.threads.get? ti = some t2 ∧
      t2.id = tid ∧ (∀ x ∈ t2.holdingMonitors, x ∈ t.holdingMonitors) ∧
      (oid ∈ t.holdingMonitors → ¬ oid ∈ t2.holdingMonitors) := by
  unfold releaseMonitor
  dsimp only
  split
  next hguard =>
    dsimp only
    by_cases hoid : oid ∈ t.holdingMonitors
    · have hfirst := first_with_tid c ti t tid hInv hget hid
        (fun he => by rw [he] at hoid; cases hoid)
      have h1 := updateFirst_get?_first (fun t3 => t3.id == tid)
        (fun t3 => { t3 with holdingMonitors :=
          (t3.holdingMonitors.filter (fun m => !(m == oid))) })
        c.state.threads ti t hget (beq_iff_eq.mpr hid) hfirst
      have hnm : ¬ oid ∈ (t.holdingMonitors.filter (fun m => !(m == oid))) := by
        intro hmem
        rcases List.mem_filter.1 hmem with ⟨_, h5⟩
        simp at h5
      rcases updateFirst_get?_cases
        (fun t3 => t3.status == ThreadStatus.BLOCKED &&
          t3.waitingOnMonitor == some oid)
        (fun t3 => { t3 with status := ThreadStatus.RUNNABLE, waitingOnMonitor := none })
        _ ti _ h1 with h2 | h2
      · refine ⟨_, h2, hid, ?_, fun _ => hnm⟩
        intro x hx
        exact (List.mem_filter.1 hx).1
      · refine ⟨_, h2, hid, ?_, fun _ => hnm⟩
        intro x hx
        exact (List.mem_filter.1 hx).1
    · rcases updateFirst_get?_cases (fun t3 => t3.id == tid)
        (fun t3 => { t3 with holdingMonitors :=
          (t3.holdingMonitors.filter (fun m => !(m == oid))) })
        c.state.threads ti t hget with h1 | h1 <;>
      rcases updateFirst_get?_cases
        (fun t3 => t3.status == ThreadStatus.BLOCKED &&
          t3.waitingOnMonitor == some oid)
        (fun t3 => { t3 with status := ThreadStatus.RUNNABLE, waitingOnMonitor := none })
        _ ti _ h1 with h2 | h2
      · exact ⟨_, h2, hid, fun x hx => hx, fun h5 => absurd h5 hoid⟩
      · exact ⟨_, h2, hid, fun x hx => hx, fun h5 => absurd h5 hoid⟩
      · exact ⟨_, h2, hid, fun x hx => (List.mem_filter.1 hx).1,
          fun h5 => absurd h5 hoid⟩
      · exact ⟨_, h2, hid, fun x hx => (List.mem_filter.1 hx).1,
          fun h5 => absurd h5 hoid⟩
  next hguard =>
    refine ⟨t, hget, hid, fun x hx => hx, ?_⟩
    intro hoid
    exfalso
    have hmem : (t.id, t.holdingMonitors) ∈ monitorView c.state.threads :=
      List.mem_map.2 ⟨t, List.get?_mem hget, rfl⟩
    have hlook := ((MonInv_iff c.state).1 hInv).1.2 (t.id, t.holdingMonitors) hmem oid hoid
    rw [hid] at hlook
    apply hguard
    rw [hlook]
    simp

theorem setThread_id (F : Core) (ti : Nat) (t2 : ThreadState)
    (hget : F.state.threads.get? ti = some t2) : setThread F ti t2 = F := by
  unfold setThread
  rw [set_get_eq _ _ _ hget]

theorem release_fold (l : List String) (tid : String) :
    ∀ (c : Core) (ti : Nat) (t : ThreadState),
    MonInv c.state → c.state.threads.get? ti = some t → t.id = tid →
    (∀ x ∈ t.holdingMonitors, x ∈ l) →
    MonInv ((l.foldl (fun c2 m => releaseMonitor c2 m tid) c)).state ∧
    ∃ t2, (l.foldl (fun c2 m => releaseMonitor c2 m tid) c).state.threads.get? ti =
        some t2 ∧ t2.id = tid ∧ t2.holdingMonitors = [] := by
  induction l with
  | nil =>
      intro c ti t hInv hget hid hsub
      refine ⟨hInv, t, hget, hid, ?_⟩
      cases hh : t.holdingMonitors with
      | nil => rfl
      | cons a as =>
          exact absurd (hsub a (by rw [hh]; exact List.mem_cons_self ..)) (by simp)
  | cons m ls ih =>
      intro c ti t hInv hget hid hsub
      simp only [List.foldl_cons]
      rcases releaseMonitor_at c m tid ti t hInv hget hid with
        ⟨t2, hget2, hid2, hsub2, hrem⟩
      have hInv2 := releaseMonitor_preserves c m tid hInv
      refine ih (releaseMonitor c m tid) ti t2 hInv2 hget2 hid2 ?_
      intro x hx
      have hxt := hsub2 x hx
      rcases List.mem_cons.1 (hsub x hxt) with hxm | hxls
      · subst hxm
        exact absurd hx (hrem hxt)
      · exact hxls

theorem terminateThread_preserves (c : Core) (ti : Nat) (t : ThreadState)
    (hget : c.state.threads.get? ti = some t) (hInv : MonInv c.state) :
    MonInv (terminateThread c ti t).state := by
  have hlt := lt_of_getThread hget
  unfold terminateThread
  dsimp only
  rw [modifyThread_eq _ hget]
  have hInv1 : MonInv (setThread c ti
      { t with status := ThreadStatus.TERMINATED }).state := by
    rw [MonInv_iff]
    unfold setThread
    dsimp only
    rw [monitorView_set_invar c.state.threads ti t
      { t with status := ThreadStatus.TERMINATED } hget rfl rfl]
    exact (MonInv_iff c.state).1 hInv
  have hget1 : (setThread c ti
      { t with status := ThreadStatus.TERMINATED }).state.threads.get? ti =
      some { t with status := ThreadStatus.TERMINATED } := setThread_get _ hlt
  rcases release_fold t.holdingMonitors t.id
      (setThread c ti { t with status := ThreadStatus.TERMINATED }) ti
      { t with status := ThreadStatus.TERMINATED } hInv1 hget1 rfl
      (fun x hx => hx) with ⟨hInv2, t2, hget2, _, hh2⟩
  rw [modifyThread_eq _ hget2]
  have heta : ({ t2 with holdingMonitors := [] } : ThreadState) = t2 := by
    rw [← hh2]
  rw [heta]
  rw [setThread_id _ _ _ hget2]
  exact hInv2

theorem MonInv_of_empty (s : VMState) (hm : s.monitors = [])
    (hv : ∀ p ∈ monitorView s.threads, p.2 = []) : MonInv s := by
  refine ⟨⟨?_, ?_⟩, ?_⟩
  · intro o tid hlook
    rw [hm] at hlook
    simp [List.lookup] at hlook
  · intro p hp o ho
    rw [hv p hp] at ho
    cases ho
  · apply List.pairwise_of_forall_mem_list
    intro a _ b hb _
    exact hv b hb

theorem initSim_MonInv (h : Host) (prog : CompiledProgram) :
    MonInv (initSim h prog).state := by
  apply MonInv_of_empty
  · unfold initSim
    dsimp only
    split
    · show (prog.classes.foldl (loadClassIntoState prog)
        createInitialJVMState).monitors = []
      rw [foldl_field_invar (loadClassIntoState prog) VMState.monitors
        (fun _ _ => rfl) prog.classes createInitialJVMState]
      rfl
    · show (prog.classes.foldl (loadClassIntoState prog)
        createInitialJVMState).monitors = []
      rw [foldl_field_invar (loadClassIntoState prog) VMState.monitors
        (fun _ _ => rfl) prog.classes createInitialJVMState]
      rfl
  · intro p hp
    unfold initSim at hp
    dsimp only at hp
    split at hp
    · have hp2 : p = ("thread_main", []) := by
        simpa [monitorView] using hp
      rw [hp2]
    · rw [show monitorView (prog.classes.foldl (loadClassIntoState prog)
          createInitialJVMState).threads = monitorView createInitialJVMState.threads from by
        rw [foldl_field_invar (loadClassIntoState prog) VMState.threads
          (fun _ _ => rfl) prog.classes createInitialJVMState]] at hp
      cases hp

/-- C3: the two-way monitor agreement (every monitor-table entry with a
non-free thread id is matched by that id's holding_monitors list, and
conversely), strengthened with the first-holder discipline (a later
thread with a duplicated id holds nothing), holds in the initial state of
every newly constructed simulator and is preserved by each of the
monitor-mutating primitives the step loop uses: monitor acquisition,
monitor release (which also wakes one blocked waiter), and thread
termination, which releases every monitor the dying thread held and then
clears its list. -/
theorem monitor_agreement :
    (∀ (h : Host) (prog : CompiledProgram),
      MonInv (newSimulator h prog).core.state) ∧
    (∀ (c : Core) (oid tid : String), MonInv c.state →
      (∃ t ∈ c.state.threads, t.id = tid) →
      MonInv (acquireMonitor c oid tid).2.state) ∧
    (∀ (c : Core) (oid tid : String), MonInv c.state →
      MonInv (releaseMonitor c oid tid).state) ∧
    (∀ (c : Core) (ti : Nat) (t : ThreadState),
      c.state.threads.get? ti = some t → MonInv c.state →
      MonInv (terminateThread c ti t).state) :=
  ⟨fun h prog => initSim_MonInv h prog,
   fun c oid tid hI hex => acquireMonitor_preserves c oid tid hI hex,
   fun c oid tid hI => releaseMonitor_preserves c oid tid hI,
   fun c ti t hg hI => terminateThread_preserves c ti t hg hI⟩

set_option maxRecDepth 100000 in
/-- Witness for C3: the fresh hello-world simulator satisfies the
invariant, its main thread exists, and acquiring a monitor preserves it. -/
theorem monitor_agreement_witness :
    MonInv (newSimulator trivialHost tinyProg).core.state ∧
    (∃ t ∈ (newSimulator trivialHost tinyProg).core.state.threads,
      t.id = "thread_main") ∧
    MonInv (acquireMonitor (newSimulator trivialHost tinyProg).core
      "obj_9" "thread_main").2.state := by
  have hex : ∃ t ∈ (newSimulator trivialHost tinyProg).core.state.threads,
      t.id = "thread_main" := by decide
  exact ⟨monitor_agreement.1 trivialHost tinyProg, hex,
    monitor_agreement.2.1 _ "obj_9" "thread_main"
      (monitor_agreement.1 trivialHost tinyProg) hex⟩

end JVM8
